import Mathlib

/-!
# SceneEngine utilities: pipeline state save/restore, Gaussian weights, terrain materials

A shallow embedding of `SceneEngine/SceneEngineUtils.cpp` and
`SceneEngine/TerrainMaterial.cpp`.

* Native objects (views, state blocks, buffers) are handles, `0` being the null pointer.
* A device context is a record of the pipeline slots the code reads and writes; every
  call the code issues on a context is a `DeviceCall`, interpreted by `DeviceCall.apply`.
* C++ member arrays are lists; `a[c] = v` is `List.set`, `a[c]` is `List.getD`.
* Constants, enumerations, array lengths and text conversions that the two files take
  from headers outside the sources are parameters: the fields of `Decls`, `TerrainDecls`
  and `Conversions`. The values named `sample` only serve to evaluate the definitions
  at concrete inputs.
* The theorems come after all the definitions.
-/

namespace SceneEngine

/-! ## The device context -/

/-- A pointer to a native object; `0` is the null pointer. -/
abbrev Handle := Nat

/-- The six numbers of a `Metal::ViewportDesc`. The code only stores and
copies them, so the float fields are carried as integers. -/
structure ViewportDesc where
  TopLeftX : Int
  TopLeftY : Int
  Width : Int
  Height : Int
  MinDepth : Int
  MaxDepth : Int
deriving DecidableEq, Repr

/-- The four floats of a blend factor, carried as integers. -/
abbrev Float4 := Int × Int × Int × Int

/-- The bits of `ProtectState::States`. The enumeration is declared in
SceneEngineUtils.h, outside the sources, so its values are parameters. -/
structure StatesEnum where
  RenderTargets : Nat
  Viewports : Nat
  DepthStencilState : Nat
  BlendState : Nat
  RasterizerState : Nat
  InputLayout : Nat
  VertexBuffer : Nat
  IndexBuffer : Nat
  Topology : Nat
deriving DecidableEq, Repr

/-- Declarations of SceneEngineUtils.h and of the Metal layer that the source
uses and that are outside the sources: the state bits, the array lengths
`dimof(_oldTargets)` and `dimof(_oldViewports)`, the loop bound
`MaxSimultaneousRenderTargetCount`, `s_vbCount`, the value that
`Metal::ViewportDesc()` builds, the four-argument constructor
`Metal::ViewportDesc(x, y, width, height)`, the topology constant
`Metal::Topology::TriangleStrip` and the state block
`CommonResources()._dssWriteOnly`. -/
structure Decls where
  States : StatesEnum
  MaxSimultaneousRenderTargetCount : Nat
  dimof_oldTargets : Nat
  dimof_oldViewports : Nat
  s_vbCount : Nat
  ViewportDesc_ctor : ViewportDesc
  ViewportDesc_ofRect : Int → Int → Int → Int → ViewportDesc
  Topology_TriangleStrip : Nat
  dssWriteOnly : Handle

/-- The test `_states & flag` of the source, read as a C++ condition. -/
def hasState (states flag : Nat) : Bool := states &&& flag != 0

/-- Modelled from the spec: the part of a device context (RenderCore/Metal
DeviceContext over the vendor API, outside the sources) that the code reads
and writes through state get/set calls: the output-merger render-target slots
and depth target, the bound viewports, the depth-stencil, blend and rasterizer
state blocks, the input layout, the vertex-buffer slots, the index buffer and
the primitive topology. -/
structure DeviceContext where
  renderTargets : Nat → Handle
  depthTarget : Handle
  viewports : List ViewportDesc
  depthStencilState : Handle
  blendState : Handle
  blendFactor : Float4
  blendSampleMask : Nat
  rasterizerState : Handle
  inputLayout : Handle
  vertexBuffers : Nat → Handle
  vbStrides : Nat → Nat
  vbOffsets : Nat → Nat
  indexBuffer : Handle
  ibFormat : Nat
  ibOffset : Nat
  topology : Nat

/-- The calls the source issues on a device context, named as the source
writes them. -/
inductive DeviceCall where
  | OMSetRenderTargets (numViews : Nat) (views : List Handle) (dsv : Handle)
  | RSSetViewports (count : Nat) (viewports : List ViewportDesc)
  | Bind_DepthStencilState (dss : Handle)
  | OMSetBlendState (bs : Handle) (factor : Float4) (mask : Nat)
  | Bind_RasterizerState (rs : Handle)
  | Bind_BoundInputLayout (il : Handle)
  | IASetVertexBuffers (start count : Nat) (buffers : List Handle)
      (strides offsets : List Nat)
  | IASetIndexBuffer (ib : Handle) (format offset : Nat)
  | IASetPrimitiveTopology (t : Nat)
  | Bind_ViewportDesc (vp : ViewportDesc)
  | Bind_RenderTargets (views : List Handle) (dsv : Handle)
  | Bind_ShaderProgram (vs ps : String)
  | Apply_Uniforms
  | BindPS (srvs : List Handle)
  | Bind_Topology (t : Nat)
  | Unbind_VertexBuffer
  | Unbind_BoundInputLayout
  | Draw (vertexCount : Nat)
  | UnbindPS (start count : Nat)
deriving DecidableEq, Repr

/-- Modelled from the spec: what a state-setting call does to the slots of
`DeviceContext` (the vendor API and its Metal wrappers are outside the
sources). `OMSetRenderTargets` binds `numViews` slots and clears the others;
`RSSetViewports` replaces the bound viewports by the first `count` of the
array; `IASetVertexBuffers` writes the slots `start .. start+count-1`;
`Unbind<VertexBuffer>` clears slot 0 and `Unbind<BoundInputLayout>` the input
layout; the binding of a shader, of shader resources and of uniforms and a
draw leave every slot of the record alone. -/
def DeviceCall.apply (ctx : DeviceContext) : DeviceCall → DeviceContext
  | .OMSetRenderTargets numViews views dsv =>
      { ctx with
        renderTargets := fun i => if i < numViews then views.getD i 0 else 0
        depthTarget := dsv }
  | .RSSetViewports count viewports => { ctx with viewports := viewports.take count }
  | .Bind_DepthStencilState dss => { ctx with depthStencilState := dss }
  | .OMSetBlendState bs factor mask =>
      { ctx with blendState := bs, blendFactor := factor, blendSampleMask := mask }
  | .Bind_RasterizerState rs => { ctx with rasterizerState := rs }
  | .Bind_BoundInputLayout il => { ctx with inputLayout := il }
  | .IASetVertexBuffers start count buffers strides offsets =>
      { ctx with
        vertexBuffers := fun i =>
          if start ≤ i ∧ i < start + count then buffers.getD (i - start) 0
          else ctx.vertexBuffers i
        vbStrides := fun i =>
          if start ≤ i ∧ i < start + count then strides.getD (i - start) 0
          else ctx.vbStrides i
        vbOffsets := fun i =>
          if start ≤ i ∧ i < start + count then offsets.getD (i - start) 0
          else ctx.vbOffsets i }
  | .IASetIndexBuffer ib format offset =>
      { ctx with indexBuffer := ib, ibFormat := format, ibOffset := offset }
  | .IASetPrimitiveTopology t => { ctx with topology := t }
  | .Bind_ViewportDesc vp => { ctx with viewports := [vp] }
  | .Bind_RenderTargets views dsv =>
      { ctx with
        renderTargets := fun i => if i < views.length then views.getD i 0 else 0
        depthTarget := dsv }
  | .Bind_ShaderProgram _ _ => ctx
  | .Apply_Uniforms => ctx
  | .BindPS _ => ctx
  | .Bind_Topology t => { ctx with topology := t }
  | .Unbind_VertexBuffer =>
      { ctx with
        vertexBuffers := fun i => if i = 0 then 0 else ctx.vertexBuffers i
        vbStrides := fun i => if i = 0 then 0 else ctx.vbStrides i
        vbOffsets := fun i => if i = 0 then 0 else ctx.vbOffsets i }
  | .Unbind_BoundInputLayout => { ctx with inputLayout := 0 }
  | .Draw _ => ctx
  | .UnbindPS _ _ => ctx

/-- A sequence of calls issued on one context, in order. -/
def DeviceContext.run (ctx : DeviceContext) (calls : List DeviceCall) : DeviceContext :=
  calls.foldl DeviceCall.apply ctx

/-- Modelled from the spec: `OMGetRenderTargets(numViews, views, &dsv)` reads
the first `numViews` render-target slots and the depth target. -/
def DeviceContext.OMGetRenderTargets (ctx : DeviceContext) (numViews : Nat) :
    List Handle × Handle :=
  ((List.range numViews).map ctx.renderTargets, ctx.depthTarget)

/-- Modelled from the spec: `RSGetViewports(&count, buffer)` copies the bound
viewports into the front of `buffer`, as many as the count passed in allows,
and leaves in `count` how many it copied. -/
def DeviceContext.RSGetViewports (ctx : DeviceContext) (count : Nat)
    (buffer : List ViewportDesc) : Nat × List ViewportDesc :=
  let n := min count ctx.viewports.length
  (n, ctx.viewports.take n ++ buffer.drop n)

/-- Modelled from the spec: `IAGetVertexBuffers(0, count, ...)` reads the
buffers, strides and offsets of the slots `0 .. count-1`. -/
def DeviceContext.IAGetVertexBuffers (ctx : DeviceContext) (count : Nat) :
    List Handle × List Nat × List Nat :=
  ((List.range count).map ctx.vertexBuffers,
   (List.range count).map ctx.vbStrides,
   (List.range count).map ctx.vbOffsets)

/-- Every device context of the program, by identity: a `Metal::DeviceContext*`
is the index of the context it points to. -/
abbrev World := Nat → DeviceContext

/-- One call issued on the context `e.1`. -/
def World.issue (w : World) (e : Nat × DeviceCall) : World :=
  Function.update w e.1 (DeviceCall.apply (w e.1) e.2)

/-- A trace of calls, each with the context it is issued on, in order. -/
def World.run (w : World) (trace : List (Nat × DeviceCall)) : World :=
  trace.foldl World.issue w

/-! ## SavedTargets -/

/-- The members of `SavedTargets`. -/
structure SavedTargets where
  _oldTargets : List Handle
  _oldDepthTarget : Handle
  _oldViewports : List ViewportDesc
  _oldViewportCount : Nat
deriving DecidableEq, Repr

/-- `SavedTargets::SavedTargets()`: no viewport, null targets; the viewport
array holds default-constructed descriptors. -/
def SavedTargets.default (D : Decls) : SavedTargets :=
  { _oldViewportCount := 0
    _oldTargets := List.replicate D.dimof_oldTargets 0
    _oldDepthTarget := 0
    _oldViewports := List.replicate D.dimof_oldViewports D.ViewportDesc_ctor }

/-- `SavedTargets::SavedTargets(Metal::DeviceContext&)`. -/
def SavedTargets.ofContext (D : Decls) (context : DeviceContext) : SavedTargets :=
  let _oldViewportCount := D.dimof_oldViewports
  let _oldTargets := List.replicate D.dimof_oldTargets 0
  let got := context.OMGetRenderTargets D.dimof_oldTargets
  let _oldTargets := got.1 ++ _oldTargets.drop D.dimof_oldTargets
  let vps := context.RSGetViewports _oldViewportCount
    (List.replicate D.dimof_oldViewports D.ViewportDesc_ctor)
  { _oldViewportCount := vps.1
    _oldTargets := _oldTargets
    _oldDepthTarget := got.2
    _oldViewports := vps.2 }

/-- One round of the loop shared by the move constructor and the move
assignment: slot `c` of the targets and of the viewports goes from `moveFrom`
to `self`, and `moveFrom` keeps a null target and a default viewport there. -/
def SavedTargets.moveSlot (D : Decls) (p : SavedTargets × SavedTargets) (c : Nat) :
    SavedTargets × SavedTargets :=
  let self := p.1
  let moveFrom := p.2
  let self := { self with _oldTargets := self._oldTargets.set c (moveFrom._oldTargets.getD c 0) }
  let self := { self with
    _oldViewports := self._oldViewports.set c (moveFrom._oldViewports.getD c D.ViewportDesc_ctor) }
  let moveFrom := { moveFrom with _oldTargets := moveFrom._oldTargets.set c 0 }
  let moveFrom := { moveFrom with _oldViewports := moveFrom._oldViewports.set c D.ViewportDesc_ctor }
  (self, moveFrom)

/-- `SavedTargets::operator=(SavedTargets&&)` for two distinct objects: the
pair is `(*this, moveFrom)` after the call. Nothing is released. -/
def SavedTargets.moveAssign (D : Decls) (self moveFrom : SavedTargets) :
    SavedTargets × SavedTargets :=
  let self := { self with _oldViewportCount := moveFrom._oldViewportCount }
  let moveFrom := { moveFrom with _oldViewportCount := 0 }
  let p := (List.range D.MaxSimultaneousRenderTargetCount).foldl
    (SavedTargets.moveSlot D) (self, moveFrom)
  let self := { p.1 with _oldDepthTarget := p.2._oldDepthTarget }
  let moveFrom := { p.2 with _oldDepthTarget := 0 }
  (self, moveFrom)

/-- `SavedTargets::SavedTargets(SavedTargets&&)`: the same statements as the
move assignment, run on a new object whose arrays hold null targets and
default-constructed viewports. -/
def SavedTargets.moveCtor (D : Decls) (moveFrom : SavedTargets) :
    SavedTargets × SavedTargets :=
  SavedTargets.moveAssign D (SavedTargets.default D) moveFrom

/-- `SavedTargets::ResetToOldTargets`: the two calls it issues on the context. -/
def SavedTargets.ResetToOldTargets (D : Decls) (t : SavedTargets) : List DeviceCall :=
  [ .OMSetRenderTargets D.dimof_oldTargets t._oldTargets t._oldDepthTarget,
    .RSSetViewports t._oldViewportCount t._oldViewports ]

/-! ## ProtectState -/

/-- The members of `ProtectState` that the source reads or writes outside the
move operations; `_context` is `none` for a null pointer. -/
structure ProtectState where
  _context : Option Nat
  _states : Nat
  _targets : SavedTargets
  _depthStencilState : Handle
  _blendState : Handle
  _blendFactor : Float4
  _blendSampleMask : Nat
  _rasterizerState : Handle
  _inputLayout : Handle
  _vertexBuffers : List Handle
  _vbStrides : List Nat
  _vbOffsets : List Nat
  _indexBuffer : Handle
  _ibFormat : Nat
  _ibOffset : Nat
  _topology : Nat
deriving DecidableEq, Repr

/-- `ProtectState::ProtectState(Metal::DeviceContext&, States::BitField)`, run
while the world is `w`. The constructor has no member initialiser beyond
`_context` and `_states`: `junk` holds what the other members contain when the
body starts (indeterminate for the plain members, whatever the default
constructors of the Metal state blocks build for those), except that
`_targets` is a default `SavedTargets` and the smart pointers are null. -/
def ProtectState.ctor (D : Decls) (junk : ProtectState) (context : Nat) (w : World)
    (states : Nat) : ProtectState :=
  let ctx := w context
  let p : ProtectState := { junk with
    _context := some context
    _states := states
    _targets := SavedTargets.default D
    _blendState := 0
    _indexBuffer := 0
    _vertexBuffers := List.replicate D.s_vbCount 0 }
  let p := if hasState p._states D.States.RenderTargets || hasState p._states D.States.Viewports
    then { p with
      _targets := (SavedTargets.moveAssign D p._targets (SavedTargets.ofContext D ctx)).1 }
    else p
  let p := if hasState p._states D.States.DepthStencilState
    then { p with _depthStencilState := ctx.depthStencilState }
    else p
  let p := if hasState p._states D.States.BlendState
    then { p with
      _blendState := ctx.blendState
      _blendFactor := ctx.blendFactor
      _blendSampleMask := ctx.blendSampleMask }
    else p
  let p := if hasState p._states D.States.RasterizerState
    then { p with _rasterizerState := ctx.rasterizerState }
    else p
  let p := if hasState p._states D.States.InputLayout
    then { p with _inputLayout := ctx.inputLayout }
    else p
  let p := if hasState p._states D.States.VertexBuffer
    then
      let got := ctx.IAGetVertexBuffers D.s_vbCount
      { p with
        _vbStrides := got.2.1
        _vbOffsets := got.2.2
        _vertexBuffers := (List.range D.s_vbCount).map (fun c => got.1.getD c 0) }
    else p
  let p := if hasState p._states D.States.IndexBuffer
    then { p with
      _indexBuffer := ctx.indexBuffer
      _ibFormat := ctx.ibFormat
      _ibOffset := ctx.ibOffset }
    else p
  let p := if hasState p._states D.States.Topology
    then { p with _topology := ctx.topology }
    else p
  p

/-- `ProtectState::ProtectState()`: null context, no state selected; `junk`
holds the members the constructor does not assign. -/
def ProtectState.default (D : Decls) (junk : ProtectState) : ProtectState :=
  { junk with
    _targets := SavedTargets.default D
    _blendState := 0
    _indexBuffer := 0
    _vertexBuffers := List.replicate D.s_vbCount 0
    _context := none
    _states := 0
    _ibFormat := 0
    _ibOffset := 0
    _topology := 0 }

/-- The calls that the body of `ProtectState::ResetStates` issues on
`*_context` when `_context` is not null, in the order of the source. -/
def ProtectState.resetCalls (D : Decls) (p : ProtectState) : List DeviceCall :=
  (if hasState p._states D.States.RenderTargets || hasState p._states D.States.Viewports
    then p._targets.ResetToOldTargets D else []) ++
  (if hasState p._states D.States.DepthStencilState
    then [.Bind_DepthStencilState p._depthStencilState] else []) ++
  (if hasState p._states D.States.BlendState
    then [.OMSetBlendState p._blendState p._blendFactor p._blendSampleMask] else []) ++
  (if hasState p._states D.States.RasterizerState
    then [.Bind_RasterizerState p._rasterizerState] else []) ++
  (if hasState p._states D.States.InputLayout
    then [.Bind_BoundInputLayout p._inputLayout] else []) ++
  (if hasState p._states D.States.VertexBuffer
    then
      let rawptrs := (List.range D.s_vbCount).map (fun c => p._vertexBuffers.getD c 0)
      [.IASetVertexBuffers 0 D.s_vbCount rawptrs p._vbStrides p._vbOffsets]
    else []) ++
  (if hasState p._states D.States.IndexBuffer
    then [.IASetIndexBuffer p._indexBuffer p._ibFormat p._ibOffset] else []) ++
  (if hasState p._states D.States.Topology
    then [.IASetPrimitiveTopology p._topology] else [])

/-- The calls one run of `ProtectState::ResetStates` issues, each with the
context it goes to: none when `_context` is null. -/
def ProtectState.ResetStates_trace (D : Decls) (p : ProtectState) : List (Nat × DeviceCall) :=
  match p._context with
  | some context => (p.resetCalls D).map (fun call => (context, call))
  | none => []

/-- `ProtectState::ResetStates`: the object and the world after the call. -/
def ProtectState.ResetStates (D : Decls) (p : ProtectState) (w : World) :
    ProtectState × World :=
  match p._context with
  | some _ => ({ p with _states := 0 }, w.run (p.ResetStates_trace D))
  | none => (p, w)

/-- `ProtectState::~ProtectState`: the world after the destructor, which
runs `ResetStates`. -/
def ProtectState.dtor (D : Decls) (p : ProtectState) (w : World) : World :=
  (p.ResetStates D w).2

/-! ## ShaderBasedCopy -/

/-- The state of the context `context` after `ProtectState(context, states)`
is constructed in the world `w` and its `ResetStates` runs in the world `w'`. -/
def ProtectState.restored (D : Decls) (junk : ProtectState) (context : Nat) (w w' : World)
    (states : Nat) : DeviceContext :=
  ((ProtectState.ctor D junk context w states).ResetStates D w').2 context

/-- A choice of the constants of `Decls`, used to evaluate the definitions:
one bit a state in the order of the constructor, eight target and viewport
slots, three vertex-buffer slots. -/
def Decls.sample : Decls :=
  { States :=
      { RenderTargets := 1, Viewports := 2, DepthStencilState := 4, BlendState := 8,
        RasterizerState := 16, InputLayout := 32, VertexBuffer := 64, IndexBuffer := 128,
        Topology := 256 }
    MaxSimultaneousRenderTargetCount := 8
    dimof_oldTargets := 8
    dimof_oldViewports := 8
    s_vbCount := 3
    ViewportDesc_ctor := ⟨0, 0, 0, 0, 0, 1⟩
    ViewportDesc_ofRect := fun x y width height => ⟨x, y, width, height, 0, 1⟩
    Topology_TriangleStrip := 5
    dssWriteOnly := 90 }

/-- A context with one render target, a depth target, one viewport and two
vertex buffers bound. -/
def DeviceContext.sampleA : DeviceContext :=
  { renderTargets := fun i => if i = 0 then 11 else 0
    depthTarget := 12
    viewports := [⟨0, 0, 640, 480, 0, 1⟩]
    depthStencilState := 13
    blendState := 14
    blendFactor := (1, 1, 1, 1)
    blendSampleMask := 4294967295
    rasterizerState := 15
    inputLayout := 16
    vertexBuffers := fun i => if i < 2 then 17 + i else 0
    vbStrides := fun i => if i < 2 then 32 else 0
    vbOffsets := fun _ => 0
    indexBuffer := 19
    ibFormat := 57
    ibOffset := 0
    topology := 4 }

/-- A later state of the same context: everything rebound. -/
def DeviceContext.sampleB : DeviceContext :=
  { renderTargets := fun i => if i < 2 then 21 + i else 0
    depthTarget := 0
    viewports := [⟨0, 0, 64, 64, 0, 1⟩, ⟨64, 0, 64, 64, 0, 1⟩]
    depthStencilState := 23
    blendState := 24
    blendFactor := (0, 0, 0, 0)
    blendSampleMask := 1
    rasterizerState := 25
    inputLayout := 26
    vertexBuffers := fun _ => 27
    vbStrides := fun _ => 16
    vbOffsets := fun _ => 8
    indexBuffer := 29
    ibFormat := 42
    ibOffset := 6
    topology := 5 }

/-- Member contents before a constructor body runs, for the evaluations. -/
def ProtectState.sampleJunk : ProtectState :=
  { _context := none, _states := 77, _targets := ⟨[], 3, [], 9⟩, _depthStencilState := 31
    _blendState := 32, _blendFactor := (7, 7, 7, 7), _blendSampleMask := 33
    _rasterizerState := 34, _inputLayout := 35, _vertexBuffers := [36], _vbStrides := [37]
    _vbOffsets := [38], _indexBuffer := 39, _ibFormat := 40, _ibOffset := 41, _topology := 42 }


/-- The reference count of every native object. An object lives while its
count is positive: the `Release` that takes the count to zero destroys it,
and no call through a pointer to a destroyed object has a defined result. -/
abbrev RefCounts := Handle → Int

/-- The object behind a pointer has not been destroyed. -/
def isAlive (refs : RefCounts) (view : Handle) : Bool :=
  decide (0 < refs view)

/-- `view->AddRef()`: one more reference on a live object; `none` for a call
through a pointer to a destroyed object, which is undefined. -/
def AddRef (refs : RefCounts) (view : Handle) : Option RefCounts :=
  if isAlive refs view then some (fun h => if h = view then refs h + 1 else refs h)
  else none

/-- `view->Release()`: one reference fewer on a live object, which is
destroyed when its count reaches zero; `none` for a call through a pointer to
a destroyed object, which is undefined. -/
def Release (refs : RefCounts) (view : Handle) : Option RefCounts :=
  if isAlive refs view then some (fun h => if h = view then refs h - 1 else refs h)
  else none

/-- Modelled from the spec: the vendor call `OMGetRenderTargets` hands out one
reference on every non-null view it returns (object reference counting is
part of the external interface). -/
def acquireViews (refs : RefCounts) (views : List Handle) : Option RefCounts :=
  views.foldl
    (fun (r : Option RefCounts) v => r.bind (fun r => if v ≠ 0 then AddRef r v else some r))
    (some refs)

/-- `SavedTargets::~SavedTargets`: one `Release` for every non-null entry of
`_oldTargets`, then one for `_oldDepthTarget` when it is not null. -/
def SavedTargets.dtor (D : Decls) (t : SavedTargets) (refs : RefCounts) : Option RefCounts :=
  let refs := (List.range D.dimof_oldTargets).foldl
    (fun (r : Option RefCounts) c => r.bind (fun r =>
      if t._oldTargets.getD c 0 ≠ 0 then Release r (t._oldTargets.getD c 0) else some r))
    (some refs)
  refs.bind (fun refs =>
    if t._oldDepthTarget ≠ 0 then Release refs t._oldDepthTarget else some refs)

/-- `SavedTargets::SetDepthStencilView(dsv)`: the object and the reference
counts after the call, `none` when one of its two calls goes through a
pointer to a destroyed view. The `Release` comes first, as in the source. -/
def SavedTargets.SetDepthStencilView (t : SavedTargets) (dsv : Handle) (refs : RefCounts) :
    Option (SavedTargets × RefCounts) :=
  (if t._oldDepthTarget ≠ 0 then Release refs t._oldDepthTarget else some refs).bind
    (fun refs =>
      let t := { t with _oldDepthTarget := dsv }
      (AddRef refs t._oldDepthTarget).map (fun refs => (t, refs)))

/-- `SavedTargets::operator=(SavedTargets&&)` when `moveFrom` is `*this`: the
same statements, every read and write going to the one object. -/
def SavedTargets.moveAssignSelf (D : Decls) (self : SavedTargets) : SavedTargets :=
  let self := { self with _oldViewportCount := self._oldViewportCount }
  let self := { self with _oldViewportCount := 0 }
  let self := (List.range D.MaxSimultaneousRenderTargetCount).foldl
    (fun (s : SavedTargets) c =>
      let s := { s with _oldTargets := s._oldTargets.set c (s._oldTargets.getD c 0) }
      let s := { s with
        _oldViewports := s._oldViewports.set c (s._oldViewports.getD c D.ViewportDesc_ctor) }
      let s := { s with _oldTargets := s._oldTargets.set c 0 }
      { s with _oldViewports := s._oldViewports.set c D.ViewportDesc_ctor })
    self
  let self := { self with _oldDepthTarget := self._oldDepthTarget }
  { self with _oldDepthTarget := 0 }

/-- The `SavedTargets` objects of a program, in order of construction (`none`
once destroyed), the reference counts of the views, and whether a call went
through a pointer to a destroyed view. -/
structure Lifetimes where
  objects : List (Option SavedTargets)
  refs : RefCounts
  undefined : Bool

/-- One operation on `SavedTargets` objects; objects are named by their
position in `Lifetimes.objects`. -/
inductive SavedTargetsOp where
  | construct (context : DeviceContext)
  | constructDefault
  | moveConstruct (moveFrom : Nat)
  | moveAssign (self moveFrom : Nat)
  | SetDepthStencilView (self : Nat) (dsv : Handle)
  | destroy (self : Nat)

/-- The object at a position, when it is alive. -/
def Lifetimes.object (l : Lifetimes) (i : Nat) : Option SavedTargets :=
  (l.objects.getD i none)

/-- The objects and counts after an operation whose reference counting gave
`refs`; when that went through a pointer to a destroyed view the program is
marked undefined and nothing else changes. -/
def Lifetimes.counted (l : Lifetimes) (objects : List (Option SavedTargets))
    (refs : Option RefCounts) : Lifetimes :=
  match refs with
  | some refs => { l with objects := objects, refs := refs }
  | none => { l with undefined := true }

/-- The effect of one operation. An operation that names an object that is
not alive does nothing, and nothing happens any more once the program is
undefined. -/
def Lifetimes.step (D : Decls) (l : Lifetimes) (op : SavedTargetsOp) : Lifetimes :=
  if l.undefined then l
  else
    match op with
    | .construct context =>
        let t := SavedTargets.ofContext D context
        let got := context.OMGetRenderTargets D.dimof_oldTargets
        l.counted (l.objects ++ [some t]) (acquireViews l.refs (got.1 ++ [got.2]))
    | .constructDefault => { l with objects := l.objects ++ [some (SavedTargets.default D)] }
    | .moveConstruct moveFrom =>
        match l.object moveFrom with
        | some src =>
            let r := SavedTargets.moveCtor D src
            { l with objects := (l.objects.set moveFrom (some r.2)) ++ [some r.1] }
        | none => l
    | .moveAssign self moveFrom =>
        if self = moveFrom then
          match l.object self with
          | some t =>
              { l with objects := l.objects.set self (some (SavedTargets.moveAssignSelf D t)) }
          | none => l
        else
          match l.object self, l.object moveFrom with
          | some dst, some src =>
              let r := SavedTargets.moveAssign D dst src
              { l with objects := (l.objects.set self (some r.1)).set moveFrom (some r.2) }
          | _, _ => l
    | .SetDepthStencilView self dsv =>
        match l.object self with
        | some t =>
            match t.SetDepthStencilView dsv l.refs with
            | some r => { l with objects := l.objects.set self (some r.1), refs := r.2 }
            | none => { l with undefined := true }
        | none => l
    | .destroy self =>
        match l.object self with
        | some t => l.counted (l.objects.set self none) (t.dtor D l.refs)
        | none => l

/-- A sequence of operations, from no object at all. -/
def Lifetimes.run (D : Decls) (refs : RefCounts) (ops : List SavedTargetsOp) : Lifetimes :=
  ops.foldl (Lifetimes.step D) { objects := [], refs := refs, undefined := false }

/-! ## BuildGaussianFilteringWeights -/

/-- The conversion `int(x)` of a 32-bit `unsigned` value: values from `2^31`
on come out negative. -/
def asInt32 (x : Nat) : Int :=
  if x % 2 ^ 32 < 2 ^ 31 then ((x % 2 ^ 32 : Nat) : Int) else ((x % 2 ^ 32 : Nat) : Int) - 2 ^ 32

/-- The weight the first loop writes at index `c`:
`exp(-float(xb * xb) / (2.f * standardDeviation * standardDeviation))` with
`centre = weightsCount / 2` and `xb = XlAbs(centre - c)`, the product `xb * xb`
being taken in 32-bit `unsigned` arithmetic. -/
def gaussianWeight {F : Type} [Field F] (exp : F → F) (standardDeviation : F)
    (weightsCount : Nat) (c : Nat) : F :=
  let centre : Int := asInt32 (weightsCount / 2)
  let xb : Nat := (centre - (c : Int)).natAbs % 2 ^ 32
  exp (-(((xb * xb % 2 ^ 32 : Nat) : F)) / (2 * standardDeviation * standardDeviation))

/-- `BuildGaussianFilteringWeights(result, standardDeviation, weightsCount)` over
a field `F` standing for `float`, with `exp` standing for `std::exp`: the
contents of `result` after the call, from its contents before. The first
loop runs while `c < int(weightsCount)`, the second while `c < weightsCount`. -/
def BuildGaussianFilteringWeights {F : Type} [Field F] (exp : F → F) (result : Nat → F)
    (standardDeviation : F) (weightsCount : Nat) : Nat → F :=
  let total : F := 0
  let st := (List.range (asInt32 weightsCount).toNat).foldl
    (fun (st : (Nat → F) × F) c =>
      let result := Function.update st.1 c (gaussianWeight exp standardDeviation weightsCount c)
      (result, st.2 + result c))
    (result, total)
  (List.range weightsCount).foldl (fun result c => Function.update result c (result c / st.2))
    st.1

/-! ## Terrain material configuration -/

/-- The name of an attribute of the structured text: a plain name, or the name
of an array property with the subscript of one of its elements. -/
structure AttrName where
  name : String
  index : Option Nat
deriving DecidableEq, Repr

/-- Modelled from the spec: an element of the structured text format as the
document reader (Utility/Streams/StreamDOM.h, outside the sources) presents
it: a name, attributes with their text values, child elements, each list in
the order of the text. A document is the element that holds the top level. -/
inductive Element where
  | mk (name : String) (attributes : List (AttrName × String)) (children : List Element)

/-- `element.Name()`. -/
def Element.name : Element → String
  | .mk name _ _ => name

/-- The attributes of an element, in order. -/
def Element.attributes : Element → List (AttrName × String)
  | .mk _ attributes _ => attributes

/-- The child elements, in order: what `FirstChild()` and `NextSibling()` walk. -/
def Element.children : Element → List Element
  | .mk _ _ children => children

/-- Modelled from the spec: `element.Attribute(name)`, the value of the first
attribute with that plain name, none when there is no such attribute. -/
def Element.Attribute (e : Element) (name : String) : Option String :=
  (e.attributes.find? (fun a => a.1 = ⟨name, none⟩)).map (fun a => a.2)

/-- Modelled from the spec: `element.Attribute(name).Value()`, empty for an
attribute that is absent. -/
def Element.AttributeValue (e : Element) (name : String) : String :=
  (e.Attribute name).getD ""

/-- Modelled from the spec: `element.Element(name)`, the first child with that
name; an absent child has no children of its own. -/
def Element.ChildElement (e : Element) (name : String) : Option Element :=
  e.children.find? (fun c => c.name = name)

/-- Modelled from the spec: `Deserialize(element, name, default)` of StreamDOM.h:
the attribute parsed to the type of the default, the default when the
attribute is absent or does not parse. -/
def Deserialize {α : Type} (parse : String → Option α) (e : Element) (name : String)
    (dflt : α) : α :=
  match e.Attribute name with
  | some v => (parse v).getD dflt
  | none => dflt

/-- The text conversions of the Utility layer (ImpliedTyping, Conversion;
outside the sources), as parameters: parsing of an attribute value to each
type the code asks for, `ImpliedTyping::Parse` followed by
`ImpliedTyping::Cast` to an array of `count` floats written over `dest`, and
the text the serializer writes for a value of each type. -/
structure Conversions where
  parseUInt : String → Option Nat
  parseInt : String → Option Int
  parseFloat : String → Option ℚ
  parseFloat4 : String → Option (ℚ × ℚ × ℚ × ℚ)
  parseUInt2 : String → Option (Nat × Nat)
  parseCastFloats : String → Nat → List ℚ → List ℚ
  showUInt : Nat → String
  showFloat : ℚ → String
  showUInt2 : Nat × Nat → String

/-- The array lengths declared in TerrainMaterial.h, outside the sources:
`dimof` of `_texture` and `_mappingConstant` of a grad-flag material and of a
stratum, and of `_texture` of a procedural texture setting. -/
structure TerrainDecls where
  dimof_GradFlag_texture : Nat
  dimof_GradFlag_mappingConstant : Nat
  dimof_Strata_texture : Nat
  dimof_Strata_mappingConstant : Nat
  dimof_ProcTexture_texture : Nat
deriving DecidableEq, Repr

/-- `TerrainMaterialConfig::StrataMaterial::Strata`. -/
structure Strata where
  _texture : List String
  _endHeight : ℚ
  _mappingConstant : List ℚ
deriving DecidableEq

/-- `TerrainMaterialConfig::StrataMaterial`. -/
structure StrataMaterial where
  _strata : List Strata
  _id : Nat
deriving DecidableEq

/-- `TerrainMaterialConfig::GradFlagMaterial`. -/
structure GradFlagMaterial where
  _id : Nat
  _texture : List String
  _mappingConstant : List ℚ
deriving DecidableEq

/-- `TerrainMaterialConfig::ProcTextureSetting`. -/
structure ProcTextureSetting where
  _name : String
  _texture : List String
  _hgrid : ℚ
  _gain : ℚ
deriving DecidableEq

/-- `TerrainMaterialConfig`; the search rules are a list of directories. -/
structure TerrainMaterialConfig where
  _diffuseDims : Nat × Nat
  _normalDims : Nat × Nat
  _paramDims : Nat × Nat
  _strataMaterials : List StrataMaterial
  _gradFlagMaterials : List GradFlagMaterial
  _procTextures : List ProcTextureSetting
  _specularParameter : ℚ
  _roughnessMin : ℚ
  _roughnessMax : ℚ
  _shadowSoftness : ℚ
  _searchRules : List String
deriving DecidableEq

/-- `TerrainMaterialConfig::TerrainMaterialConfig()`. -/
def TerrainMaterialConfig.default : TerrainMaterialConfig :=
  { _diffuseDims := (32, 32)
    _normalDims := (32, 32)
    _paramDims := (32, 32)
    _strataMaterials := []
    _gradFlagMaterials := []
    _procTextures := []
    _specularParameter := 5 / 100
    _shadowSoftness := 15
    _roughnessMin := 7 / 10
    _roughnessMax := 1
    _searchRules := [] }

/-- `GradFlagMaterial::GradFlagMaterial()`. -/
def GradFlagMaterial.default (T : TerrainDecls) : GradFlagMaterial :=
  { _id := 0
    _texture := List.replicate T.dimof_GradFlag_texture ""
    _mappingConstant := List.replicate T.dimof_GradFlag_mappingConstant 0 }

/-- `StrataMaterial::StrataMaterial()`. -/
def StrataMaterial.default : StrataMaterial :=
  { _id := 0, _strata := [] }

/-- `StrataMaterial::Strata::Strata()`. -/
def Strata.default (T : TerrainDecls) : Strata :=
  { _texture := List.replicate T.dimof_Strata_texture ""
    _mappingConstant := List.replicate T.dimof_Strata_mappingConstant 1
    _endHeight := 0 }

/-- `ProcTextureSetting::ProcTextureSetting()`. -/
def ProcTextureSetting.default (T : TerrainDecls) : ProcTextureSetting :=
  { _name := ""
    _texture := List.replicate T.dimof_ProcTexture_texture ""
    _hgrid := 100
    _gain := 1 / 2 }

/-- The array `TextureNames`. -/
def TextureNames : List String := ["Texture0", "Texture1", "Slopes"]

/-- Modelled from the spec: `XlCompareStringI(a, b) != 0`, a comparison that
ignores the case of letters. -/
def XlCompareStringI_ne (a b : String) : Bool :=
  a.data.map Char.toLower != b.data.map Char.toLower

/-- The 32-bit `unsigned` value an `int` converts to. -/
def asUInt32 (x : Int) : Nat := (x % 2 ^ 32).toNat

/-- The stratum the legacy constructor builds from a child `c` of a `Strata`
element (the body of the inner loop). -/
def legacyStrata (T : TerrainDecls) (P : Conversions) (c : Element) : Strata :=
  let newStrata := Strata.default T
  let newStrata := (List.range TextureNames.length).foldl
    (fun (newStrata : Strata) t =>
      let tName := c.AttributeValue (TextureNames.getD t "")
      if XlCompareStringI_ne tName "null" then
        { newStrata with _texture := newStrata._texture.set t tName }
      else newStrata)
    newStrata
  let newStrata := { newStrata with _endHeight := Deserialize P.parseFloat c "EndHeight" 0 }
  let mappingConst := Deserialize P.parseFloat4 c "Mapping" (1, 1, 1, 1)
  let newStrata := { newStrata with
    _mappingConstant := newStrata._mappingConstant.set 0 mappingConst.1 }
  let newStrata := { newStrata with
    _mappingConstant := newStrata._mappingConstant.set 1 mappingConst.2.1 }
  let newStrata := { newStrata with
    _mappingConstant := newStrata._mappingConstant.set 2 mappingConst.2.2.1 }
  newStrata

/-- The strata material the legacy constructor builds from a top-level
element named `StrataMaterial`. -/
def legacyStrataMaterial (T : TerrainDecls) (P : Conversions) (matCfg : Element) :
    StrataMaterial :=
  let mat := StrataMaterial.default
  let mat := { mat with _id := Deserialize P.parseUInt matCfg "MaterialId" 0 }
  let strata := match matCfg.ChildElement "Strata" with
    | some s => s.children
    | none => []
  strata.foldl (fun (mat : StrataMaterial) c =>
    { mat with _strata := mat._strata ++ [legacyStrata T P c] }) mat

/-- The grad-flag material the legacy constructor builds from a top-level
element named `GradFlagMaterial`. -/
def legacyGradFlagMaterial (T : TerrainDecls) (P : Conversions) (matCfg : Element) :
    GradFlagMaterial :=
  let mat := GradFlagMaterial.default T
  let mat := { mat with _id := asUInt32 (Deserialize P.parseInt matCfg "MaterialId" 0) }
  let mat := { mat with _texture := mat._texture.set 0 (matCfg.AttributeValue "Texture0") }
  let mat := { mat with _texture := mat._texture.set 1 (matCfg.AttributeValue "Texture1") }
  let mat := { mat with _texture := mat._texture.set 2 (matCfg.AttributeValue "Texture2") }
  let mat := { mat with _texture := mat._texture.set 3 (matCfg.AttributeValue "Texture3") }
  let mat := { mat with _texture := mat._texture.set 4 (matCfg.AttributeValue "Texture4") }
  let mappingAttr := matCfg.AttributeValue "Mapping"
  { mat with
    _mappingConstant := P.parseCastFloats mappingAttr T.dimof_GradFlag_mappingConstant
      mat._mappingConstant }

/-- The procedural texture setting of the third branch of the legacy
constructor. -/
def legacyProcTextureSetting (T : TerrainDecls) (P : Conversions) (matCfg : Element) :
    ProcTextureSetting :=
  let mat := ProcTextureSetting.default T
  let mat := { mat with _name := matCfg.AttributeValue "Name" }
  let mat := { mat with _texture := mat._texture.set 0 (matCfg.AttributeValue "Texture0") }
  let mat := { mat with _texture := mat._texture.set 1 (matCfg.AttributeValue "Texture1") }
  let mat := { mat with _hgrid := Deserialize P.parseFloat matCfg "HGrid" mat._hgrid }
  { mat with _gain := Deserialize P.parseFloat matCfg "Gain" mat._gain }

/-- One round of the loop of the legacy constructor over the top-level
elements: the three branches in the order of the source, the second and
the third under the same test. -/
def legacyStep (T : TerrainDecls) (P : Conversions) (cfg : TerrainMaterialConfig)
    (matCfg : Element) : TerrainMaterialConfig :=
  if matCfg.name = "StrataMaterial" then
    { cfg with _strataMaterials := cfg._strataMaterials ++ [legacyStrataMaterial T P matCfg] }
  else if matCfg.name = "GradFlagMaterial" then
    { cfg with
      _gradFlagMaterials := cfg._gradFlagMaterials ++ [legacyGradFlagMaterial T P matCfg] }
  else if matCfg.name = "GradFlagMaterial" then
    { cfg with _procTextures := cfg._procTextures ++ [legacyProcTextureSetting T P matCfg] }
  else cfg

/-- `TerrainMaterialConfig::TerrainMaterialConfig(formatter, searchRules, bool)`,
the constructor kept as the previous implementation, on the document that
the formatter yields. -/
def TerrainMaterialConfig.legacy (T : TerrainDecls) (P : Conversions) (doc : Element)
    (searchRules : List String) : TerrainMaterialConfig :=
  let cfg := doc.children.foldl (legacyStep T P) TerrainMaterialConfig.default
  { cfg with _searchRules := searchRules }

/-! ## The accessor tables and the serializer driven by them -/

/-- Modelled from the spec: one entry of a reflection table (`ClassAccessors`
of Utility/Meta, outside the sources) mapping a field name to a struct
member: the name, the element count for an array property, and the getter
and the setter, each already composed with the text conversion of the
member's type and each absent when `nullptr` is registered. An index is
passed to both; a property that is not an array ignores it. -/
structure Property (Obj : Type) where
  name : String
  fixedArrayLength : Option Nat
  getter : Option (Obj → Nat → String)
  setter : Option (Obj → Nat → String → Obj)

/-- Modelled from the spec: a child list of a reflection table (`AddChildList`):
the element name, what the serializer writes for the children of an object,
and the creation of a new child that is deserialized from an element. -/
structure ChildList (Obj : Type) where
  name : String
  serialize : Obj → List Element
  createAndDeserialize : Obj → Element → Obj

/-- Modelled from the spec: the reflection table of a class. -/
structure ClassAccessors (Obj : Type) where
  properties : List (Property Obj)
  childLists : List (ChildList Obj)

/-- The attributes the serializer writes for one property: nothing without a
getter, one attribute for a plain property, one for every element of an array
property. -/
def Property.attributes {Obj : Type} (p : Property Obj) (obj : Obj) :
    List (AttrName × String) :=
  match p.getter with
  | none => []
  | some get =>
    match p.fixedArrayLength with
    | none => [(⟨p.name, none⟩, get obj 0)]
    | some n => (List.range n).map (fun e => (⟨p.name, some e⟩, get obj e))

/-- Modelled from the spec: `AccessorSerialize(formatter, obj)` (Utility/Meta
AccessorSerialize.h, outside the sources), reflection-based serialization to
the structured text format: every property with a getter becomes attributes,
every child of every child list an element written the same way. -/
def AccessorSerialize {Obj : Type} (props : ClassAccessors Obj) (name : String) (obj : Obj) :
    Element :=
  .mk name (props.properties.flatMap (fun p => p.attributes obj))
    (props.childLists.flatMap (fun c => c.serialize obj))

/-- Modelled from the spec: the assignment of one attribute through the table
(`TryOpaqueSet`): the property is found by name; it is set when it has a
setter and the attribute has a subscript exactly when the property is an
array, the subscript being below the element count; otherwise the attribute
is passed over. -/
def ClassAccessors.TryOpaqueSet {Obj : Type} (props : ClassAccessors Obj) (obj : Obj)
    (a : AttrName × String) : Obj :=
  match props.properties.find? (fun p => p.name = a.1.name) with
  | some p =>
    match p.setter, p.fixedArrayLength, a.1.index with
    | some set, none, none => set obj 0 a.2
    | some set, some n, some e => if e < n then set obj e a.2 else obj
    | _, _, _ => obj
  | none => obj

/-- Modelled from the spec: the creation of a child for an element
(`TryCreateChild`): the child list is found by the element's name; an element
that matches no child list is skipped. -/
def ClassAccessors.TryCreateChild {Obj : Type} (props : ClassAccessors Obj) (obj : Obj)
    (e : Element) : Obj :=
  match props.childLists.find? (fun c => c.name = e.name) with
  | some c => c.createAndDeserialize obj e
  | none => obj

/-- Modelled from the spec: `AccessorDeserialize(formatter, obj)`,
reflection-based deserialization from the structured text format: every
attribute is assigned through the table, every child element creates a
child that is deserialized in turn. -/
def AccessorDeserialize {Obj : Type} (props : ClassAccessors Obj) (e : Element) (obj : Obj) :
    Obj :=
  let obj := e.attributes.foldl props.TryOpaqueSet obj
  e.children.foldl props.TryCreateChild obj

/-- A child list backed by a vector member, as `DefaultCreate`, `DefaultGetCount`
and `DefaultGetChildByIndex` register it: every child is serialized with the
child's own table, and a new child is default-constructed, deserialized and
pushed at the back. -/
def ChildList.ofVector {Obj Child : Type} (name : String) (childProps : ClassAccessors Child)
    (newChild : Child) (get : Obj → List Child) (pushBack : Obj → Child → Obj) :
    ChildList Obj :=
  { name := name
    serialize := fun obj => (get obj).map (AccessorSerialize childProps name)
    createAndDeserialize := fun obj e =>
      pushBack obj (AccessorDeserialize childProps e newChild) }

/-- A setter that parses the text and assigns on success. -/
def DefaultSet {Obj α : Type} (parse : String → Option α) (assign : Obj → α → Obj) :
    Obj → Nat → String → Obj :=
  fun obj _ text =>
    match parse text with
    | some v => assign obj v
    | none => obj

/-- A setter of one element of an array member. -/
def DefaultSetArray {Obj α : Type} (parse : String → Option α) (assign : Obj → Nat → α → Obj) :
    Obj → Nat → String → Obj :=
  fun obj index text =>
    match parse text with
    | some v => assign obj index v
    | none => obj

/-- `GetAccessors<TerrainMaterialConfig::GradFlagMaterial>()`: `MaterialId`,
the arrays `Texture` and `Mapping`, both registered with `dimof(_texture)`
elements, and `Key` with a getter and no setter. -/
def GetAccessors_GradFlagMaterial (T : TerrainDecls) (P : Conversions) :
    ClassAccessors GradFlagMaterial :=
  { properties :=
      [ { name := "MaterialId", fixedArrayLength := none
          getter := some (fun obj _ => P.showUInt obj._id)
          setter := some (DefaultSet P.parseUInt (fun obj v => { obj with _id := v })) },
        { name := "Texture", fixedArrayLength := some T.dimof_GradFlag_texture
          getter := some (fun obj i => obj._texture.getD i "")
          setter := some (DefaultSetArray some
            (fun obj i v => { obj with _texture := obj._texture.set i v })) },
        { name := "Mapping", fixedArrayLength := some T.dimof_GradFlag_texture
          getter := some (fun obj i => P.showFloat (obj._mappingConstant.getD i 0))
          setter := some (DefaultSetArray P.parseFloat
            (fun obj i v => { obj with _mappingConstant := obj._mappingConstant.set i v })) },
        { name := "Key", fixedArrayLength := none
          getter := some (fun mat _ => P.showUInt mat._id)
          setter := none } ]
    childLists := [] }

/-- `GetAccessors<TerrainMaterialConfig::ProcTextureSetting>()`. -/
def GetAccessors_ProcTextureSetting (T : TerrainDecls) (P : Conversions) :
    ClassAccessors ProcTextureSetting :=
  { properties :=
      [ { name := "Name", fixedArrayLength := none
          getter := some (fun obj _ => obj._name)
          setter := some (DefaultSet some (fun obj v => { obj with _name := v })) },
        { name := "Texture", fixedArrayLength := some T.dimof_ProcTexture_texture
          getter := some (fun obj i => obj._texture.getD i "")
          setter := some (DefaultSetArray some
            (fun obj i v => { obj with _texture := obj._texture.set i v })) },
        { name := "HGrid", fixedArrayLength := none
          getter := some (fun obj _ => P.showFloat obj._hgrid)
          setter := some (DefaultSet P.parseFloat (fun obj v => { obj with _hgrid := v })) },
        { name := "Gain", fixedArrayLength := none
          getter := some (fun obj _ => P.showFloat obj._gain)
          setter := some (DefaultSet P.parseFloat (fun obj v => { obj with _gain := v })) } ]
    childLists := [] }

/-- `GetAccessors<TerrainMaterialConfig>()`: the three texture dimensions, the
four scalar settings and the child lists `GradFlagMaterial` and
`ProcTextureSetting`. The table has no entry for `_strataMaterials` and none
for `_searchRules`. -/
def GetAccessors_TerrainMaterialConfig (T : TerrainDecls) (P : Conversions) :
    ClassAccessors TerrainMaterialConfig :=
  { properties :=
      [ { name := "DiffuseDims", fixedArrayLength := none
          getter := some (fun obj _ => P.showUInt2 obj._diffuseDims)
          setter := some (DefaultSet P.parseUInt2 (fun obj v => { obj with _diffuseDims := v })) },
        { name := "NormalDims", fixedArrayLength := none
          getter := some (fun obj _ => P.showUInt2 obj._normalDims)
          setter := some (DefaultSet P.parseUInt2 (fun obj v => { obj with _normalDims := v })) },
        { name := "ParamDims", fixedArrayLength := none
          getter := some (fun obj _ => P.showUInt2 obj._paramDims)
          setter := some (DefaultSet P.parseUInt2 (fun obj v => { obj with _paramDims := v })) },
        { name := "Specular", fixedArrayLength := none
          getter := some (fun obj _ => P.showFloat obj._specularParameter)
          setter := some (DefaultSet P.parseFloat
            (fun obj v => { obj with _specularParameter := v })) },
        { name := "RoughnessMin", fixedArrayLength := none
          getter := some (fun obj _ => P.showFloat obj._roughnessMin)
          setter := some (DefaultSet P.parseFloat (fun obj v => { obj with _roughnessMin := v })) },
        { name := "RoughnessMax", fixedArrayLength := none
          getter := some (fun obj _ => P.showFloat obj._roughnessMax)
          setter := some (DefaultSet P.parseFloat (fun obj v => { obj with _roughnessMax := v })) },
        { name := "ShadowSoftness", fixedArrayLength := none
          getter := some (fun obj _ => P.showFloat obj._shadowSoftness)
          setter := some (DefaultSet P.parseFloat
            (fun obj v => { obj with _shadowSoftness := v })) } ]
    childLists :=
      [ ChildList.ofVector "GradFlagMaterial" (GetAccessors_GradFlagMaterial T P)
          (GradFlagMaterial.default T) (fun obj => obj._gradFlagMaterials)
          (fun obj child => { obj with _gradFlagMaterials := obj._gradFlagMaterials ++ [child] }),
        ChildList.ofVector "ProcTextureSetting" (GetAccessors_ProcTextureSetting T P)
          (ProcTextureSetting.default T) (fun obj => obj._procTextures)
          (fun obj child => { obj with _procTextures := obj._procTextures ++ [child] }) ] }

/-- `TerrainMaterialConfig::Write`: the document the formatter receives. -/
def TerrainMaterialConfig.Write (T : TerrainDecls) (P : Conversions)
    (cfg : TerrainMaterialConfig) : Element :=
  AccessorSerialize (GetAccessors_TerrainMaterialConfig T P) "" cfg

/-- `TerrainMaterialConfig::TerrainMaterialConfig(formatter, searchRules)`: the
default configuration deserialized through the table; `searchRules` is not
used. -/
def TerrainMaterialConfig.ofFormatter (T : TerrainDecls) (P : Conversions) (doc : Element)
    (_searchRules : List String) : TerrainMaterialConfig :=
  AccessorDeserialize (GetAccessors_TerrainMaterialConfig T P) doc TerrainMaterialConfig.default

/-- A choice of the array lengths of `TerrainDecls` for the evaluations. -/
def TerrainDecls.sample : TerrainDecls :=
  { dimof_GradFlag_texture := 5
    dimof_GradFlag_mappingConstant := 5
    dimof_Strata_texture := 3
    dimof_Strata_mappingConstant := 3
    dimof_ProcTexture_texture := 2 }

/-- The text for a value in the sample conversions: as many marks as the
code of the value. -/
def sampleShow {α : Type} [Encodable α] (a : α) : String :=
  ⟨List.replicate (Encodable.encode a) 'x'⟩

/-- The parser of the sample conversions: the value whose code is the length
of the text. -/
def sampleParse {α : Type} [Encodable α] (s : String) : Option α :=
  Encodable.decode s.length

/-- A choice of the text conversions for the evaluations: every parser reads
back what the matching writer wrote. -/
def Conversions.sample : Conversions :=
  { parseUInt := sampleParse
    parseInt := sampleParse
    parseFloat := sampleParse
    parseFloat4 := sampleParse
    parseUInt2 := sampleParse
    parseCastFloats := fun text count dest =>
      match (sampleParse text : Option (List ℚ)) with
      | some values => (List.range count).map (fun i => values.getD i (dest.getD i 0))
      | none => dest
    showUInt := sampleShow
    showFloat := sampleShow
    showUInt2 := sampleShow }

/-- A document with one element of every kind at the top level. -/
def Element.sampleDoc : Element :=
  .mk "" [(⟨"DiffuseDims", none⟩, "xx")]
    [ .mk "StrataMaterial" [(⟨"MaterialId", none⟩, "xxx")]
        [ .mk "Strata" [] [ .mk "One" [(⟨"Texture0", none⟩, "rock.dds")] [] ] ],
      .mk "Comment" [] [],
      .mk "GradFlagMaterial"
        [(⟨"MaterialId", none⟩, "xxxx"), (⟨"Texture0", none⟩, "grass.dds")] [],
      .mk "ProcTextureSetting" [(⟨"Name", none⟩, "noise")] [] ]

/-- A configuration holding one strata material, one grad-flag material and
one procedural texture setting. -/
def TerrainMaterialConfig.sample : TerrainMaterialConfig :=
  { TerrainMaterialConfig.default with
    _diffuseDims := (64, 64)
    _strataMaterials :=
      [ { _id := 3
          _strata := [ { _texture := ["rock.dds", "moss.dds", "cliff.dds"], _endHeight := 50
                         _mappingConstant := [1, 2, 3] } ] } ]
    _gradFlagMaterials :=
      [ { _id := 4
          _texture := ["grass.dds", "dirt.dds", "sand.dds", "snow.dds", "mud.dds"]
          _mappingConstant := [1, 1, 2, 2, 4] } ]
    _procTextures :=
      [ { _name := "noise", _texture := ["a.dds", "b.dds"], _hgrid := 100, _gain := 1 / 2 } ] }

/-! ## AsDelaySteps -/

/-- The values of `SceneParseSettings::BatchFilter` that `AsDelaySteps` names
(the enumeration is declared outside the sources); `other` stands for any
value the `switch` has no case for. -/
inductive BatchFilter where
  | General
  | PreDepth
  | Transparent
  | TransparentPreDepth
  | OITransparent
  | DMShadows
  | RayTracedShadows
  | other (value : Nat)
deriving DecidableEq, Repr

/-- The values of `RenderCore::Assets::DelayStep` that `AsDelaySteps` returns. -/
inductive DelayStep where
  | OpaqueRender
  | PostDeferred
  | SortedBlending
deriving DecidableEq, Repr

/-- `AsDelaySteps`: the contents of the range returned for a filter; the
default-constructed range after the `switch` is empty. -/
def AsDelaySteps : BatchFilter → List DelayStep
  | .General => [.OpaqueRender]
  | .PreDepth => [.OpaqueRender]
  | .Transparent => [.PostDeferred]
  | .TransparentPreDepth => [.PostDeferred, .SortedBlending]
  | .OITransparent => [.SortedBlending]
  | .DMShadows => [.OpaqueRender, .PostDeferred, .SortedBlending]
  | .RayTracedShadows => [.OpaqueRender, .PostDeferred, .SortedBlending]
  | .other _ => []

/-- The position of a step in the order OpaqueRender, PostDeferred,
SortedBlending. -/
def DelayStep.position : DelayStep → Nat
  | .OpaqueRender => 0
  | .PostDeferred => 1
  | .SortedBlending => 2

/-! ## Moving a ProtectState -/

/-- One round of the loop over the vertex-buffer slots in the move operations
of `ProtectState`, on the arrays it touches: `st.1` holds `_vertexBuffers`,
`_vbStrides` and `_vbOffsets` of `*this`, `st.2` holds `_vertexBuffers` of
`moveFrom`, whose smart pointer at slot `s` is null after the move. -/
def ProtectState.moveVertexBufferSlot (fromStrides fromOffsets : List Nat)
    (st : (List Handle × List Nat × List Nat) × List Handle) (s : Nat) :
    (List Handle × List Nat × List Nat) × List Handle :=
  let _vertexBuffers := st.1.1.set s (st.2.getD s 0)
  let from_vertexBuffers := st.2.set s 0
  let _vbStrides := st.1.2.1.set s (fromStrides.getD s 0)
  let _vbOffsets := st.1.2.2.set s (fromOffsets.getD s 0)
  ((_vertexBuffers, _vbStrides, _vbOffsets), from_vertexBuffers)

/-- The loop `for (unsigned s=0; s<s_vbCount; ++s)` of the move operations, on
the three vertex-buffer arrays of `*this` and on `moveFrom`. -/
def ProtectState.moveVertexBuffers (D : Decls) (_vertexBuffers : List Handle)
    (_vbStrides _vbOffsets : List Nat) (moveFrom : ProtectState) :
    (List Handle × List Nat × List Nat) × List Handle :=
  (List.range D.s_vbCount).foldl
    (ProtectState.moveVertexBufferSlot moveFrom._vbStrides moveFrom._vbOffsets)
    ((_vertexBuffers, _vbStrides, _vbOffsets), moveFrom._vertexBuffers)

/-- `ProtectState::ProtectState(ProtectState&&)`: the pair is the new object and
`moveFrom` after the call. The initialisers move `_targets` and the state
blocks and smart pointers; the body copies `_context`, `_states`, `_ibFormat`,
`_ibOffset`, the vertex-buffer slots, the blend factor, the sample mask and
the topology, and clears `_context` and `_states` of `moveFrom`. `junk` holds
what `_vbStrides` and `_vbOffsets` contain when the body starts; the
vertex-buffer smart pointers start null. A moved-from state block or smart
pointer is null. -/
def ProtectState.moveCtor (D : Decls) (junk moveFrom : ProtectState) :
    ProtectState × ProtectState :=
  let targets := SavedTargets.moveCtor D moveFrom._targets
  let vbs := ProtectState.moveVertexBuffers D (List.replicate D.s_vbCount 0)
    junk._vbStrides junk._vbOffsets moveFrom
  ({ _targets := targets.1
     _depthStencilState := moveFrom._depthStencilState
     _inputLayout := moveFrom._inputLayout
     _indexBuffer := moveFrom._indexBuffer
     _blendState := moveFrom._blendState
     _rasterizerState := moveFrom._rasterizerState
     _context := moveFrom._context
     _states := moveFrom._states
     _ibFormat := moveFrom._ibFormat
     _ibOffset := moveFrom._ibOffset
     _vertexBuffers := vbs.1.1
     _vbStrides := vbs.1.2.1
     _vbOffsets := vbs.1.2.2
     _blendFactor := moveFrom._blendFactor
     _blendSampleMask := moveFrom._blendSampleMask
     _topology := moveFrom._topology },
   { moveFrom with
     _targets := targets.2
     _depthStencilState := 0
     _inputLayout := 0
     _indexBuffer := 0
     _blendState := 0
     _rasterizerState := 0
     _context := none
     _states := 0
     _vertexBuffers := vbs.2 })

/-- `ProtectState::operator=(ProtectState&&)` for two distinct objects: the pair
is `(*this, moveFrom)` after the call. Every member of `*this` is assigned
from the member of `moveFrom`, in the order of the source; `_context` and
`_states` of `moveFrom` are cleared. Nothing is reset or restored for what
`*this` held before. -/
def ProtectState.moveAssign (D : Decls) (self moveFrom : ProtectState) :
    ProtectState × ProtectState :=
  let targets := SavedTargets.moveAssign D self._targets moveFrom._targets
  let vbs := ProtectState.moveVertexBuffers D self._vertexBuffers self._vbStrides
    self._vbOffsets moveFrom
  ({ _context := moveFrom._context
     _targets := targets.1
     _states := moveFrom._states
     _depthStencilState := moveFrom._depthStencilState
     _inputLayout := moveFrom._inputLayout
     _indexBuffer := moveFrom._indexBuffer
     _ibFormat := moveFrom._ibFormat
     _ibOffset := moveFrom._ibOffset
     _vertexBuffers := vbs.1.1
     _vbStrides := vbs.1.2.1
     _vbOffsets := vbs.1.2.2
     _blendState := moveFrom._blendState
     _blendFactor := moveFrom._blendFactor
     _blendSampleMask := moveFrom._blendSampleMask
     _rasterizerState := moveFrom._rasterizerState
     _topology := moveFrom._topology },
   { moveFrom with
     _context := none
     _targets := targets.2
     _states := 0
     _depthStencilState := 0
     _inputLayout := 0
     _indexBuffer := 0
     _vertexBuffers := vbs.2
     _blendState := 0
     _rasterizerState := 0 })

/-- The arrays of a `SavedTargets` held by a `ProtectState`: they have their
declared lengths, and the slots from `MaxSimultaneousRenderTargetCount` on,
which no move copies, are as default construction left them. -/
def SavedTargets.wellFormed (D : Decls) (t : SavedTargets) : Bool :=
  t._oldTargets.length == D.dimof_oldTargets &&
  t._oldViewports.length == D.dimof_oldViewports &&
  (List.range D.dimof_oldTargets).all (fun i =>
    decide (i < D.MaxSimultaneousRenderTargetCount) || t._oldTargets.getD i 0 == 0) &&
  (List.range D.dimof_oldViewports).all (fun i =>
    decide (i < D.MaxSimultaneousRenderTargetCount) ||
      t._oldViewports.getD i D.ViewportDesc_ctor == D.ViewportDesc_ctor)

/-- The three vertex-buffer arrays of a `ProtectState` have `s_vbCount` entries. -/
def ProtectState.arraysSized (D : Decls) (p : ProtectState) : Bool :=
  p._vertexBuffers.length == D.s_vbCount &&
  p._vbStrides.length == D.s_vbCount &&
  p._vbOffsets.length == D.s_vbCount

/-- The arrays of a `ProtectState` are as its constructors and move operations
leave them. -/
def ProtectState.wellFormed (D : Decls) (p : ProtectState) : Bool :=
  p._targets.wellFormed D && p.arraysSized D

/-- Member contents with vertex-buffer arrays of three entries, for the
evaluations. -/
def ProtectState.sampleJunk3 : ProtectState :=
  { ProtectState.sampleJunk with
    _vertexBuffers := [36, 36, 36], _vbStrides := [37, 37, 37], _vbOffsets := [38, 38, 38] }

/-! ## Overlay text (SceneEngineUtils.cpp: UCS4Buffer, DrawPendingResources, DrawQuickMetrics)

A character pointer into a C string is the list of the characters from the pointer onwards; the
terminator is not stored, so reading through an exhausted pointer yields `NUL`, and `++i` is the
tail. Two pointers into the same string are equal exactly when their lists have the same length. -/

/-- The terminating character of a C string; `*i` is true in a condition when it is not `NUL`. -/
def NUL : Char := Char.ofNat 0

/-- The character `'\n'`. -/
def LF : Char := Char.ofNat 10

/-- The character `'\r'`. -/
def CR : Char := Char.ofNat 13

/-- Two floats, `textPosition[0]` is `x` and `textPosition[1]` is `y`. -/
structure Float2 (F : Type) where
  x : F
  y : F
deriving DecidableEq, Repr

/-- Declarations used by the overlay text functions and found outside the two source files:
the type `F` of `float` with its addition and its literals (`lit 16` is `16.f`), the contents `U`
of a ucs4 buffer, the conversion `utf8_2_ucs4` of a character range into a buffer of `Count`
elements (`UCS4Buffer Count range`), and `TextStyle::AlignText` for the alignment
`UIALIGN_TOP_LEFT`, given the two corners of `Quad::MinMax` and the text. -/
structure OverlayDecls (F U : Type) where
  add : F → F → F
  lit : Nat → F
  UCS4Buffer : Nat → List Char → U
  AlignText : Float2 F → Float2 F → U → Float2 F

/-- The calls the overlay text functions make: `context->Bind(..._blendStraightAlpha)` and
`style.Draw(context, x, y, text, -1, 0.f, 1.f, 0.f, 0.f, colour, UI_TEXT_STATE_NORMAL, true,
nullptr)`, of which the arguments that vary are kept. -/
inductive OverlayCall (F U : Type) where
  | Bind_blendStraightAlpha
  | Draw (x y : F) (text : U) (colour : Nat)
deriving DecidableEq, Repr

/-- The statement `textPosition[1] += lineHeight`. -/
def advanceLine {F U : Type} (O : OverlayDecls F U) (lineHeight : F) (textPosition : Float2 F) :
    Float2 F :=
  { x := textPosition.x, y := O.add textPosition.y lineHeight }

/-- The sum `textPosition + Float2(32.f, 0.f)`. -/
def indented {F U : Type} (O : OverlayDecls F U) (textPosition : Float2 F) : Float2 F :=
  { x := O.add textPosition.x (O.lit 32), y := O.add textPosition.y (O.lit 0) }

/-- The body shared by the four `for (;;)` loops of `DrawPendingResources` and
`DrawQuickMetrics`, which differ in the conditions of the two inner `while` loops (`skip` for the
first, `scan` for the second), in the first corner of the quad given to `AlignText` (`quadMin`),
in the size of the buffer and in the colour. The first argument bounds the number of iterations
of the `for (;;)`; `none` is returned when the bound is reached before the `break`.

    for (;;) {
        while (skip(*i)) ++i;
        auto* start = i;
        while (scan(*i)) ++i;
        if (start == i) break;
        UCS4Buffer<Count> text2(start, i);
        Float2 alignedPosition = style.AlignText(Quad::MinMax(quadMin, Float2(1024.f, 1024.f)), alignment, text2);
        style.Draw(context, alignedPosition[0], alignedPosition[1], text2, ..., colour, ...);
        textPosition[1] += lineHeight;
    }
-/
def drawEntries {F U : Type} (O : OverlayDecls F U) (skip scan : Char → Bool)
    (quadMin : Float2 F → Float2 F) (Count colour : Nat) (lineHeight : F) :
    Nat → List Char → Float2 F → List (OverlayCall F U) →
      Option (Float2 F × List (OverlayCall F U))
  | 0, _, _, _ => none
  | fuel + 1, i, textPosition, calls =>
    let i := i.dropWhile skip
    let start := i
    let i := i.dropWhile scan
    if start.length = i.length then some (textPosition, calls)
    else
      let text2 := O.UCS4Buffer Count (start.take (start.length - i.length))
      let alignedPosition :=
        O.AlignText (quadMin textPosition) { x := O.lit 1024, y := O.lit 1024 } text2
      drawEntries O skip scan quadMin Count colour lineHeight fuel i
        (advanceLine O lineHeight textPosition)
        (calls ++ [OverlayCall.Draw alignedPosition.x alignedPosition.y text2 colour])

/-- The header line of a section of `DrawPendingResources`: the text is drawn at the text
position and the text position moves down one line. -/
def drawHeader {F U : Type} (O : OverlayDecls F U) (header : String) (colour : Nat)
    (lineHeight : F) (textPosition : Float2 F) (calls : List (OverlayCall F U)) :
    Float2 F × List (OverlayCall F U) :=
  let text := O.UCS4Buffer 64 header.toList
  let alignedPosition := O.AlignText textPosition { x := O.lit 1024, y := O.lit 1024 } text
  (advanceLine O lineHeight textPosition,
    calls ++ [OverlayCall.Draw alignedPosition.x alignedPosition.y text colour])

/-- The function `DrawPendingResources`, as the list of the calls it makes. `lineHeight` is
`font->LineHeight()`, the three lists are the strings of `parserContext._stringHelpers` and
`fuel` bounds the iterations of each `for (;;)`. Each of the three sections yields the text
position and the calls so far, or nothing when its loop reaches the bound. -/
def DrawPendingResources {F U : Type} (O : OverlayDecls F U) (lineHeight : F) (fuel : Nat)
    (_pendingAssets _invalidAssets _errorString : List Char) :
    Option (List (OverlayCall F U)) :=
  if _pendingAssets.headD NUL = NUL ∧ _invalidAssets.headD NUL = NUL
      ∧ _errorString.headD NUL = NUL then
    some []
  else
    let calls : List (OverlayCall F U) := [OverlayCall.Bind_blendStraightAlpha]
    let textPosition : Float2 F := { x := O.lit 16, y := O.lit 16 }
    let colour : Nat := 0xff7f7f7f
    Option.bind
      (if _pendingAssets.headD NUL ≠ NUL then
        drawEntries O (fun c => c != NUL && c == ',') (fun c => c != NUL && c != ',')
          (indented O) 256 colour lineHeight fuel _pendingAssets
          (drawHeader O "Pending assets:" 0xffff7f7f lineHeight textPosition calls).1
          (drawHeader O "Pending assets:" 0xffff7f7f lineHeight textPosition calls).2
      else some (textPosition, calls))
      (fun pending =>
    Option.bind
      (if _invalidAssets.headD NUL ≠ NUL then
        drawEntries O (fun c => c != NUL && c == ',') (fun c => c != NUL && c != ',')
          (indented O) 256 colour lineHeight fuel _invalidAssets
          (drawHeader O "Invalid assets:" colour lineHeight pending.1 pending.2).1
          (drawHeader O "Invalid assets:" colour lineHeight pending.1 pending.2).2
      else some pending)
      (fun invalid =>
    Option.map Prod.snd
      (if _errorString.headD NUL ≠ NUL then
        drawEntries O (fun c => c != NUL && (c == LF || c == CR))
          (fun c => c != NUL && c != LF && c != CR)
          id 512 colour lineHeight fuel _errorString invalid.1 invalid.2
      else some invalid)))

/-- The function `DrawQuickMetrics`, as the list of the calls it makes. -/
def DrawQuickMetrics {F U : Type} (O : OverlayDecls F U) (lineHeight : F) (fuel : Nat)
    (_quickMetrics : List Char) : Option (List (OverlayCall F U)) :=
  if _quickMetrics.headD NUL ≠ NUL then
    let calls : List (OverlayCall F U) := [OverlayCall.Bind_blendStraightAlpha]
    let textPosition : Float2 F := { x := O.lit 16, y := O.lit 150 }
    let colour : Nat := 0xffcfcfcf
    Option.map Prod.snd
      (drawEntries O (fun c => c != NUL && (c == LF || c == CR))
        (fun c => c != NUL && c != LF && c != CR)
        id 512 colour lineHeight fuel _quickMetrics textPosition calls)
  else some []

/-! ### The entries of a delimited string -/

/-- The C string held by a character array: the characters before the first `NUL`. -/
def cstr (buffer : List Char) : List Char :=
  buffer.takeWhile (fun c => c != NUL)

/-- The maximal non-empty runs of characters that are not separators, in order of occurrence:
the pieces between separators, without the empty ones. -/
def maximalRuns (isSep : Char → Bool) (s : List Char) : List (List Char) :=
  (s.splitOnP isSep).filter (fun run => !run.isEmpty)

/-- The separator of the asset lists. -/
def isComma (c : Char) : Bool := c == ','

/-- The separators of the error string and of the quick metrics. -/
def isLineBreak (c : Char) : Bool := c == LF || c == CR

/-- The text position `k` lines below `textPosition`: the first coordinate as it is, the second
with `lineHeight` added to it `k` times. -/
def linesBelow {F U : Type} (O : OverlayDecls F U) (lineHeight : F) (k : Nat)
    (textPosition : Float2 F) : Float2 F :=
  { x := textPosition.x, y := (fun y => O.add y lineHeight)^[k] textPosition.y }

/-- The draw call expected for the characters `text`, converted into a buffer of `Count`
elements, aligned to the top left of the quad from `quadMin` to `(1024, 1024)`. -/
def expectedDraw {F U : Type} (O : OverlayDecls F U) (Count : Nat) (quadMin : Float2 F)
    (text : List Char) (colour : Nat) : OverlayCall F U :=
  OverlayCall.Draw
    (O.AlignText quadMin { x := O.lit 1024, y := O.lit 1024 } (O.UCS4Buffer Count text)).x
    (O.AlignText quadMin { x := O.lit 1024, y := O.lit 1024 } (O.UCS4Buffer Count text)).y
    (O.UCS4Buffer Count text) colour

/-- One draw call per entry, in order: entry number `k` (from zero) is drawn for the text
position `k` lines below `textPosition`, moved by `offset`. -/
def entryDraws {F U : Type} (O : OverlayDecls F U) (offset : Float2 F → Float2 F)
    (Count colour : Nat) (lineHeight : F) (textPosition : Float2 F)
    (entries : List (List Char)) : List (OverlayCall F U) :=
  entries.mapIdx (fun k entry =>
    expectedDraw O Count (offset (linesBelow O lineHeight k textPosition)) entry colour)

/-- The calls of one section of `DrawPendingResources` with a header, for the entries of the
string `s`: nothing for the empty string, else the header at `textPosition` and then the
entries from one line below it, each `32` to the right. -/
def assetSection {F U : Type} (O : OverlayDecls F U) (header : String) (headerColour : Nat)
    (lineHeight : F) (textPosition : Float2 F) (s : List Char) : List (OverlayCall F U) :=
  if s = [] then []
  else
    expectedDraw O 64 textPosition header.toList headerColour
      :: entryDraws O (fun p => { x := O.add p.x (O.lit 32), y := O.add p.y (O.lit 0) })
          256 0xff7f7f7f lineHeight (linesBelow O lineHeight 1 textPosition)
          (maximalRuns isComma s)

/-- The text position after a section with a header, for the entries of the string `s`: where
it was for the empty string, else one line down for the header and one for each entry. -/
def assetSectionEnd {F U : Type} (O : OverlayDecls F U) (lineHeight : F)
    (textPosition : Float2 F) (s : List Char) : Float2 F :=
  if s = [] then textPosition
  else linesBelow O lineHeight ((maximalRuns isComma s).length + 1) textPosition

/-- The calls expected of `DrawPendingResources` for the three strings: none when all three
are empty; else the blend state is bound, then come the section of the pending assets from
`(16, 16)`, the section of the invalid assets from where the first section ended, and one
draw call for each line of the error string from where the second section ended. -/
def pendingResourcesCalls {F U : Type} (O : OverlayDecls F U) (lineHeight : F)
    (pending invalid error : List Char) : List (OverlayCall F U) :=
  if pending = [] ∧ invalid = [] ∧ error = [] then []
  else
    let p0 : Float2 F := { x := O.lit 16, y := O.lit 16 }
    let p1 := assetSectionEnd O lineHeight p0 pending
    let p2 := assetSectionEnd O lineHeight p1 invalid
    [OverlayCall.Bind_blendStraightAlpha]
      ++ assetSection O "Pending assets:" 0xffff7f7f lineHeight p0 pending
      ++ assetSection O "Invalid assets:" 0xff7f7f7f lineHeight p1 invalid
      ++ entryDraws O (fun p => p) 512 0xff7f7f7f lineHeight p2 (maximalRuns isLineBreak error)

/-- The calls expected of `DrawQuickMetrics` for the string: none when it is empty; else the
blend state is bound and one draw call follows for each line, from `(16, 150)`. -/
def quickMetricsCalls {F U : Type} (O : OverlayDecls F U) (lineHeight : F)
    (quick : List Char) : List (OverlayCall F U) :=
  if quick = [] then []
  else
    [OverlayCall.Bind_blendStraightAlpha]
      ++ entryDraws O (fun p => p) 512 0xffcfcfcf lineHeight { x := O.lit 16, y := O.lit 150 }
          (maximalRuns isLineBreak quick)

/-- A sample of the outside declarations: natural numbers for floats, a buffer that keeps the
first `Count - 1` characters, and an alignment that returns the first corner of the quad. -/
def OverlayDecls.sample : OverlayDecls Nat (List Char) :=
  { add := fun a b => a + b
    lit := fun n => n
    UCS4Buffer := fun Count range => range.take (Count - 1)
    AlignText := fun quadMin _ _ => quadMin }

/-! # Theorems -/

theorem World.run_same (c : Nat) (calls : List DeviceCall) (w : World) :
    (w.run (calls.map (fun call => (c, call)))) c = (w c).run calls := by
  induction calls generalizing w with
  | nil => rfl
  | cons call rest ih =>
    simp only [List.map_cons, World.run, List.foldl_cons, DeviceContext.run] at ih ⊢
    rw [ih]
    simp [World.issue]

theorem World.run_other (c c' : Nat) (h : c' ≠ c) (calls : List DeviceCall) (w : World) :
    (w.run (calls.map (fun call => (c, call)))) c' = w c' := by
  induction calls generalizing w with
  | nil => rfl
  | cons call rest ih =>
    simp only [List.map_cons, World.run, List.foldl_cons] at ih ⊢
    rw [ih]
    simp [World.issue, h]

theorem DeviceContext.run_append (ctx : DeviceContext) (a b : List DeviceCall) :
    ctx.run (a ++ b) = (ctx.run a).run b := by
  simp [DeviceContext.run, List.foldl_append]

theorem DeviceContext.run_ite (ctx : DeviceContext) (c : Bool) (l : List DeviceCall) :
    ctx.run (if c = true then l else []) = if c = true then ctx.run l else ctx := by
  cases c <;> simp [DeviceContext.run]

theorem DeviceContext.run_cons (ctx : DeviceContext) (a : DeviceCall) (l : List DeviceCall) :
    ctx.run (a :: l) = (DeviceCall.apply ctx a).run l := rfl

theorem DeviceContext.run_nil (ctx : DeviceContext) : ctx.run [] = ctx := rfl

theorem getD_set_eq {α : Type} (l : List α) (c i : Nat) (v d : α) :
    (l.set c v).getD i d = if c = i ∧ i < l.length then v else l.getD i d := by
  rw [List.getD_eq_getElem?_getD, List.getD_eq_getElem?_getD, List.getElem?_set]
  by_cases h : c = i
  · subst h
    by_cases hl : c < l.length
    · simp [hl]
    · simp [hl, List.getElem?_eq_none (Nat.le_of_not_lt hl)]
  · simp [h]

theorem getD_of_length_le {α : Type} (l : List α) (i : Nat) (d : α) (h : l.length ≤ i) :
    l.getD i d = d := by
  rw [List.getD_eq_getElem?_getD, List.getElem?_eq_none h]
  rfl

theorem moveSlot_fold_spec (D : Decls) (a b : SavedTargets) (n : Nat) :
    let p := (List.range n).foldl (SavedTargets.moveSlot D) (a, b)
    p.1._oldTargets.length = a._oldTargets.length ∧
    p.1._oldViewports.length = a._oldViewports.length ∧
    p.1._oldViewportCount = a._oldViewportCount ∧
    p.1._oldDepthTarget = a._oldDepthTarget ∧
    p.2._oldViewportCount = b._oldViewportCount ∧
    p.2._oldDepthTarget = b._oldDepthTarget ∧
    (∀ i, p.1._oldTargets.getD i 0 =
      if i < n ∧ i < a._oldTargets.length then b._oldTargets.getD i 0
      else a._oldTargets.getD i 0) ∧
    (∀ i, p.1._oldViewports.getD i D.ViewportDesc_ctor =
      if i < n ∧ i < a._oldViewports.length then b._oldViewports.getD i D.ViewportDesc_ctor
      else a._oldViewports.getD i D.ViewportDesc_ctor) ∧
    (∀ i, p.2._oldTargets.getD i 0 = if i < n then 0 else b._oldTargets.getD i 0) ∧
    (∀ i, p.2._oldViewports.getD i D.ViewportDesc_ctor =
      if i < n then D.ViewportDesc_ctor else b._oldViewports.getD i D.ViewportDesc_ctor) := by
  induction n with
  | zero => simp
  | succ n ih =>
    simp only [List.range_succ, List.foldl_append, List.foldl_cons, List.foldl_nil]
    obtain ⟨h1, h2, h3, h4, h5, h6, h7, h8, h9, h10⟩ := ih
    refine ⟨?_, ?_, ?_, ?_, ?_, ?_, ?_, ?_, ?_, ?_⟩
    · simpa [SavedTargets.moveSlot] using h1
    · simpa [SavedTargets.moveSlot] using h2
    · simpa [SavedTargets.moveSlot] using h3
    · simpa [SavedTargets.moveSlot] using h4
    · simpa [SavedTargets.moveSlot] using h5
    · simpa [SavedTargets.moveSlot] using h6
    · intro i
      simp only [SavedTargets.moveSlot]
      rw [getD_set_eq, h1, h7 i, h9 n]
      by_cases hi : n = i
      · subst hi
        by_cases hl : n < a._oldTargets.length
        · simp [hl]
        · simp [hl]
      · have e1 : (i < n + 1) ↔ (i < n) := by omega
        simp only [hi, false_and, if_false, e1]
    · intro i
      simp only [SavedTargets.moveSlot]
      rw [getD_set_eq, h2, h8 i, h10 n]
      by_cases hi : n = i
      · subst hi
        by_cases hl : n < a._oldViewports.length
        · simp [hl]
        · simp [hl]
      · have e1 : (i < n + 1) ↔ (i < n) := by omega
        simp only [hi, false_and, if_false, e1]
    · intro i
      simp only [SavedTargets.moveSlot]
      rw [getD_set_eq, h9 i]
      by_cases hi : n = i
      · subst hi
        by_cases hl : n < (List.foldl (SavedTargets.moveSlot D) (a, b) (List.range n)).2._oldTargets.length
        · simp [hl]
        · have := h9 n
          rw [getD_of_length_le _ _ _ (Nat.le_of_not_lt hl), if_neg (lt_irrefl n)] at this
          rw [if_neg (fun h => hl h.2), if_neg (lt_irrefl n), if_pos (Nat.lt_succ_self n)]
          exact this.symm
      · have e1 : (i < n + 1) ↔ (i < n) := by omega
        simp only [hi, false_and, if_false, e1]
    · intro i
      simp only [SavedTargets.moveSlot]
      rw [getD_set_eq, h10 i]
      by_cases hi : n = i
      · subst hi
        by_cases hl : n < (List.foldl (SavedTargets.moveSlot D) (a, b) (List.range n)).2._oldViewports.length
        · simp [hl]
        · have := h10 n
          rw [getD_of_length_le _ _ _ (Nat.le_of_not_lt hl), if_neg (lt_irrefl n)] at this
          rw [if_neg (fun h => hl h.2), if_neg (lt_irrefl n), if_pos (Nat.lt_succ_self n)]
          exact this.symm
      · have e1 : (i < n + 1) ↔ (i < n) := by omega
        simp only [hi, false_and, if_false, e1]


theorem moveAssign_fst_spec (D : Decls) (a b : SavedTargets) :
    ((SavedTargets.moveAssign D a b).1)._oldViewportCount = b._oldViewportCount ∧
    ((SavedTargets.moveAssign D a b).1)._oldDepthTarget = b._oldDepthTarget ∧
    ((SavedTargets.moveAssign D a b).1)._oldTargets.length = a._oldTargets.length ∧
    ((SavedTargets.moveAssign D a b).1)._oldViewports.length = a._oldViewports.length ∧
    (∀ i, ((SavedTargets.moveAssign D a b).1)._oldTargets.getD i 0 =
      if i < D.MaxSimultaneousRenderTargetCount ∧ i < a._oldTargets.length
      then b._oldTargets.getD i 0 else a._oldTargets.getD i 0) ∧
    (∀ i, ((SavedTargets.moveAssign D a b).1)._oldViewports.getD i D.ViewportDesc_ctor =
      if i < D.MaxSimultaneousRenderTargetCount ∧ i < a._oldViewports.length
      then b._oldViewports.getD i D.ViewportDesc_ctor
      else a._oldViewports.getD i D.ViewportDesc_ctor) := by
  have h := moveSlot_fold_spec D { a with _oldViewportCount := b._oldViewportCount }
    { b with _oldViewportCount := 0 } D.MaxSimultaneousRenderTargetCount
  obtain ⟨h1, h2, h3, h4, h5, h6, h7, h8, h9, h10⟩ := h
  refine ⟨?_, ?_, ?_, ?_, ?_, ?_⟩
  · simpa [SavedTargets.moveAssign] using h3
  · simpa [SavedTargets.moveAssign] using h6
  · simpa [SavedTargets.moveAssign] using h1
  · simpa [SavedTargets.moveAssign] using h2
  · intro i
    simpa [SavedTargets.moveAssign] using h7 i
  · intro i
    simpa [SavedTargets.moveAssign] using h8 i

theorem getElem?_eq_some_getD {α : Type} (l : List α) (i : Nat) (d : α) (h : i < l.length) :
    l[i]? = some (l.getD i d) := by
  rw [List.getD_eq_getElem?_getD, List.getElem?_eq_getElem h]
  rfl

/-- The render targets that `ResetToOldTargets` binds from what the constructor captured. -/
theorem captured_renderTargets (D : Decls) (s : DeviceContext)
    (hrt : ∀ i, min D.MaxSimultaneousRenderTargetCount D.dimof_oldTargets ≤ i →
      s.renderTargets i = 0) :
    (fun i => if i < D.dimof_oldTargets
      then ((SavedTargets.moveAssign D (SavedTargets.default D)
        (SavedTargets.ofContext D s)).1)._oldTargets.getD i 0 else 0) = s.renderTargets := by
  obtain ⟨-, -, -, -, h5, -⟩ :=
    moveAssign_fst_spec D (SavedTargets.default D) (SavedTargets.ofContext D s)
  funext i
  rw [h5 i]
  have hlen : (SavedTargets.default D)._oldTargets.length = D.dimof_oldTargets := by
    simp [SavedTargets.default]
  rw [hlen]
  by_cases h1 : i < D.dimof_oldTargets
  · by_cases h2 : i < D.MaxSimultaneousRenderTargetCount
    · simp only [h1, h2, and_self, if_true]
      simp [SavedTargets.ofContext, DeviceContext.OMGetRenderTargets, List.getD_eq_getElem?_getD, h1]
    · simp only [h1, h2, false_and, if_false, if_true]
      rw [hrt i (by omega)]
      simp [SavedTargets.default, List.getD_eq_getElem?_getD, h1]
  · simp only [h1, if_false]
    exact (hrt i (by omega)).symm

theorem captured_depthTarget (D : Decls) (s : DeviceContext) :
    ((SavedTargets.moveAssign D (SavedTargets.default D)
        (SavedTargets.ofContext D s)).1)._oldDepthTarget = s.depthTarget := by
  obtain ⟨-, h2, -, -, -, -⟩ :=
    moveAssign_fst_spec D (SavedTargets.default D) (SavedTargets.ofContext D s)
  rw [h2]
  rfl

theorem captured_viewports (D : Decls) (s : DeviceContext)
    (hvp : s.viewports.length ≤
      min D.MaxSimultaneousRenderTargetCount D.dimof_oldViewports) :
    (((SavedTargets.moveAssign D (SavedTargets.default D)
        (SavedTargets.ofContext D s)).1)._oldViewports).take
      ((SavedTargets.moveAssign D (SavedTargets.default D)
        (SavedTargets.ofContext D s)).1)._oldViewportCount = s.viewports := by
  obtain ⟨h1, -, -, h4, -, h6⟩ :=
    moveAssign_fst_spec D (SavedTargets.default D) (SavedTargets.ofContext D s)
  have hV : s.viewports.length ≤ D.dimof_oldViewports := le_trans hvp (min_le_right _ _)
  have hN : s.viewports.length ≤ D.MaxSimultaneousRenderTargetCount :=
    le_trans hvp (min_le_left _ _)
  have hcount : (SavedTargets.ofContext D s)._oldViewportCount = s.viewports.length := by
    simp [SavedTargets.ofContext, DeviceContext.RSGetViewports, hV]
  have hlen : (SavedTargets.default D)._oldViewports.length = D.dimof_oldViewports := by
    simp [SavedTargets.default]
  rw [h1, hcount]
  apply List.ext_getElem?
  intro i
  rw [List.getElem?_take]
  by_cases hi : i < s.viewports.length
  · rw [if_pos hi, getElem?_eq_some_getD _ i D.ViewportDesc_ctor (by rw [h4, hlen]; omega), h6 i,
      if_pos ⟨by omega, by rw [hlen]; omega⟩, getElem?_eq_some_getD _ i D.ViewportDesc_ctor hi]
    congr 1
    simp only [SavedTargets.ofContext, DeviceContext.RSGetViewports, min_eq_right hV,
      List.take_length]
    rw [List.getD_eq_getElem?_getD, List.getD_eq_getElem?_getD, List.getElem?_append_left hi]
  · rw [if_neg hi, List.getElem?_eq_none (Nat.le_of_not_lt hi)]


theorem ProtectState.ctor_context (D : Decls) (junk : ProtectState) (context : Nat) (w : World)
    (states : Nat) :
    (ProtectState.ctor D junk context w states)._context =
      some context := by
  simp only [ProtectState.ctor, apply_ite ProtectState._context, apply_ite ProtectState._states,
    ite_self]

theorem ProtectState.ctor_states (D : Decls) (junk : ProtectState) (context : Nat) (w : World)
    (states : Nat) :
    (ProtectState.ctor D junk context w states)._states =
      states := by
  simp only [ProtectState.ctor, apply_ite ProtectState._states, apply_ite ProtectState._states,
    ite_self]

theorem ProtectState.ctor_targets (D : Decls) (junk : ProtectState) (context : Nat) (w : World)
    (states : Nat) :
    (ProtectState.ctor D junk context w states)._targets =
      if (hasState states D.States.RenderTargets || hasState states D.States.Viewports) = true
      then (SavedTargets.moveAssign D (SavedTargets.default D) (SavedTargets.ofContext D (w context))).1
      else SavedTargets.default D := by
  simp only [ProtectState.ctor, apply_ite ProtectState._targets, apply_ite ProtectState._states,
    ite_self]

theorem ProtectState.ctor_vertexBuffers (D : Decls) (junk : ProtectState) (context : Nat) (w : World)
    (states : Nat) :
    (ProtectState.ctor D junk context w states)._vertexBuffers =
      if hasState states D.States.VertexBuffer = true
      then (List.range D.s_vbCount).map (fun c => (((w context).IAGetVertexBuffers D.s_vbCount).1).getD c 0)
      else List.replicate D.s_vbCount 0 := by
  simp only [ProtectState.ctor, apply_ite ProtectState._vertexBuffers, apply_ite ProtectState._states,
    ite_self]

theorem ProtectState.ctor_vbStrides (D : Decls) (junk : ProtectState) (context : Nat) (w : World)
    (states : Nat) :
    (ProtectState.ctor D junk context w states)._vbStrides =
      if hasState states D.States.VertexBuffer = true
      then ((w context).IAGetVertexBuffers D.s_vbCount).2.1
      else junk._vbStrides := by
  simp only [ProtectState.ctor, apply_ite ProtectState._vbStrides, apply_ite ProtectState._states,
    ite_self]

theorem ProtectState.ctor_vbOffsets (D : Decls) (junk : ProtectState) (context : Nat) (w : World)
    (states : Nat) :
    (ProtectState.ctor D junk context w states)._vbOffsets =
      if hasState states D.States.VertexBuffer = true
      then ((w context).IAGetVertexBuffers D.s_vbCount).2.2
      else junk._vbOffsets := by
  simp only [ProtectState.ctor, apply_ite ProtectState._vbOffsets, apply_ite ProtectState._states,
    ite_self]

theorem ProtectState.resetCalls_renderTargets (D : Decls) (p : ProtectState) (ctx : DeviceContext) :
    (ctx.run (p.resetCalls D)).renderTargets =
      if (hasState p._states D.States.RenderTargets || hasState p._states D.States.Viewports) = true
      then (fun i => if i < D.dimof_oldTargets then p._targets._oldTargets.getD i 0 else 0)
      else ctx.renderTargets := by
  simp only [ProtectState.resetCalls, SavedTargets.ResetToOldTargets,
    DeviceContext.run_append, DeviceContext.run_ite, DeviceContext.run_cons,
    DeviceContext.run_nil, DeviceCall.apply, apply_ite DeviceContext.renderTargets, ite_self]

theorem ProtectState.resetCalls_depthTarget (D : Decls) (p : ProtectState) (ctx : DeviceContext) :
    (ctx.run (p.resetCalls D)).depthTarget =
      if (hasState p._states D.States.RenderTargets || hasState p._states D.States.Viewports) = true
      then p._targets._oldDepthTarget
      else ctx.depthTarget := by
  simp only [ProtectState.resetCalls, SavedTargets.ResetToOldTargets,
    DeviceContext.run_append, DeviceContext.run_ite, DeviceContext.run_cons,
    DeviceContext.run_nil, DeviceCall.apply, apply_ite DeviceContext.depthTarget, ite_self]

theorem ProtectState.resetCalls_viewports (D : Decls) (p : ProtectState) (ctx : DeviceContext) :
    (ctx.run (p.resetCalls D)).viewports =
      if (hasState p._states D.States.RenderTargets || hasState p._states D.States.Viewports) = true
      then p._targets._oldViewports.take p._targets._oldViewportCount
      else ctx.viewports := by
  simp only [ProtectState.resetCalls, SavedTargets.ResetToOldTargets,
    DeviceContext.run_append, DeviceContext.run_ite, DeviceContext.run_cons,
    DeviceContext.run_nil, DeviceCall.apply, apply_ite DeviceContext.viewports, ite_self]

theorem ProtectState.resetCalls_depthStencilState (D : Decls) (p : ProtectState) (ctx : DeviceContext) :
    (ctx.run (p.resetCalls D)).depthStencilState =
      if hasState p._states D.States.DepthStencilState = true
      then p._depthStencilState
      else ctx.depthStencilState := by
  simp only [ProtectState.resetCalls, SavedTargets.ResetToOldTargets,
    DeviceContext.run_append, DeviceContext.run_ite, DeviceContext.run_cons,
    DeviceContext.run_nil, DeviceCall.apply, apply_ite DeviceContext.depthStencilState, ite_self]

theorem ProtectState.resetCalls_blendState (D : Decls) (p : ProtectState) (ctx : DeviceContext) :
    (ctx.run (p.resetCalls D)).blendState =
      if hasState p._states D.States.BlendState = true
      then p._blendState
      else ctx.blendState := by
  simp only [ProtectState.resetCalls, SavedTargets.ResetToOldTargets,
    DeviceContext.run_append, DeviceContext.run_ite, DeviceContext.run_cons,
    DeviceContext.run_nil, DeviceCall.apply, apply_ite DeviceContext.blendState, ite_self]

theorem ProtectState.resetCalls_blendFactor (D : Decls) (p : ProtectState) (ctx : DeviceContext) :
    (ctx.run (p.resetCalls D)).blendFactor =
      if hasState p._states D.States.BlendState = true
      then p._blendFactor
      else ctx.blendFactor := by
  simp only [ProtectState.resetCalls, SavedTargets.ResetToOldTargets,
    DeviceContext.run_append, DeviceContext.run_ite, DeviceContext.run_cons,
    DeviceContext.run_nil, DeviceCall.apply, apply_ite DeviceContext.blendFactor, ite_self]

theorem ProtectState.resetCalls_blendSampleMask (D : Decls) (p : ProtectState) (ctx : DeviceContext) :
    (ctx.run (p.resetCalls D)).blendSampleMask =
      if hasState p._states D.States.BlendState = true
      then p._blendSampleMask
      else ctx.blendSampleMask := by
  simp only [ProtectState.resetCalls, SavedTargets.ResetToOldTargets,
    DeviceContext.run_append, DeviceContext.run_ite, DeviceContext.run_cons,
    DeviceContext.run_nil, DeviceCall.apply, apply_ite DeviceContext.blendSampleMask, ite_self]

theorem ProtectState.resetCalls_rasterizerState (D : Decls) (p : ProtectState) (ctx : DeviceContext) :
    (ctx.run (p.resetCalls D)).rasterizerState =
      if hasState p._states D.States.RasterizerState = true
      then p._rasterizerState
      else ctx.rasterizerState := by
  simp only [ProtectState.resetCalls, SavedTargets.ResetToOldTargets,
    DeviceContext.run_append, DeviceContext.run_ite, DeviceContext.run_cons,
    DeviceContext.run_nil, DeviceCall.apply, apply_ite DeviceContext.rasterizerState, ite_self]

theorem ProtectState.resetCalls_inputLayout (D : Decls) (p : ProtectState) (ctx : DeviceContext) :
    (ctx.run (p.resetCalls D)).inputLayout =
      if hasState p._states D.States.InputLayout = true
      then p._inputLayout
      else ctx.inputLayout := by
  simp only [ProtectState.resetCalls, SavedTargets.ResetToOldTargets,
    DeviceContext.run_append, DeviceContext.run_ite, DeviceContext.run_cons,
    DeviceContext.run_nil, DeviceCall.apply, apply_ite DeviceContext.inputLayout, ite_self]

theorem ProtectState.resetCalls_vertexBuffers (D : Decls) (p : ProtectState) (ctx : DeviceContext) :
    (ctx.run (p.resetCalls D)).vertexBuffers =
      if hasState p._states D.States.VertexBuffer = true
      then (fun i => if 0 ≤ i ∧ i < 0 + D.s_vbCount then ((List.range D.s_vbCount).map (fun c => p._vertexBuffers.getD c 0)).getD (i - 0) 0 else ctx.vertexBuffers i)
      else ctx.vertexBuffers := by
  simp only [ProtectState.resetCalls, SavedTargets.ResetToOldTargets,
    DeviceContext.run_append, DeviceContext.run_ite, DeviceContext.run_cons,
    DeviceContext.run_nil, DeviceCall.apply, apply_ite DeviceContext.vertexBuffers, ite_self]

theorem ProtectState.resetCalls_vbStrides (D : Decls) (p : ProtectState) (ctx : DeviceContext) :
    (ctx.run (p.resetCalls D)).vbStrides =
      if hasState p._states D.States.VertexBuffer = true
      then (fun i => if 0 ≤ i ∧ i < 0 + D.s_vbCount then p._vbStrides.getD (i - 0) 0 else ctx.vbStrides i)
      else ctx.vbStrides := by
  simp only [ProtectState.resetCalls, SavedTargets.ResetToOldTargets,
    DeviceContext.run_append, DeviceContext.run_ite, DeviceContext.run_cons,
    DeviceContext.run_nil, DeviceCall.apply, apply_ite DeviceContext.vbStrides, ite_self]

theorem ProtectState.resetCalls_vbOffsets (D : Decls) (p : ProtectState) (ctx : DeviceContext) :
    (ctx.run (p.resetCalls D)).vbOffsets =
      if hasState p._states D.States.VertexBuffer = true
      then (fun i => if 0 ≤ i ∧ i < 0 + D.s_vbCount then p._vbOffsets.getD (i - 0) 0 else ctx.vbOffsets i)
      else ctx.vbOffsets := by
  simp only [ProtectState.resetCalls, SavedTargets.ResetToOldTargets,
    DeviceContext.run_append, DeviceContext.run_ite, DeviceContext.run_cons,
    DeviceContext.run_nil, DeviceCall.apply, apply_ite DeviceContext.vbOffsets, ite_self]

theorem ProtectState.resetCalls_indexBuffer (D : Decls) (p : ProtectState) (ctx : DeviceContext) :
    (ctx.run (p.resetCalls D)).indexBuffer =
      if hasState p._states D.States.IndexBuffer = true
      then p._indexBuffer
      else ctx.indexBuffer := by
  simp only [ProtectState.resetCalls, SavedTargets.ResetToOldTargets,
    DeviceContext.run_append, DeviceContext.run_ite, DeviceContext.run_cons,
    DeviceContext.run_nil, DeviceCall.apply, apply_ite DeviceContext.indexBuffer, ite_self]

theorem ProtectState.resetCalls_ibFormat (D : Decls) (p : ProtectState) (ctx : DeviceContext) :
    (ctx.run (p.resetCalls D)).ibFormat =
      if hasState p._states D.States.IndexBuffer = true
      then p._ibFormat
      else ctx.ibFormat := by
  simp only [ProtectState.resetCalls, SavedTargets.ResetToOldTargets,
    DeviceContext.run_append, DeviceContext.run_ite, DeviceContext.run_cons,
    DeviceContext.run_nil, DeviceCall.apply, apply_ite DeviceContext.ibFormat, ite_self]

theorem ProtectState.resetCalls_ibOffset (D : Decls) (p : ProtectState) (ctx : DeviceContext) :
    (ctx.run (p.resetCalls D)).ibOffset =
      if hasState p._states D.States.IndexBuffer = true
      then p._ibOffset
      else ctx.ibOffset := by
  simp only [ProtectState.resetCalls, SavedTargets.ResetToOldTargets,
    DeviceContext.run_append, DeviceContext.run_ite, DeviceContext.run_cons,
    DeviceContext.run_nil, DeviceCall.apply, apply_ite DeviceContext.ibOffset, ite_self]

theorem ProtectState.resetCalls_topology (D : Decls) (p : ProtectState) (ctx : DeviceContext) :
    (ctx.run (p.resetCalls D)).topology =
      if hasState p._states D.States.Topology = true
      then p._topology
      else ctx.topology := by
  simp only [ProtectState.resetCalls, SavedTargets.ResetToOldTargets,
    DeviceContext.run_append, DeviceContext.run_ite, DeviceContext.run_cons,
    DeviceContext.run_nil, DeviceCall.apply, apply_ite DeviceContext.topology, ite_self]


theorem ProtectState.ResetStates_snd (D : Decls) (p : ProtectState) (w : World) (c : Nat)
    (h : p._context = some c) : (p.ResetStates D w).2 c = (w c).run (p.resetCalls D) := by
  simp only [ProtectState.ResetStates, ProtectState.ResetStates_trace, h]
  exact World.run_same c _ w

theorem ProtectState.restored_eq (D : Decls) (junk : ProtectState) (context : Nat)
    (w w' : World) (states : Nat) :
    ProtectState.restored D junk context w w' states =
      (w' context).run ((ProtectState.ctor D junk context w states).resetCalls D) :=
  ProtectState.ResetStates_snd D _ w' context (ProtectState.ctor_context D junk context w states)

/-- C2, refuted as stated: with only the `Viewports` bit set the `RenderTargets`
bit is not set, yet `ResetStates` rebinds the render targets saved at
construction (slot 0 is `11` again) instead of leaving the ones bound just
before it (slot 0 was `21`). -/
theorem ProtectState.unselected_render_targets_counterexample :
    hasState Decls.sample.States.Viewports Decls.sample.States.RenderTargets = false ∧
    (DeviceContext.sampleB).renderTargets 0 = 21 ∧
    (ProtectState.restored Decls.sample ProtectState.sampleJunk 0
      (fun _ => DeviceContext.sampleA) (fun _ => DeviceContext.sampleB)
      Decls.sample.States.Viewports).renderTargets 0 = 11 := by
  decide

/-- Every unselected state group keeps the value it had before `ResetStates`;
render targets and viewports go together. -/
theorem ProtectState.restored_unselected (D : Decls) (junk : ProtectState)
    (context : Nat) (w w' : World) (b : Nat) :
    ((hasState b D.States.RenderTargets || hasState b D.States.Viewports) = true →
      (ProtectState.restored D junk context w w' b).depthTarget = (w context).depthTarget ∧
      ((∀ i, min D.MaxSimultaneousRenderTargetCount D.dimof_oldTargets ≤ i →
          (w context).renderTargets i = 0) →
        (ProtectState.restored D junk context w w' b).renderTargets = (w context).renderTargets) ∧
      ((w context).viewports.length ≤
          min D.MaxSimultaneousRenderTargetCount D.dimof_oldViewports →
        (ProtectState.restored D junk context w w' b).viewports = (w context).viewports)) ∧
    ((hasState b D.States.RenderTargets || hasState b D.States.Viewports) = false →
      (ProtectState.restored D junk context w w' b).renderTargets = (w' context).renderTargets ∧
      (ProtectState.restored D junk context w w' b).depthTarget = (w' context).depthTarget ∧
      (ProtectState.restored D junk context w w' b).viewports = (w' context).viewports) ∧
    (hasState b D.States.DepthStencilState = false →
      (ProtectState.restored D junk context w w' b).depthStencilState =
        (w' context).depthStencilState) ∧
    (hasState b D.States.BlendState = false →
      (ProtectState.restored D junk context w w' b).blendState = (w' context).blendState ∧
      (ProtectState.restored D junk context w w' b).blendFactor = (w' context).blendFactor ∧
      (ProtectState.restored D junk context w w' b).blendSampleMask =
        (w' context).blendSampleMask) ∧
    (hasState b D.States.RasterizerState = false →
      (ProtectState.restored D junk context w w' b).rasterizerState =
        (w' context).rasterizerState) ∧
    (hasState b D.States.InputLayout = false →
      (ProtectState.restored D junk context w w' b).inputLayout = (w' context).inputLayout) ∧
    (hasState b D.States.VertexBuffer = false →
      (ProtectState.restored D junk context w w' b).vertexBuffers =
        (w' context).vertexBuffers ∧
      (ProtectState.restored D junk context w w' b).vbStrides = (w' context).vbStrides ∧
      (ProtectState.restored D junk context w w' b).vbOffsets = (w' context).vbOffsets) ∧
    (hasState b D.States.IndexBuffer = false →
      (ProtectState.restored D junk context w w' b).indexBuffer = (w' context).indexBuffer ∧
      (ProtectState.restored D junk context w w' b).ibFormat = (w' context).ibFormat ∧
      (ProtectState.restored D junk context w w' b).ibOffset = (w' context).ibOffset) ∧
    (hasState b D.States.Topology = false →
      (ProtectState.restored D junk context w w' b).topology = (w' context).topology) := by
  rw [ProtectState.restored_eq]
  simp only [ProtectState.resetCalls_renderTargets, ProtectState.resetCalls_depthTarget,
    ProtectState.resetCalls_viewports, ProtectState.resetCalls_depthStencilState,
    ProtectState.resetCalls_blendState, ProtectState.resetCalls_blendFactor,
    ProtectState.resetCalls_blendSampleMask, ProtectState.resetCalls_rasterizerState,
    ProtectState.resetCalls_inputLayout, ProtectState.resetCalls_vertexBuffers,
    ProtectState.resetCalls_vbStrides, ProtectState.resetCalls_vbOffsets,
    ProtectState.resetCalls_indexBuffer, ProtectState.resetCalls_ibFormat,
    ProtectState.resetCalls_ibOffset, ProtectState.resetCalls_topology,
    ProtectState.ctor_states]
  refine ⟨?_, ?_, ?_, ?_, ?_, ?_, ?_, ?_, ?_⟩
  · intro h
    rw [if_pos h, if_pos h, if_pos h, ProtectState.ctor_targets, if_pos h]
    exact ⟨captured_depthTarget D (w context),
      fun hrt => captured_renderTargets D (w context) hrt,
      fun hvp => captured_viewports D (w context) hvp⟩
  · intro h
    simp only [h, Bool.false_eq_true, if_false, and_self]
  · intro h
    simp only [h, Bool.false_eq_true, if_false]
  · intro h
    simp only [h, Bool.false_eq_true, if_false, and_self]
  · intro h
    simp only [h, Bool.false_eq_true, if_false]
  · intro h
    simp only [h, Bool.false_eq_true, if_false]
  · intro h
    simp only [h, Bool.false_eq_true, if_false, and_self]
  · intro h
    simp only [h, Bool.false_eq_true, if_false, and_self]
  · intro h
    simp only [h, Bool.false_eq_true, if_false]

/-- C2, amended. For every bitfield `b`, every state at construction and every
state just before the call, `ResetStates` of a `ProtectState(context, b)`
leaves every state group whose bit is not set in `b` at the value it had just
before the call, for the depth-stencil state, blend state, rasterizer state,
input layout, vertex buffers, index buffer and topology. Render targets (with
the depth target) and viewports are one unit: all three are left alone when
neither of the two bits is set; when either bit is set the depth target goes
back to its value at construction, and so do the render-target slots when the
state at construction binds no render target in a slot from
`min(MaxSimultaneousRenderTargetCount, dimof(_oldTargets))` on, and the
viewports when it binds at most
`min(MaxSimultaneousRenderTargetCount, dimof(_oldViewports))` of them. -/
theorem ProtectState.restore_selected_by_bitfield (D : Decls) (junk : ProtectState)
    (context : Nat) (w w' : World) (b : Nat) :
    ((hasState b D.States.RenderTargets || hasState b D.States.Viewports) = true →
      (ProtectState.restored D junk context w w' b).depthTarget = (w context).depthTarget ∧
      ((∀ i, min D.MaxSimultaneousRenderTargetCount D.dimof_oldTargets ≤ i →
          (w context).renderTargets i = 0) →
        (ProtectState.restored D junk context w w' b).renderTargets = (w context).renderTargets) ∧
      ((w context).viewports.length ≤
          min D.MaxSimultaneousRenderTargetCount D.dimof_oldViewports →
        (ProtectState.restored D junk context w w' b).viewports = (w context).viewports)) ∧
    ((hasState b D.States.RenderTargets || hasState b D.States.Viewports) = false →
      (ProtectState.restored D junk context w w' b).renderTargets = (w' context).renderTargets ∧
      (ProtectState.restored D junk context w w' b).depthTarget = (w' context).depthTarget ∧
      (ProtectState.restored D junk context w w' b).viewports = (w' context).viewports) ∧
    (hasState b D.States.DepthStencilState = false →
      (ProtectState.restored D junk context w w' b).depthStencilState =
        (w' context).depthStencilState) ∧
    (hasState b D.States.BlendState = false →
      (ProtectState.restored D junk context w w' b).blendState = (w' context).blendState ∧
      (ProtectState.restored D junk context w w' b).blendFactor = (w' context).blendFactor ∧
      (ProtectState.restored D junk context w w' b).blendSampleMask =
        (w' context).blendSampleMask) ∧
    (hasState b D.States.RasterizerState = false →
      (ProtectState.restored D junk context w w' b).rasterizerState =
        (w' context).rasterizerState) ∧
    (hasState b D.States.InputLayout = false →
      (ProtectState.restored D junk context w w' b).inputLayout = (w' context).inputLayout) ∧
    (hasState b D.States.VertexBuffer = false →
      (ProtectState.restored D junk context w w' b).vertexBuffers =
        (w' context).vertexBuffers ∧
      (ProtectState.restored D junk context w w' b).vbStrides = (w' context).vbStrides ∧
      (ProtectState.restored D junk context w w' b).vbOffsets = (w' context).vbOffsets) ∧
    (hasState b D.States.IndexBuffer = false →
      (ProtectState.restored D junk context w w' b).indexBuffer = (w' context).indexBuffer ∧
      (ProtectState.restored D junk context w w' b).ibFormat = (w' context).ibFormat ∧
      (ProtectState.restored D junk context w w' b).ibOffset = (w' context).ibOffset) ∧
    (hasState b D.States.Topology = false →
      (ProtectState.restored D junk context w w' b).topology = (w' context).topology) :=
  ProtectState.restored_unselected D junk context w w' b

/-- C2 (amended) at a concrete input: only the `Viewports` bit set, saved in
`sampleA`, reset in `sampleB`. -/
theorem ProtectState.restore_selected_by_bitfield_witness :
    (ProtectState.restored Decls.sample ProtectState.sampleJunk 0
        (fun _ => DeviceContext.sampleA) (fun _ => DeviceContext.sampleB) 2).depthTarget = 12 ∧
    (ProtectState.restored Decls.sample ProtectState.sampleJunk 0
        (fun _ => DeviceContext.sampleA) (fun _ => DeviceContext.sampleB) 2).viewports =
      [⟨0, 0, 640, 480, 0, 1⟩] ∧
    (ProtectState.restored Decls.sample ProtectState.sampleJunk 0
        (fun _ => DeviceContext.sampleA) (fun _ => DeviceContext.sampleB) 2).topology = 5 := by
  have h := ProtectState.restore_selected_by_bitfield Decls.sample ProtectState.sampleJunk 0
    (fun _ => DeviceContext.sampleA) (fun _ => DeviceContext.sampleB) 2
  exact ⟨(h.1 (by decide)).1, (h.1 (by decide)).2.2 (by decide),
    h.2.2.2.2.2.2.2.2 (by decide)⟩

theorem hasState_zero (flag : Nat) : hasState 0 flag = false := by
  simp [hasState]

theorem ProtectState.resetCalls_of_states_zero (D : Decls) (p : ProtectState)
    (h : p._states = 0) : p.resetCalls D = [] := by
  simp [ProtectState.resetCalls, h, hasState_zero]

theorem ProtectState.ResetStates_trace_after (D : Decls) (p : ProtectState) (w : World) :
    ((p.ResetStates D w).1).ResetStates_trace D = [] := by
  cases hc : p._context with
  | none => simp [ProtectState.ResetStates, ProtectState.ResetStates_trace, hc]
  | some c =>
    simp [ProtectState.ResetStates, ProtectState.ResetStates_trace, hc,
      ProtectState.resetCalls_of_states_zero]

theorem ProtectState.ResetStates_of_trace_nil (D : Decls) (p : ProtectState) (w : World)
    (h : p.ResetStates_trace D = []) : (p.ResetStates D w).2 = w := by
  cases hc : p._context with
  | none => simp [ProtectState.ResetStates, hc]
  | some c => simp [ProtectState.ResetStates, hc, h, World.run]

/-- C3. Restoration happens at most once. The destructor runs `ResetStates`.
When the context is not null the first `ResetStates` clears the bitfield to
`0`; after it, any further `ResetStates`, the destructor's included, issues no
call on any device context and leaves every context (the whole world `w2` it
runs in) and the object unchanged. A `ProtectState` with a null context, as
the default constructor builds, issues no call and changes no context. -/
theorem ProtectState.ResetStates_at_most_once (D : Decls) (p junk : ProtectState)
    (w w2 : World) :
    p.dtor D w = (p.ResetStates D w).2 ∧
    (p._context ≠ none → ((p.ResetStates D w).1)._states = 0) ∧
    ((p.ResetStates D w).1).ResetStates_trace D = [] ∧
    ((p.ResetStates D w).1).ResetStates D w2 = ((p.ResetStates D w).1, w2) ∧
    ((p.ResetStates D w).1).dtor D w2 = w2 ∧
    (p._context = none →
      p.ResetStates_trace D = [] ∧ p.ResetStates D w = (p, w) ∧ p.dtor D w = w) ∧
    (ProtectState.default D junk)._context = none ∧
    (ProtectState.default D junk).ResetStates D w = (ProtectState.default D junk, w) ∧
    (ProtectState.default D junk).dtor D w = w := by
  refine ⟨rfl, ?_, ProtectState.ResetStates_trace_after D p w, ?_, ?_, ?_, rfl, rfl, rfl⟩
  · intro h
    cases hc : p._context with
    | none => exact absurd hc h
    | some c => simp [ProtectState.ResetStates, hc]
  · cases hc : p._context with
    | none => simp [ProtectState.ResetStates, hc]
    | some c =>
      simp [ProtectState.ResetStates, hc, ProtectState.ResetStates_trace,
        ProtectState.resetCalls_of_states_zero, World.run]
  · exact ProtectState.ResetStates_of_trace_nil D _ w2 (ProtectState.ResetStates_trace_after D p w)
  · intro hc
    simp [ProtectState.ResetStates, ProtectState.ResetStates_trace, ProtectState.dtor, hc]

/-- C4, the code at the failing input. Two `SavedTargets` are constructed from
a context that binds the render target `11` and the depth target `12`, the
second is move-assigned into the first, and both are destroyed. Every object
is destroyed at the end, yet the counts of `11` and `12` end one above where
they started (`1`): the references the first object held were overwritten
without a `Release`. The same happens in a self-assignment. Without the
assignment the counts are back at `1`. -/
theorem SavedTargets.moveAssign_leaks_references :
    (Lifetimes.run Decls.sample (fun _ => 1)
      [.construct DeviceContext.sampleA, .construct DeviceContext.sampleA,
       .moveAssign 0 1, .destroy 0, .destroy 1]).objects = [none, none] ∧
    (Lifetimes.run Decls.sample (fun _ => 1)
      [.construct DeviceContext.sampleA, .construct DeviceContext.sampleA,
       .moveAssign 0 1, .destroy 0, .destroy 1]).refs 11 = 2 ∧
    (Lifetimes.run Decls.sample (fun _ => 1)
      [.construct DeviceContext.sampleA, .construct DeviceContext.sampleA,
       .moveAssign 0 1, .destroy 0, .destroy 1]).refs 12 = 2 ∧
    (Lifetimes.run Decls.sample (fun _ => 1)
      [.construct DeviceContext.sampleA, .moveAssign 0 0, .destroy 0]).objects = [none] ∧
    (Lifetimes.run Decls.sample (fun _ => 1)
      [.construct DeviceContext.sampleA, .moveAssign 0 0, .destroy 0]).refs 11 = 2 ∧
    (Lifetimes.run Decls.sample (fun _ => 1)
      [.construct DeviceContext.sampleA, .construct DeviceContext.sampleA,
       .destroy 0, .destroy 1]).refs 11 = 1 ∧
    (Lifetimes.run Decls.sample (fun _ => 1)
      [.construct DeviceContext.sampleA, .construct DeviceContext.sampleA,
       .destroy 0, .destroy 1]).refs 12 = 1 := by
  decide

theorem gaussian_first_loop {F : Type} [Field F] (g : Nat → F) (result : Nat → F) (n : Nat) :
    ((List.range n).foldl
      (fun (st : (Nat → F) × F) c => (Function.update st.1 c (g c),
        st.2 + (Function.update st.1 c (g c)) c)) (result, 0)) =
      ((fun c => if c < n then g c else result c), ∑ c in Finset.range n, g c) := by
  induction n with
  | zero => simp
  | succ n ih =>
    rw [List.range_succ, List.foldl_append, ih]
    simp only [List.foldl_cons, List.foldl_nil, Function.update_same, Finset.sum_range_succ]
    congr 1
    funext c
    by_cases h : c = n
    · subst h
      simp
    · have e : c < n + 1 ↔ c < n := by omega
      simp [Function.update_noteq h, e]

theorem gaussian_second_loop {F : Type} [Field F] (t : F) (r : Nat → F) (n : Nat) :
    (List.range n).foldl (fun result c => Function.update result c (result c / t)) r =
      fun c => if c < n then r c / t else r c := by
  induction n with
  | zero => simp
  | succ n ih =>
    rw [List.range_succ, List.foldl_append, ih]
    simp only [List.foldl_cons, List.foldl_nil]
    funext c
    by_cases h : c = n
    · subst h
      simp
    · have e : c < n + 1 ↔ c < n := by omega
      simp [Function.update_noteq h, e]

theorem asInt32_toNat_of_lt (w : Nat) (h : w < 2 ^ 31) : (asInt32 w).toNat = w := by
  have h2 : w % 2 ^ 32 = w := Nat.mod_eq_of_lt (by omega)
  unfold asInt32
  rw [h2, if_pos h]
  simp

theorem BuildGaussianFilteringWeights_eq {F : Type} [Field F] (exp : F → F)
    (result : Nat → F) (sd : F) (w : Nat) (h : w < 2 ^ 31) (c : Nat) (hc : c < w) :
    BuildGaussianFilteringWeights exp result sd w c =
      gaussianWeight exp sd w c / ∑ i in Finset.range w, gaussianWeight exp sd w i := by
  unfold BuildGaussianFilteringWeights
  simp only [asInt32_toNat_of_lt w h]
  rw [gaussian_first_loop (gaussianWeight exp sd w) result w, gaussian_second_loop]
  simp [hc]

/-- The weights over any ordered field, for any positive `exp`. -/
theorem BuildGaussianFilteringWeights_balanced {F : Type} [LinearOrderedField F]
    (exp : F → F) (hexp : ∀ x, 0 < exp x) (result : Nat → F) (sd : F) (w : Nat)
    (h1 : 1 ≤ w) (h : w < 2 ^ 31) :
    ∑ c in Finset.range w, BuildGaussianFilteringWeights exp result sd w c = 1 ∧
    ∀ c, c < w → 0 < BuildGaussianFilteringWeights exp result sd w c := by
  have hpos : ∀ i, 0 < gaussianWeight exp sd w i := fun i => hexp _
  have htot : 0 < ∑ i in Finset.range w, gaussianWeight exp sd w i :=
    Finset.sum_pos (fun i _ => hpos i) (Finset.nonempty_range_iff.mpr (by omega))
  constructor
  · rw [Finset.sum_congr rfl (fun c hc =>
      BuildGaussianFilteringWeights_eq exp result sd w h c (Finset.mem_range.mp hc)),
      ← Finset.sum_div]
    exact div_self (ne_of_gt htot)
  · intro c hc
    rw [BuildGaussianFilteringWeights_eq exp result sd w h c hc]
    exact div_pos (hpos c) htot

/-- C9, refuted as stated: for `weightsCount = 2^31` the bound `int(weightsCount)`
of the first loop is negative, so no weight is written and `total` stays `0`;
the second loop divides what `result` held before the call (here `1`
everywhere) by zero. With the convention `x / 0 = 0` of the field the values
written are all `0`: none is positive and their sum is `0`. -/
theorem BuildGaussianFilteringWeights_int_cast_counterexample :
    asInt32 2147483648 = -2147483648 ∧
    (asInt32 2147483648).toNat = 0 ∧
    ¬ (0 < BuildGaussianFilteringWeights Real.exp (fun _ => 1) 1 2147483648 0) ∧
    ∑ c in Finset.range 2147483648,
      BuildGaussianFilteringWeights Real.exp (fun _ => 1) 1 2147483648 c ≠ 1 := by
  have h0 : asInt32 2147483648 = -2147483648 := by decide
  have hall : ∀ c, c < 2147483648 →
      BuildGaussianFilteringWeights Real.exp (fun _ => 1) 1 2147483648 c = 0 := by
    intro c hc
    unfold BuildGaussianFilteringWeights
    rw [h0]
    simp only [Int.toNat_neg_nat, List.range_zero, List.foldl_nil, gaussian_second_loop]
    rw [if_pos hc]
    simp
  refine ⟨h0, by rw [h0]; rfl, ?_, ?_⟩
  · rw [hall 0 (by norm_num)]
    exact lt_irrefl 0
  · rw [Finset.sum_eq_zero (fun c hc => hall c (Finset.mem_range.mp hc))]
    exact zero_ne_one

/-- C9, amended. In exact real arithmetic, for every `weightsCount` with
`1 ≤ weightsCount < 2^31` (the values whose conversion to `int` keeps them)
and every non-zero `standardDeviation`, the `weightsCount` values that
`BuildGaussianFilteringWeights` writes to `result` sum to exactly `1` and each
of them is strictly positive, whatever `result` held before. -/
theorem BuildGaussianFilteringWeights_sum_one (result : Nat → ℝ) (standardDeviation : ℝ)
    (weightsCount : Nat) (h1 : 1 ≤ weightsCount) (h31 : weightsCount < 2 ^ 31)
    (_hsd : standardDeviation ≠ 0) :
    ∑ c in Finset.range weightsCount,
      BuildGaussianFilteringWeights Real.exp result standardDeviation weightsCount c = 1 ∧
    ∀ c, c < weightsCount →
      0 < BuildGaussianFilteringWeights Real.exp result standardDeviation weightsCount c :=
  BuildGaussianFilteringWeights_balanced Real.exp Real.exp_pos result standardDeviation
    weightsCount h1 h31

/-- C9 (amended) at a concrete input: five weights, standard deviation `2`. -/
theorem BuildGaussianFilteringWeights_sum_one_witness :
    ∑ c in Finset.range 5, BuildGaussianFilteringWeights Real.exp (fun _ => 0) 2 5 c = 1 ∧
    ∀ c, c < 5 → 0 < BuildGaussianFilteringWeights Real.exp (fun _ => 0) 2 5 c :=
  BuildGaussianFilteringWeights_sum_one (fun _ => 0) 2 5 (by norm_num) (by norm_num)
    (by norm_num)

theorem legacy_fold_spec (T : TerrainDecls) (P : Conversions) (l : List Element)
    (cfg : TerrainMaterialConfig) :
    l.foldl (legacyStep T P) cfg =
      { cfg with
        _strataMaterials := cfg._strataMaterials ++
          (l.filter (fun e => e.name = "StrataMaterial")).map (legacyStrataMaterial T P)
        _gradFlagMaterials := cfg._gradFlagMaterials ++
          (l.filter (fun e => e.name = "GradFlagMaterial")).map (legacyGradFlagMaterial T P) } := by
  induction l generalizing cfg with
  | nil => simp
  | cons e rest ih =>
    rw [List.foldl_cons, ih]
    by_cases h1 : e.name = "StrataMaterial"
    · have h2 : e.name ≠ "GradFlagMaterial" := by rw [h1]; decide
      simp [legacyStep, h1, List.filter_cons]
    · by_cases h2 : e.name = "GradFlagMaterial"
      · simp [legacyStep, h2, List.filter_cons]
      · simp [legacyStep, h1, h2, List.filter_cons]

/-- C7. For every document the legacy constructor returns a configuration (it
has no error path): its `_strataMaterials` are the strata materials built from
the top-level elements named `StrataMaterial`, one for each and in document
order, its `_gradFlagMaterials` those built from the top-level elements named
`GradFlagMaterial`, one for each and in document order, and a top-level
element with any other name adds nothing: the loop leaves the configuration
as it is, and the document without that element gives the same result. -/
theorem TerrainMaterialConfig.legacy_skips_unrecognised (T : TerrainDecls) (P : Conversions)
    (doc : Element) (searchRules : List String) :
    (TerrainMaterialConfig.legacy T P doc searchRules)._strataMaterials =
      (doc.children.filter (fun e => e.name = "StrataMaterial")).map
        (legacyStrataMaterial T P) ∧
    (TerrainMaterialConfig.legacy T P doc searchRules)._gradFlagMaterials =
      (doc.children.filter (fun e => e.name = "GradFlagMaterial")).map
        (legacyGradFlagMaterial T P) ∧
    (TerrainMaterialConfig.legacy T P doc searchRules)._strataMaterials.length =
      doc.children.countP (fun e => e.name = "StrataMaterial") ∧
    (TerrainMaterialConfig.legacy T P doc searchRules)._gradFlagMaterials.length =
      doc.children.countP (fun e => e.name = "GradFlagMaterial") ∧
    (∀ (cfg : TerrainMaterialConfig) (e : Element),
      e.name ≠ "StrataMaterial" → e.name ≠ "GradFlagMaterial" → legacyStep T P cfg e = cfg) ∧
    (∀ (name : String) (attributes : List (AttrName × String)) (before after : List Element)
      (e : Element), e.name ≠ "StrataMaterial" → e.name ≠ "GradFlagMaterial" →
      TerrainMaterialConfig.legacy T P (.mk name attributes (before ++ e :: after)) searchRules =
        TerrainMaterialConfig.legacy T P (.mk name attributes (before ++ after)) searchRules) := by
  refine ⟨?_, ?_, ?_, ?_, ?_, ?_⟩
  · simp [TerrainMaterialConfig.legacy, legacy_fold_spec, TerrainMaterialConfig.default]
  · simp [TerrainMaterialConfig.legacy, legacy_fold_spec, TerrainMaterialConfig.default]
  · simp [TerrainMaterialConfig.legacy, legacy_fold_spec, TerrainMaterialConfig.default,
      List.countP_eq_length_filter]
  · simp [TerrainMaterialConfig.legacy, legacy_fold_spec, TerrainMaterialConfig.default,
      List.countP_eq_length_filter]
  · intro cfg e h1 h2
    simp [legacyStep, h1, h2]
  · intro name attributes before after e h1 h2
    simp only [TerrainMaterialConfig.legacy, Element.children, legacy_fold_spec]
    simp [List.filter_append, List.filter_cons, h1, h2]

theorem legacyGradFlagMaterial_texture_length (T : TerrainDecls) (P : Conversions)
    (e : Element) :
    (legacyGradFlagMaterial T P e)._texture.length = T.dimof_GradFlag_texture := by
  simp [legacyGradFlagMaterial, GradFlagMaterial.default]

theorem foldl_set_range_spec {α : Type} (f : Nat → α) (d : α) (l0 : List α) (n : Nat) :
    ((List.range n).foldl (fun l e => l.set e (f e)) l0).length = l0.length ∧
    ∀ i, ((List.range n).foldl (fun l e => l.set e (f e)) l0).getD i d =
      if i < n ∧ i < l0.length then f i else l0.getD i d := by
  induction n with
  | zero => simp
  | succ n ih =>
    obtain ⟨h1, h2⟩ := ih
    rw [List.range_succ, List.foldl_append]
    simp only [List.foldl_cons, List.foldl_nil, List.length_set]
    refine ⟨h1, ?_⟩
    intro i
    rw [getD_set_eq, h1, h2 i]
    by_cases hi : n = i
    · subst hi
      by_cases hl : n < l0.length
      · simp [hl]
      · simp [hl]
    · have e1 : (i < n + 1) ↔ (i < n) := by omega
      simp only [hi, false_and, if_false, e1]

theorem list_ext_getD {α : Type} (d : α) (l1 l2 : List α) (hlen : l1.length = l2.length)
    (h : ∀ i, l1.getD i d = l2.getD i d) : l1 = l2 := by
  apply List.ext_getElem?
  intro i
  by_cases hi : i < l1.length
  · rw [getElem?_eq_some_getD l1 i d hi, getElem?_eq_some_getD l2 i d (hlen ▸ hi), h i]
  · rw [List.getElem?_eq_none (Nat.le_of_not_lt hi),
      List.getElem?_eq_none (hlen ▸ Nat.le_of_not_lt hi)]

theorem foldl_set_range_eq {α : Type} (d : α) (g l0 : List α) (n : Nat)
    (hlen : l0.length = g.length) (hn : g.length ≤ n) :
    (List.range n).foldl (fun l e => l.set e (g.getD e d)) l0 = g := by
  obtain ⟨h1, h2⟩ := foldl_set_range_spec (fun e => g.getD e d) d l0 n
  apply list_ext_getD d _ _ (h1.trans hlen)
  intro i
  rw [h2 i]
  by_cases hi : i < g.length
  · rw [if_pos ⟨by omega, by omega⟩]
  · rw [if_neg (by omega), getD_of_length_le _ _ _ (by omega), getD_of_length_le _ _ _ (by omega)]

theorem TryOpaqueSet_preserves {Obj β : Type} (props : ClassAccessors Obj) (f : Obj → β)
    (h : ∀ p ∈ props.properties, ∀ set, p.setter = some set → ∀ o i v, f (set o i v) = f o)
    (obj : Obj) (a : AttrName × String) : f (props.TryOpaqueSet obj a) = f obj := by
  unfold ClassAccessors.TryOpaqueSet
  cases hfind : props.properties.find? (fun p => p.name = a.1.name) with
  | none => rfl
  | some p =>
    have hp : p ∈ props.properties := List.mem_of_find?_eq_some hfind
    simp only
    cases hs : p.setter with
    | none => rfl
    | some set =>
      cases hn : p.fixedArrayLength with
      | none =>
        cases hi : a.1.index with
        | none => exact h p hp set hs _ _ _
        | some e => rfl
      | some n =>
        cases hi : a.1.index with
        | none => rfl
        | some e =>
          simp only
          split
          · exact h p hp set hs _ _ _
          · rfl

theorem foldl_TryOpaqueSet_preserves {Obj β : Type} (props : ClassAccessors Obj) (f : Obj → β)
    (h : ∀ p ∈ props.properties, ∀ set, p.setter = some set → ∀ o i v, f (set o i v) = f o)
    (attrs : List (AttrName × String)) (obj : Obj) :
    f (attrs.foldl props.TryOpaqueSet obj) = f obj := by
  induction attrs generalizing obj with
  | nil => rfl
  | cons a rest ih => rw [List.foldl_cons, ih, TryOpaqueSet_preserves props f h]

theorem TerrainMaterialConfig_setters_keep_lists (T : TerrainDecls) (P : Conversions) :
    ∀ p ∈ (GetAccessors_TerrainMaterialConfig T P).properties, ∀ set, p.setter = some set →
      ∀ (o : TerrainMaterialConfig) (i : Nat) (v : String),
        (fun c : TerrainMaterialConfig =>
          (c._strataMaterials, c._gradFlagMaterials, c._procTextures, c._searchRules))
            (set o i v) =
        (fun c : TerrainMaterialConfig =>
          (c._strataMaterials, c._gradFlagMaterials, c._procTextures, c._searchRules)) o := by
  intro p hp set hset o i v
  simp only [GetAccessors_TerrainMaterialConfig, List.mem_cons, List.mem_singleton,
    List.mem_nil_iff, or_false] at hp
  rcases hp with rfl | rfl | rfl | rfl | rfl | rfl | rfl <;>
  · simp only [Option.some.injEq] at hset
    subst hset
    simp only [DefaultSet]
    split <;> rfl

theorem TryCreateChild_TerrainMaterialConfig (T : TerrainDecls) (P : Conversions)
    (obj : TerrainMaterialConfig) (e : Element) :
    (GetAccessors_TerrainMaterialConfig T P).TryCreateChild obj e =
      if e.name = "GradFlagMaterial" then
        { obj with _gradFlagMaterials := obj._gradFlagMaterials ++
            [AccessorDeserialize (GetAccessors_GradFlagMaterial T P) e (GradFlagMaterial.default T)] }
      else if e.name = "ProcTextureSetting" then
        { obj with _procTextures := obj._procTextures ++
            [AccessorDeserialize (GetAccessors_ProcTextureSetting T P) e
              (ProcTextureSetting.default T)] }
      else obj := by
  by_cases h1 : e.name = "GradFlagMaterial"
  · simp [ClassAccessors.TryCreateChild, GetAccessors_TerrainMaterialConfig, ChildList.ofVector,
      List.find?, h1]
  · by_cases h2 : e.name = "ProcTextureSetting"
    · simp [ClassAccessors.TryCreateChild, GetAccessors_TerrainMaterialConfig,
        ChildList.ofVector, List.find?, h2]
    · have h1' : ¬ "GradFlagMaterial" = e.name := fun h => h1 h.symm
      have h2' : ¬ "ProcTextureSetting" = e.name := fun h => h2 h.symm
      simp [ClassAccessors.TryCreateChild, GetAccessors_TerrainMaterialConfig,
        ChildList.ofVector, List.find?, h1, h2, h1', h2']

theorem foldl_TryCreateChild_TerrainMaterialConfig (T : TerrainDecls) (P : Conversions)
    (l : List Element) (obj : TerrainMaterialConfig) :
    l.foldl (GetAccessors_TerrainMaterialConfig T P).TryCreateChild obj =
      { obj with
        _gradFlagMaterials := obj._gradFlagMaterials ++
          (l.filter (fun e => e.name = "GradFlagMaterial")).map
            (fun e => AccessorDeserialize (GetAccessors_GradFlagMaterial T P) e
              (GradFlagMaterial.default T))
        _procTextures := obj._procTextures ++
          (l.filter (fun e => e.name = "ProcTextureSetting")).map
            (fun e => AccessorDeserialize (GetAccessors_ProcTextureSetting T P) e
              (ProcTextureSetting.default T)) } := by
  induction l generalizing obj with
  | nil => simp
  | cons e rest ih =>
    rw [List.foldl_cons, ih, TryCreateChild_TerrainMaterialConfig]
    by_cases h1 : e.name = "GradFlagMaterial"
    · have h2 : e.name ≠ "ProcTextureSetting" := by rw [h1]; decide
      simp [h1, List.filter_cons]
    · by_cases h2 : e.name = "ProcTextureSetting"
      · simp [h2, List.filter_cons]
      · simp [h1, h2, List.filter_cons]

/-- What the accessor-based constructor builds: the attributes only reach the
dimensions and the scalar settings, the child elements only the grad-flag
materials and the procedural texture settings. -/
theorem TerrainMaterialConfig.ofFormatter_lists (T : TerrainDecls) (P : Conversions)
    (doc : Element) (searchRules : List String) :
    (TerrainMaterialConfig.ofFormatter T P doc searchRules)._strataMaterials = [] ∧
    (TerrainMaterialConfig.ofFormatter T P doc searchRules)._searchRules = [] ∧
    (TerrainMaterialConfig.ofFormatter T P doc searchRules)._gradFlagMaterials =
      (doc.children.filter (fun e => e.name = "GradFlagMaterial")).map
        (fun e => AccessorDeserialize (GetAccessors_GradFlagMaterial T P) e
          (GradFlagMaterial.default T)) ∧
    (TerrainMaterialConfig.ofFormatter T P doc searchRules)._procTextures =
      (doc.children.filter (fun e => e.name = "ProcTextureSetting")).map
        (fun e => AccessorDeserialize (GetAccessors_ProcTextureSetting T P) e
          (ProcTextureSetting.default T)) := by
  have h := foldl_TryOpaqueSet_preserves (GetAccessors_TerrainMaterialConfig T P)
    (fun c : TerrainMaterialConfig =>
      (c._strataMaterials, c._gradFlagMaterials, c._procTextures, c._searchRules))
    (TerrainMaterialConfig_setters_keep_lists T P) doc.attributes TerrainMaterialConfig.default
  simp only [Prod.mk.injEq] at h
  obtain ⟨h1, h2, h3, h4⟩ := h
  simp only [TerrainMaterialConfig.ofFormatter, AccessorDeserialize,
    foldl_TryCreateChild_TerrainMaterialConfig, h1, h2, h3, h4]
  simp [TerrainMaterialConfig.default]

theorem GradFlag_set_Texture (T : TerrainDecls) (P : Conversions) (o : GradFlagMaterial)
    (e : Nat) (v : String) (he : e < T.dimof_GradFlag_texture) :
    (GetAccessors_GradFlagMaterial T P).TryOpaqueSet o (⟨"Texture", some e⟩, v) =
      { o with _texture := o._texture.set e v } := by
  simp [ClassAccessors.TryOpaqueSet, GetAccessors_GradFlagMaterial, List.find?, DefaultSetArray,
    he]

theorem GradFlag_set_Mapping (T : TerrainDecls) (P : Conversions) (o : GradFlagMaterial)
    (e : Nat) (x : ℚ) (he : e < T.dimof_GradFlag_texture)
    (hF : ∀ x, P.parseFloat (P.showFloat x) = some x) :
    (GetAccessors_GradFlagMaterial T P).TryOpaqueSet o (⟨"Mapping", some e⟩, P.showFloat x) =
      { o with _mappingConstant := o._mappingConstant.set e x } := by
  simp [ClassAccessors.TryOpaqueSet, GetAccessors_GradFlagMaterial, List.find?, DefaultSetArray,
    he, hF]

theorem GradFlag_fold_Texture (T : TerrainDecls) (P : Conversions) (f : Nat → String)
    (n : Nat) (hn : n ≤ T.dimof_GradFlag_texture) (o : GradFlagMaterial) :
    ((List.range n).map (fun e => ((⟨"Texture", some e⟩ : AttrName), f e))).foldl
        (GetAccessors_GradFlagMaterial T P).TryOpaqueSet o =
      { o with _texture := (List.range n).foldl (fun l e => l.set e (f e)) o._texture } := by
  induction n with
  | zero => simp
  | succ n ih =>
    rw [List.range_succ, List.map_append, List.foldl_append, ih (by omega), List.foldl_append]
    simp only [List.map_cons, List.map_nil, List.foldl_cons, List.foldl_nil]
    rw [GradFlag_set_Texture T P _ n _ (by omega)]

theorem GradFlag_fold_Mapping (T : TerrainDecls) (P : Conversions) (f : Nat → ℚ)
    (hF : ∀ x, P.parseFloat (P.showFloat x) = some x)
    (n : Nat) (hn : n ≤ T.dimof_GradFlag_texture) (o : GradFlagMaterial) :
    ((List.range n).map (fun e => ((⟨"Mapping", some e⟩ : AttrName), P.showFloat (f e)))).foldl
        (GetAccessors_GradFlagMaterial T P).TryOpaqueSet o =
      { o with
        _mappingConstant :=
          (List.range n).foldl (fun l e => l.set e (f e)) o._mappingConstant } := by
  induction n with
  | zero => simp
  | succ n ih =>
    rw [List.range_succ, List.map_append, List.foldl_append, ih (by omega), List.foldl_append]
    simp only [List.map_cons, List.map_nil, List.foldl_cons, List.foldl_nil]
    rw [GradFlag_set_Mapping T P _ n _ (by omega) hF]

/-- A grad-flag material is read back from what the serializer writes for it. -/
theorem GradFlagMaterial_round_trip (T : TerrainDecls) (P : Conversions)
    (hU : ∀ x, P.parseUInt (P.showUInt x) = some x)
    (hF : ∀ x, P.parseFloat (P.showFloat x) = some x)
    (hdim : T.dimof_GradFlag_mappingConstant ≤ T.dimof_GradFlag_texture)
    (name : String) (g : GradFlagMaterial)
    (ht : g._texture.length = T.dimof_GradFlag_texture)
    (hm : g._mappingConstant.length = T.dimof_GradFlag_mappingConstant) :
    AccessorDeserialize (GetAccessors_GradFlagMaterial T P)
      (AccessorSerialize (GetAccessors_GradFlagMaterial T P) name g)
      (GradFlagMaterial.default T) = g := by
  have hattrs : (AccessorSerialize (GetAccessors_GradFlagMaterial T P) name g).attributes =
      [((⟨"MaterialId", none⟩ : AttrName), P.showUInt g._id)] ++
      ((List.range T.dimof_GradFlag_texture).map
        (fun e => ((⟨"Texture", some e⟩ : AttrName), g._texture.getD e ""))) ++
      ((List.range T.dimof_GradFlag_texture).map
        (fun e => ((⟨"Mapping", some e⟩ : AttrName),
          P.showFloat (g._mappingConstant.getD e 0)))) ++
      [((⟨"Key", none⟩ : AttrName), P.showUInt g._id)] := by
    simp [AccessorSerialize, Element.attributes, GetAccessors_GradFlagMaterial,
      Property.attributes, List.flatMap]
  have hchildren : (AccessorSerialize (GetAccessors_GradFlagMaterial T P) name g).children = [] := by
    simp [AccessorSerialize, Element.children, GetAccessors_GradFlagMaterial, List.flatMap]
  have hid : ∀ o : GradFlagMaterial,
      (GetAccessors_GradFlagMaterial T P).TryOpaqueSet o (⟨"MaterialId", none⟩, P.showUInt g._id) =
        { o with _id := g._id } := by
    intro o
    simp [ClassAccessors.TryOpaqueSet, GetAccessors_GradFlagMaterial, List.find?, DefaultSet, hU]
  have hkey : ∀ o : GradFlagMaterial,
      (GetAccessors_GradFlagMaterial T P).TryOpaqueSet o (⟨"Key", none⟩, P.showUInt g._id) = o := by
    intro o
    simp [ClassAccessors.TryOpaqueSet, GetAccessors_GradFlagMaterial, List.find?]
  simp only [AccessorDeserialize, hattrs, hchildren, List.foldl_append, List.foldl_cons,
    List.foldl_nil, hid, hkey, GradFlag_fold_Texture T P _ _ (le_refl _),
    GradFlag_fold_Mapping T P _ hF _ (le_refl _)]
  simp only [GradFlagMaterial.default]
  rw [foldl_set_range_eq "" g._texture _ _ (by simp [ht]) (by omega),
    foldl_set_range_eq 0 g._mappingConstant _ _ (by simp [hm]) (by omega)]

theorem ProcTexture_set_Texture (T : TerrainDecls) (P : Conversions) (o : ProcTextureSetting)
    (e : Nat) (v : String) (he : e < T.dimof_ProcTexture_texture) :
    (GetAccessors_ProcTextureSetting T P).TryOpaqueSet o (⟨"Texture", some e⟩, v) =
      { o with _texture := o._texture.set e v } := by
  simp [ClassAccessors.TryOpaqueSet, GetAccessors_ProcTextureSetting, List.find?,
    DefaultSetArray, he]

theorem ProcTexture_fold_Texture (T : TerrainDecls) (P : Conversions) (f : Nat → String)
    (n : Nat) (hn : n ≤ T.dimof_ProcTexture_texture) (o : ProcTextureSetting) :
    ((List.range n).map (fun e => ((⟨"Texture", some e⟩ : AttrName), f e))).foldl
        (GetAccessors_ProcTextureSetting T P).TryOpaqueSet o =
      { o with _texture := (List.range n).foldl (fun l e => l.set e (f e)) o._texture } := by
  induction n with
  | zero => simp
  | succ n ih =>
    rw [List.range_succ, List.map_append, List.foldl_append, ih (by omega), List.foldl_append]
    simp only [List.map_cons, List.map_nil, List.foldl_cons, List.foldl_nil]
    rw [ProcTexture_set_Texture T P _ n _ (by omega)]

/-- A procedural texture setting is read back from what the serializer writes
for it. -/
theorem ProcTextureSetting_round_trip (T : TerrainDecls) (P : Conversions)
    (hF : ∀ x, P.parseFloat (P.showFloat x) = some x)
    (name : String) (s : ProcTextureSetting)
    (ht : s._texture.length = T.dimof_ProcTexture_texture) :
    AccessorDeserialize (GetAccessors_ProcTextureSetting T P)
      (AccessorSerialize (GetAccessors_ProcTextureSetting T P) name s)
      (ProcTextureSetting.default T) = s := by
  have hattrs : (AccessorSerialize (GetAccessors_ProcTextureSetting T P) name s).attributes =
      [((⟨"Name", none⟩ : AttrName), s._name)] ++
      ((List.range T.dimof_ProcTexture_texture).map
        (fun e => ((⟨"Texture", some e⟩ : AttrName), s._texture.getD e ""))) ++
      [((⟨"HGrid", none⟩ : AttrName), P.showFloat s._hgrid),
       ((⟨"Gain", none⟩ : AttrName), P.showFloat s._gain)] := by
    simp [AccessorSerialize, Element.attributes, GetAccessors_ProcTextureSetting,
      Property.attributes, List.flatMap]
  have hchildren :
      (AccessorSerialize (GetAccessors_ProcTextureSetting T P) name s).children = [] := by
    simp [AccessorSerialize, Element.children, GetAccessors_ProcTextureSetting, List.flatMap]
  have hname : ∀ o : ProcTextureSetting,
      (GetAccessors_ProcTextureSetting T P).TryOpaqueSet o (⟨"Name", none⟩, s._name) =
        { o with _name := s._name } := by
    intro o
    simp [ClassAccessors.TryOpaqueSet, GetAccessors_ProcTextureSetting, List.find?, DefaultSet]
  have hhgrid : ∀ o : ProcTextureSetting,
      (GetAccessors_ProcTextureSetting T P).TryOpaqueSet o
        (⟨"HGrid", none⟩, P.showFloat s._hgrid) = { o with _hgrid := s._hgrid } := by
    intro o
    simp [ClassAccessors.TryOpaqueSet, GetAccessors_ProcTextureSetting, List.find?, DefaultSet,
      hF]
  have hgain : ∀ o : ProcTextureSetting,
      (GetAccessors_ProcTextureSetting T P).TryOpaqueSet o
        (⟨"Gain", none⟩, P.showFloat s._gain) = { o with _gain := s._gain } := by
    intro o
    simp [ClassAccessors.TryOpaqueSet, GetAccessors_ProcTextureSetting, List.find?, DefaultSet,
      hF]
  simp only [AccessorDeserialize, hattrs, hchildren, List.foldl_append, List.foldl_cons,
    List.foldl_nil, hname, hhgrid, hgain, ProcTexture_fold_Texture T P _ _ (le_refl _)]
  simp only [ProcTextureSetting.default]
  rw [foldl_set_range_eq "" s._texture _ _ (by simp [ht]) (by omega)]

theorem AccessorSerialize_name {Obj : Type} (props : ClassAccessors Obj) (name : String)
    (obj : Obj) : (AccessorSerialize props name obj).name = name := rfl

theorem filter_map_serialize_same {Obj : Type} (props : ClassAccessors Obj) (name : String)
    (l : List Obj) :
    (l.map (AccessorSerialize props name)).filter (fun e => e.name = name) =
      l.map (AccessorSerialize props name) := by
  apply List.filter_eq_self.mpr
  intro e he
  obtain ⟨x, -, rfl⟩ := List.mem_map.mp he
  simp [AccessorSerialize_name]

theorem filter_map_serialize_other {Obj : Type} (props : ClassAccessors Obj)
    (name other : String) (h : name ≠ other) (l : List Obj) :
    (l.map (AccessorSerialize props name)).filter (fun e => e.name = other) = [] := by
  apply List.filter_eq_nil_iff.mpr
  intro e he
  obtain ⟨x, -, rfl⟩ := List.mem_map.mp he
  simp [AccessorSerialize_name, h]

theorem map_round_trip {α : Type} (f : α → α) (l : List α) (h : ∀ x ∈ l, f x = x) :
    l.map f = l := by
  induction l with
  | nil => rfl
  | cons a rest ih =>
    rw [List.map_cons, h a (List.mem_cons_self a rest),
      ih (fun x hx => h x (List.mem_cons_of_mem a hx))]

/-- What the accessor-based constructor reads back from what `Write` produced. -/
theorem TerrainMaterialConfig.ofFormatter_Write (T : TerrainDecls) (P : Conversions)
    (c : TerrainMaterialConfig) (searchRules : List String)
    (hU : ∀ x, P.parseUInt (P.showUInt x) = some x)
    (hF : ∀ x, P.parseFloat (P.showFloat x) = some x)
    (hU2 : ∀ x, P.parseUInt2 (P.showUInt2 x) = some x)
    (hdim : T.dimof_GradFlag_mappingConstant ≤ T.dimof_GradFlag_texture)
    (hg : ∀ g ∈ c._gradFlagMaterials, g._texture.length = T.dimof_GradFlag_texture ∧
      g._mappingConstant.length = T.dimof_GradFlag_mappingConstant)
    (hp : ∀ s ∈ c._procTextures, s._texture.length = T.dimof_ProcTexture_texture) :
    TerrainMaterialConfig.ofFormatter T P (c.Write T P) searchRules =
      { c with _strataMaterials := [], _searchRules := [] } := by
  have hattrs : (c.Write T P).attributes =
      [((⟨"DiffuseDims", none⟩ : AttrName), P.showUInt2 c._diffuseDims),
       ((⟨"NormalDims", none⟩ : AttrName), P.showUInt2 c._normalDims),
       ((⟨"ParamDims", none⟩ : AttrName), P.showUInt2 c._paramDims),
       ((⟨"Specular", none⟩ : AttrName), P.showFloat c._specularParameter),
       ((⟨"RoughnessMin", none⟩ : AttrName), P.showFloat c._roughnessMin),
       ((⟨"RoughnessMax", none⟩ : AttrName), P.showFloat c._roughnessMax),
       ((⟨"ShadowSoftness", none⟩ : AttrName), P.showFloat c._shadowSoftness)] := by
    simp [TerrainMaterialConfig.Write, AccessorSerialize, Element.attributes,
      GetAccessors_TerrainMaterialConfig, Property.attributes, List.flatMap]
  have hchildren : (c.Write T P).children =
      c._gradFlagMaterials.map
        (AccessorSerialize (GetAccessors_GradFlagMaterial T P) "GradFlagMaterial") ++
      c._procTextures.map
        (AccessorSerialize (GetAccessors_ProcTextureSetting T P) "ProcTextureSetting") := by
    simp [TerrainMaterialConfig.Write, AccessorSerialize, Element.children,
      GetAccessors_TerrainMaterialConfig, ChildList.ofVector, List.flatMap]
  have hfold : (c.Write T P).attributes.foldl
      (GetAccessors_TerrainMaterialConfig T P).TryOpaqueSet TerrainMaterialConfig.default =
      { c with _strataMaterials := [], _searchRules := [], _gradFlagMaterials := [],
               _procTextures := [] } := by
    rw [hattrs]
    simp [ClassAccessors.TryOpaqueSet, GetAccessors_TerrainMaterialConfig, List.find?,
      DefaultSet, hF, hU2, TerrainMaterialConfig.default]
  have hmain : TerrainMaterialConfig.ofFormatter T P (c.Write T P) searchRules =
      (c.Write T P).children.foldl (GetAccessors_TerrainMaterialConfig T P).TryCreateChild
        ((c.Write T P).attributes.foldl (GetAccessors_TerrainMaterialConfig T P).TryOpaqueSet
          TerrainMaterialConfig.default) := rfl
  have e1 := map_round_trip
    ((fun e => AccessorDeserialize (GetAccessors_GradFlagMaterial T P) e
        (GradFlagMaterial.default T)) ∘
      AccessorSerialize (GetAccessors_GradFlagMaterial T P) "GradFlagMaterial")
    c._gradFlagMaterials
    (fun g hgm => GradFlagMaterial_round_trip T P hU hF hdim "GradFlagMaterial" g
      (hg g hgm).1 (hg g hgm).2)
  have e2 := map_round_trip
    ((fun e => AccessorDeserialize (GetAccessors_ProcTextureSetting T P) e
        (ProcTextureSetting.default T)) ∘
      AccessorSerialize (GetAccessors_ProcTextureSetting T P) "ProcTextureSetting")
    c._procTextures
    (fun s hsm => ProcTextureSetting_round_trip T P hF "ProcTextureSetting" s (hp s hsm))
  rw [hmain, hfold, foldl_TryCreateChild_TerrainMaterialConfig, hchildren]
  simp only [List.filter_append, filter_map_serialize_same,
    filter_map_serialize_other _ "ProcTextureSetting" "GradFlagMaterial" (by decide),
    filter_map_serialize_other _ "GradFlagMaterial" "ProcTextureSetting" (by decide),
    List.append_nil, List.nil_append, List.map_map]
  rw [e1, e2]

theorem sampleParse_sampleShow {α : Type} [Encodable α] (a : α) :
    sampleParse (sampleShow a) = some a := by
  simp [sampleParse, sampleShow, String.length]

/-- C6, refuted as stated: the sample configuration holds one strata material;
the configuration constructed from what `Write` produces for it holds none,
because the accessor table has no entry for `_strataMaterials`. -/
theorem TerrainMaterialConfig.Write_drops_strata_counterexample :
    TerrainMaterialConfig.sample._strataMaterials.length = 1 ∧
    (TerrainMaterialConfig.ofFormatter TerrainDecls.sample Conversions.sample
      (TerrainMaterialConfig.sample.Write TerrainDecls.sample Conversions.sample)
      [])._strataMaterials = [] ∧
    (TerrainMaterialConfig.ofFormatter TerrainDecls.sample Conversions.sample
      (TerrainMaterialConfig.sample.Write TerrainDecls.sample Conversions.sample)
      [])._strataMaterials ≠ TerrainMaterialConfig.sample._strataMaterials := by
  have h := (TerrainMaterialConfig.ofFormatter_lists TerrainDecls.sample Conversions.sample
    (TerrainMaterialConfig.sample.Write TerrainDecls.sample Conversions.sample) []).1
  refine ⟨rfl, h, ?_⟩
  rw [h]
  intro hnil
  have hlen := congrArg List.length hnil
  exact absurd hlen (by decide)

/-- C6, amended. Serialization round trip without the strata: for every
configuration `c` whose arrays have their declared lengths, constructing a
configuration from the structured text that `c.Write` produces yields the
texture dimensions, the four scalar settings, the grad-flag materials and the
procedural texture settings of `c`, and an empty `_strataMaterials`. The
hypotheses say that each text conversion reads back what it writes and that
`Mapping`, registered with `dimof(_texture)` elements, covers
`_mappingConstant`. -/
theorem TerrainMaterialConfig.Write_round_trip_except_strata (T : TerrainDecls)
    (P : Conversions) (c : TerrainMaterialConfig) (searchRules : List String)
    (hU : ∀ x, P.parseUInt (P.showUInt x) = some x)
    (hF : ∀ x, P.parseFloat (P.showFloat x) = some x)
    (hU2 : ∀ x, P.parseUInt2 (P.showUInt2 x) = some x)
    (hdim : T.dimof_GradFlag_mappingConstant ≤ T.dimof_GradFlag_texture)
    (hg : ∀ g ∈ c._gradFlagMaterials, g._texture.length = T.dimof_GradFlag_texture ∧
      g._mappingConstant.length = T.dimof_GradFlag_mappingConstant)
    (hp : ∀ s ∈ c._procTextures, s._texture.length = T.dimof_ProcTexture_texture) :
    (TerrainMaterialConfig.ofFormatter T P (c.Write T P) searchRules)._diffuseDims =
      c._diffuseDims ∧
    (TerrainMaterialConfig.ofFormatter T P (c.Write T P) searchRules)._normalDims =
      c._normalDims ∧
    (TerrainMaterialConfig.ofFormatter T P (c.Write T P) searchRules)._paramDims =
      c._paramDims ∧
    (TerrainMaterialConfig.ofFormatter T P (c.Write T P) searchRules)._specularParameter =
      c._specularParameter ∧
    (TerrainMaterialConfig.ofFormatter T P (c.Write T P) searchRules)._roughnessMin =
      c._roughnessMin ∧
    (TerrainMaterialConfig.ofFormatter T P (c.Write T P) searchRules)._roughnessMax =
      c._roughnessMax ∧
    (TerrainMaterialConfig.ofFormatter T P (c.Write T P) searchRules)._shadowSoftness =
      c._shadowSoftness ∧
    (TerrainMaterialConfig.ofFormatter T P (c.Write T P) searchRules)._gradFlagMaterials =
      c._gradFlagMaterials ∧
    (TerrainMaterialConfig.ofFormatter T P (c.Write T P) searchRules)._procTextures =
      c._procTextures ∧
    (TerrainMaterialConfig.ofFormatter T P (c.Write T P) searchRules)._strataMaterials = [] := by
  rw [TerrainMaterialConfig.ofFormatter_Write T P c searchRules hU hF hU2 hdim hg hp]
  exact ⟨rfl, rfl, rfl, rfl, rfl, rfl, rfl, rfl, rfl, rfl⟩

/-- C6 (amended) at a concrete input: the sample configuration with the sample
conversions. -/
theorem TerrainMaterialConfig.Write_round_trip_except_strata_witness :
    (TerrainMaterialConfig.ofFormatter TerrainDecls.sample Conversions.sample
      (TerrainMaterialConfig.sample.Write TerrainDecls.sample Conversions.sample)
      [])._gradFlagMaterials = TerrainMaterialConfig.sample._gradFlagMaterials ∧
    (TerrainMaterialConfig.ofFormatter TerrainDecls.sample Conversions.sample
      (TerrainMaterialConfig.sample.Write TerrainDecls.sample Conversions.sample)
      [])._procTextures = TerrainMaterialConfig.sample._procTextures ∧
    (TerrainMaterialConfig.ofFormatter TerrainDecls.sample Conversions.sample
      (TerrainMaterialConfig.sample.Write TerrainDecls.sample Conversions.sample)
      [])._diffuseDims = (64, 64) := by
  have h := TerrainMaterialConfig.Write_round_trip_except_strata TerrainDecls.sample
    Conversions.sample TerrainMaterialConfig.sample []
    (fun x => sampleParse_sampleShow x) (fun x => sampleParse_sampleShow x)
    (fun x => sampleParse_sampleShow x) (by decide)
    (by
      intro g hgm
      simp only [TerrainMaterialConfig.sample, List.mem_singleton] at hgm
      subst hgm
      exact ⟨rfl, rfl⟩)
    (by
      intro s hsm
      simp only [TerrainMaterialConfig.sample, List.mem_singleton] at hsm
      subst hsm
      rfl)
  exact ⟨h.2.2.2.2.2.2.2.1, h.2.2.2.2.2.2.2.2.1, h.1⟩

/-- C8, refuted as stated: on the sample document, which holds one top-level
`StrataMaterial` element, the three-argument constructor builds one strata
material and the accessor-based constructor none, so the two configurations
differ. -/
theorem TerrainMaterialConfig.constructors_differ_counterexample :
    (TerrainMaterialConfig.legacy TerrainDecls.sample Conversions.sample Element.sampleDoc
      [])._strataMaterials.length = 1 ∧
    (TerrainMaterialConfig.ofFormatter TerrainDecls.sample Conversions.sample Element.sampleDoc
      [])._strataMaterials = [] ∧
    TerrainMaterialConfig.legacy TerrainDecls.sample Conversions.sample Element.sampleDoc [] ≠
      TerrainMaterialConfig.ofFormatter TerrainDecls.sample Conversions.sample
        Element.sampleDoc [] := by
  have h1 : (TerrainMaterialConfig.legacy TerrainDecls.sample Conversions.sample
      Element.sampleDoc [])._strataMaterials.length = 1 := by
    simp only [TerrainMaterialConfig.legacy, legacy_fold_spec]
    simp [Element.sampleDoc, Element.children, Element.name, TerrainMaterialConfig.default,
      List.filter_cons]
  have h2 := (TerrainMaterialConfig.ofFormatter_lists TerrainDecls.sample Conversions.sample
    Element.sampleDoc []).1
  refine ⟨h1, h2, ?_⟩
  intro heq
  rw [heq, h2] at h1
  exact absurd h1 (by decide)

/-- C8, amended. The two deserialising constructors agree on how many grad-flag
materials they build: for every document and every search rules, both build
one `_gradFlagMaterials` entry for each top-level element named
`GradFlagMaterial`. They are not equivalent beyond that: the three-argument
constructor keeps the default texture dimensions and scalar settings, builds
one `_strataMaterials` entry for each top-level `StrataMaterial` element and
stores the search rules; the accessor-based constructor builds no
`_strataMaterials` entry. -/
theorem TerrainMaterialConfig.constructors_agreement (T : TerrainDecls) (P : Conversions)
    (doc : Element) (searchRules : List String) :
    (TerrainMaterialConfig.legacy T P doc searchRules)._gradFlagMaterials.length =
      (TerrainMaterialConfig.ofFormatter T P doc searchRules)._gradFlagMaterials.length ∧
    (TerrainMaterialConfig.ofFormatter T P doc searchRules)._gradFlagMaterials.length =
      doc.children.countP (fun e => e.name = "GradFlagMaterial") ∧
    (TerrainMaterialConfig.legacy T P doc searchRules)._strataMaterials.length =
      doc.children.countP (fun e => e.name = "StrataMaterial") ∧
    (TerrainMaterialConfig.ofFormatter T P doc searchRules)._strataMaterials = [] ∧
    (TerrainMaterialConfig.legacy T P doc searchRules)._searchRules = searchRules ∧
    (TerrainMaterialConfig.legacy T P doc searchRules)._diffuseDims = (32, 32) ∧
    (TerrainMaterialConfig.legacy T P doc searchRules)._normalDims = (32, 32) ∧
    (TerrainMaterialConfig.legacy T P doc searchRules)._paramDims = (32, 32) ∧
    (TerrainMaterialConfig.legacy T P doc searchRules)._specularParameter = 5 / 100 ∧
    (TerrainMaterialConfig.legacy T P doc searchRules)._roughnessMin = 7 / 10 ∧
    (TerrainMaterialConfig.legacy T P doc searchRules)._roughnessMax = 1 ∧
    (TerrainMaterialConfig.legacy T P doc searchRules)._shadowSoftness = 15 := by
  obtain ⟨n1, -, n3, -⟩ := TerrainMaterialConfig.ofFormatter_lists T P doc searchRules
  refine ⟨?_, ?_, ?_, n1, rfl, ?_, ?_, ?_, ?_, ?_, ?_, ?_⟩
  · rw [n3]
    simp [TerrainMaterialConfig.legacy, legacy_fold_spec, TerrainMaterialConfig.default]
  · rw [n3]
    simp [List.countP_eq_length_filter]
  · simp [TerrainMaterialConfig.legacy, legacy_fold_spec, TerrainMaterialConfig.default,
      List.countP_eq_length_filter]
  all_goals
    simp [TerrainMaterialConfig.legacy, legacy_fold_spec, TerrainMaterialConfig.default]

theorem legacyStrataMaterial_fold (f : Element → Strata) (l : List Element)
    (mat : StrataMaterial) :
    l.foldl (fun (mat : StrataMaterial) c => { mat with _strata := mat._strata ++ [f c] }) mat =
      { mat with _strata := mat._strata ++ l.map f } := by
  induction l generalizing mat with
  | nil => simp
  | cons c rest ih => simp [List.foldl_cons, ih]

theorem legacyStrataMaterial_spec (T : TerrainDecls) (P : Conversions) (matCfg : Element) :
    legacyStrataMaterial T P matCfg =
      { _id := Deserialize P.parseUInt matCfg "MaterialId" 0
        _strata := (match matCfg.ChildElement "Strata" with
          | some s => s.children
          | none => []).map (legacyStrata T P) } := by
  simp [legacyStrataMaterial, legacyStrataMaterial_fold, StrataMaterial.default]

theorem TerrainMaterialConfig.legacy_strataMaterials (T : TerrainDecls) (P : Conversions)
    (doc : Element) (searchRules : List String) :
    (TerrainMaterialConfig.legacy T P doc searchRules)._strataMaterials =
      (doc.children.filter (fun e => e.name = "StrataMaterial")).map
        (legacyStrataMaterial T P) := by
  simp [TerrainMaterialConfig.legacy, legacy_fold_spec, TerrainMaterialConfig.default]

theorem legacyStrata_texture (T : TerrainDecls) (P : Conversions) (c : Element)
    (ht : 3 ≤ T.dimof_Strata_texture) (t : Nat) (h3 : t < 3) :
    (legacyStrata T P c)._texture.getD t "" =
      if XlCompareStringI_ne (c.AttributeValue (TextureNames.getD t "")) "null"
      then c.AttributeValue (TextureNames.getD t "") else "" := by
  have hr : List.range TextureNames.length = [0, 1, 2] := rfl
  simp only [legacyStrata, hr, List.foldl_cons, List.foldl_nil, Strata.default]
  have hlen : ∀ i, i < 3 → i < (List.replicate T.dimof_Strata_texture "").length := by
    intro i hi
    simp
    omega
  have hd : ∀ i, (List.replicate T.dimof_Strata_texture "").getD i "" = "" := by
    intro i
    simp only [List.getD_eq_getElem?_getD, List.getElem?_replicate]
    split <;> rfl
  interval_cases t <;>
  · split_ifs <;> simp_all [getD_set_eq, TextureNames]

theorem legacyStrata_texture_fold_keeps (c : Element) (l : List Nat) (s : Strata) :
    (l.foldl (fun (newStrata : Strata) t =>
        if XlCompareStringI_ne (c.AttributeValue (TextureNames.getD t "")) "null" then
          { newStrata with
            _texture := newStrata._texture.set t (c.AttributeValue (TextureNames.getD t "")) }
        else newStrata) s)._mappingConstant = s._mappingConstant := by
  induction l generalizing s with
  | nil => rfl
  | cons t rest ih =>
    rw [List.foldl_cons, ih]
    split <;> rfl

theorem legacyStrata_mapping (T : TerrainDecls) (P : Conversions) (c : Element)
    (hm : 3 ≤ T.dimof_Strata_mappingConstant) :
    (legacyStrata T P c)._mappingConstant.getD 0 0 =
      (Deserialize P.parseFloat4 c "Mapping" (1, 1, 1, 1)).1 ∧
    (legacyStrata T P c)._mappingConstant.getD 1 0 =
      (Deserialize P.parseFloat4 c "Mapping" (1, 1, 1, 1)).2.1 ∧
    (legacyStrata T P c)._mappingConstant.getD 2 0 =
      (Deserialize P.parseFloat4 c "Mapping" (1, 1, 1, 1)).2.2.1 := by
  have hmc : (legacyStrata T P c)._mappingConstant =
      (((List.replicate T.dimof_Strata_mappingConstant (1 : ℚ)).set 0
        (Deserialize P.parseFloat4 c "Mapping" (1, 1, 1, 1)).1).set 1
        (Deserialize P.parseFloat4 c "Mapping" (1, 1, 1, 1)).2.1).set 2
        (Deserialize P.parseFloat4 c "Mapping" (1, 1, 1, 1)).2.2.1 := by
    simp only [legacyStrata, legacyStrata_texture_fold_keeps, Strata.default]
  rw [hmc]
  simp only [getD_set_eq, List.length_set, List.length_replicate]
  have h0 : 0 < T.dimof_Strata_mappingConstant := by omega
  have h1 : 1 < T.dimof_Strata_mappingConstant := by omega
  have h2 : 2 < T.dimof_Strata_mappingConstant := by omega
  simp [h0, h1, h2]

/-- C11. Strata material schema. For the `k`-th top-level element `e` named
`StrataMaterial`, the `k`-th entry of `_strataMaterials` that the legacy
constructor builds has `_id` equal to the `MaterialId` attribute of `e` (`0`
when absent) and one stratum for each child of the `Strata` element of `e`, in
order (none when `e` has no `Strata` element). The stratum built from a child
`c` has `_endHeight` equal to the `EndHeight` of `c` (`0` when absent), its
three mapping constants equal to the first three components of the `Mapping`
of `c` (`1, 1, 1` when absent), and slot `t` of `_texture` equal to the value
of the attribute `Texture0`, `Texture1`, `Slopes` for `t = 0, 1, 2`, unless
that value equals `null` ignoring case, in which case the slot stays empty.
The hypotheses say that the three texture slots and the three mapping slots
exist. -/
theorem TerrainMaterialConfig.legacy_strata_schema (T : TerrainDecls) (P : Conversions)
    (doc : Element) (searchRules : List String) (k : Nat) (e : Element)
    (ht : 3 ≤ T.dimof_Strata_texture) (hm : 3 ≤ T.dimof_Strata_mappingConstant)
    (he : (doc.children.filter (fun e => e.name = "StrataMaterial"))[k]? = some e) :
    ∃ mat, (TerrainMaterialConfig.legacy T P doc searchRules)._strataMaterials[k]? = some mat ∧
      mat._id = Deserialize P.parseUInt e "MaterialId" 0 ∧
      (e.Attribute "MaterialId" = none → mat._id = 0) ∧
      mat._strata = (match e.ChildElement "Strata" with
        | some s => s.children
        | none => []).map (legacyStrata T P) ∧
      ∀ c : Element,
        (legacyStrata T P c)._endHeight = Deserialize P.parseFloat c "EndHeight" 0 ∧
        (c.Attribute "EndHeight" = none → (legacyStrata T P c)._endHeight = 0) ∧
        (legacyStrata T P c)._mappingConstant.getD 0 0 =
          (Deserialize P.parseFloat4 c "Mapping" (1, 1, 1, 1)).1 ∧
        (legacyStrata T P c)._mappingConstant.getD 1 0 =
          (Deserialize P.parseFloat4 c "Mapping" (1, 1, 1, 1)).2.1 ∧
        (legacyStrata T P c)._mappingConstant.getD 2 0 =
          (Deserialize P.parseFloat4 c "Mapping" (1, 1, 1, 1)).2.2.1 ∧
        (c.Attribute "Mapping" = none →
          (legacyStrata T P c)._mappingConstant.getD 0 0 = 1 ∧
          (legacyStrata T P c)._mappingConstant.getD 1 0 = 1 ∧
          (legacyStrata T P c)._mappingConstant.getD 2 0 = 1) ∧
        (legacyStrata T P c)._texture.getD 0 "" =
          (if XlCompareStringI_ne (c.AttributeValue "Texture0") "null"
            then c.AttributeValue "Texture0" else "") ∧
        (legacyStrata T P c)._texture.getD 1 "" =
          (if XlCompareStringI_ne (c.AttributeValue "Texture1") "null"
            then c.AttributeValue "Texture1" else "") ∧
        (legacyStrata T P c)._texture.getD 2 "" =
          (if XlCompareStringI_ne (c.AttributeValue "Slopes") "null"
            then c.AttributeValue "Slopes" else "") := by
  refine ⟨legacyStrataMaterial T P e, ?_, ?_, ?_, ?_, ?_⟩
  · rw [TerrainMaterialConfig.legacy_strataMaterials, List.getElem?_map, he]
    rfl
  · rw [legacyStrataMaterial_spec]
  · intro hnone
    rw [legacyStrataMaterial_spec]
    simp [Deserialize, hnone]
  · rw [legacyStrataMaterial_spec]
  · intro c
    obtain ⟨m0, m1, m2⟩ := legacyStrata_mapping T P c hm
    refine ⟨rfl, ?_, m0, m1, m2, ?_, legacyStrata_texture T P c ht 0 (by omega),
      legacyStrata_texture T P c ht 1 (by omega), legacyStrata_texture T P c ht 2 (by omega)⟩
    · intro hnone
      simp [legacyStrata, Deserialize, hnone]
    · intro hnone
      rw [m0, m1, m2]
      simp [Deserialize, hnone]

/-- C11 at a concrete input: the sample document, whose `StrataMaterial`
element has a `Strata` element with one child. -/
theorem TerrainMaterialConfig.legacy_strata_schema_witness :
    ∃ mat, (TerrainMaterialConfig.legacy TerrainDecls.sample Conversions.sample
        Element.sampleDoc [])._strataMaterials[0]? = some mat ∧
      mat._strata.length = 1 ∧
      (legacyStrata TerrainDecls.sample Conversions.sample
        (.mk "One" [(⟨"Texture0", none⟩, "rock.dds")] []))._texture.getD 0 "" = "rock.dds" := by
  obtain ⟨mat, h0, -, -, hs, hc⟩ :=
    TerrainMaterialConfig.legacy_strata_schema TerrainDecls.sample Conversions.sample
      Element.sampleDoc [] 0
      (.mk "StrataMaterial" [(⟨"MaterialId", none⟩, "xxx")]
        [ .mk "Strata" [] [ .mk "One" [(⟨"Texture0", none⟩, "rock.dds")] [] ] ])
      (by decide) (by decide) (by rfl)
  refine ⟨mat, h0, ?_, ?_⟩
  · rw [hs]
    rfl
  · rw [(hc _).2.2.2.2.2.2.1]
    decide

/-- C18. The legacy constructor never produces procedural texture settings:
for every document `_procTextures` is empty after it. The branch that builds
a `ProcTextureSetting` stands behind the same test, `GradFlagMaterial`, as the
branch before it, so it is never taken: one round of the loop is the same as
a round with the two first branches only, no round changes `_procTextures`,
and a top-level element named `ProcTextureSetting` leaves the configuration
as it is. -/
theorem TerrainMaterialConfig.legacy_builds_no_procTextures (T : TerrainDecls)
    (P : Conversions) (doc : Element) (searchRules : List String) :
    (TerrainMaterialConfig.legacy T P doc searchRules)._procTextures = [] ∧
    (∀ (cfg : TerrainMaterialConfig) (matCfg : Element),
      legacyStep T P cfg matCfg =
        if matCfg.name = "StrataMaterial" then
          { cfg with
            _strataMaterials := cfg._strataMaterials ++ [legacyStrataMaterial T P matCfg] }
        else if matCfg.name = "GradFlagMaterial" then
          { cfg with
            _gradFlagMaterials := cfg._gradFlagMaterials ++ [legacyGradFlagMaterial T P matCfg] }
        else cfg) ∧
    (∀ (cfg : TerrainMaterialConfig) (matCfg : Element),
      (legacyStep T P cfg matCfg)._procTextures = cfg._procTextures) ∧
    (∀ (cfg : TerrainMaterialConfig) (matCfg : Element),
      matCfg.name = "ProcTextureSetting" → legacyStep T P cfg matCfg = cfg) := by
  refine ⟨?_, ?_, ?_, ?_⟩
  · simp [TerrainMaterialConfig.legacy, legacy_fold_spec, TerrainMaterialConfig.default]
  · intro cfg matCfg
    unfold legacyStep
    split_ifs <;> rfl
  · intro cfg matCfg
    unfold legacyStep
    split_ifs <;> rfl
  · intro cfg matCfg h
    have h1 : matCfg.name ≠ "StrataMaterial" := by rw [h]; decide
    have h2 : matCfg.name ≠ "GradFlagMaterial" := by rw [h]; decide
    simp [legacyStep, h1, h2]

/-- C13. Grad-flag materials are keyed by their numeric id. The accessor table
of `GradFlagMaterial` has a property `Key` and a property `MaterialId`; for
every material `m` their getters return the same value, the one of `m._id`;
`Key` has no setter, so an assignment through the table under the name `Key`,
with or without a subscript and whatever the text, leaves `m` as it is. -/
theorem GradFlagMaterial_Key_is_id (T : TerrainDecls) (P : Conversions)
    (m : GradFlagMaterial) :
    ∃ key materialId getKey getMaterialId,
      (GetAccessors_GradFlagMaterial T P).properties.find? (fun p => p.name = "Key") =
        some key ∧
      (GetAccessors_GradFlagMaterial T P).properties.find? (fun p => p.name = "MaterialId") =
        some materialId ∧
      key.getter = some getKey ∧
      materialId.getter = some getMaterialId ∧
      (∀ i, getKey m i = getMaterialId m i) ∧
      (∀ i, getKey m i = P.showUInt m._id) ∧
      key.setter = none ∧
      ∀ (index : Option Nat) (text : String),
        (GetAccessors_GradFlagMaterial T P).TryOpaqueSet m (⟨"Key", index⟩, text) = m := by
  refine ⟨{ name := "Key", fixedArrayLength := none,
             getter := some (fun mat _ => P.showUInt mat._id), setter := none },
    { name := "MaterialId", fixedArrayLength := none,
      getter := some (fun obj _ => P.showUInt obj._id),
      setter := some (DefaultSet P.parseUInt (fun obj v => { obj with _id := v })) },
    fun mat _ => P.showUInt mat._id, fun obj _ => P.showUInt obj._id,
    ?_, ?_, rfl, rfl, fun _ => rfl, fun _ => rfl, rfl, ?_⟩
  · simp [GetAccessors_GradFlagMaterial, List.find?]
  · simp [GetAccessors_GradFlagMaterial, List.find?]
  · intro index text
    simp [ClassAccessors.TryOpaqueSet, GetAccessors_GradFlagMaterial, List.find?]

/-- C15. `AsDelaySteps` maps each batch filter to a fixed list of delay steps:
`General` and `PreDepth` give `[OpaqueRender]`, `Transparent` gives
`[PostDeferred]`, `TransparentPreDepth` gives `[PostDeferred, SortedBlending]`,
`OITransparent` gives `[SortedBlending]`, `DMShadows` and `RayTracedShadows`
give `[OpaqueRender, PostDeferred, SortedBlending]`, any other value gives the
empty range. For each of the seven named filters the result is not empty, has
no repeated step, and lists its steps in the order OpaqueRender, PostDeferred,
SortedBlending. -/
theorem AsDelaySteps_table :
    AsDelaySteps .General = [.OpaqueRender] ∧
    AsDelaySteps .PreDepth = [.OpaqueRender] ∧
    AsDelaySteps .Transparent = [.PostDeferred] ∧
    AsDelaySteps .TransparentPreDepth = [.PostDeferred, .SortedBlending] ∧
    AsDelaySteps .OITransparent = [.SortedBlending] ∧
    AsDelaySteps .DMShadows = [.OpaqueRender, .PostDeferred, .SortedBlending] ∧
    AsDelaySteps .RayTracedShadows = [.OpaqueRender, .PostDeferred, .SortedBlending] ∧
    (∀ value, AsDelaySteps (.other value) = []) ∧
    (∀ filter : BatchFilter, (∀ value, filter ≠ .other value) →
      AsDelaySteps filter ≠ [] ∧ (AsDelaySteps filter).Nodup ∧
      (AsDelaySteps filter).Pairwise (fun a b => a.position < b.position)) := by
  refine ⟨rfl, rfl, rfl, rfl, rfl, rfl, rfl, fun _ => rfl, ?_⟩
  intro filter hf
  cases filter with
  | other value => exact absurd rfl (hf value)
  | _ => exact ⟨by decide, by decide, by decide⟩

/-- `SetDepthStencilView` away from the failing input. For every `SavedTargets`
`t`, every non-null view `dsv` and all counts in which `dsv` and the saved
depth target (if any) are alive, and in which `dsv`, when it is the saved
depth target itself, has a reference besides the one `t` holds: the call is
defined, the saved depth target is `dsv`, the counts are balanced, no other
count changes, the saved render targets and viewports are unchanged and
`ResetToOldTargets` binds `dsv`. -/
theorem SavedTargets.SetDepthStencilView_of_alive (D : Decls) (t : SavedTargets)
    (dsv : Handle) (refs : RefCounts) (ctx : DeviceContext) (hdsv : dsv ≠ 0)
    (hnew : 0 < refs dsv) (hold : t._oldDepthTarget ≠ 0 → 0 < refs t._oldDepthTarget)
    (hsame : t._oldDepthTarget = dsv → 1 < refs dsv) :
    ∃ r, t.SetDepthStencilView dsv refs = some r ∧
      r.1._oldDepthTarget = dsv ∧
      (t._oldDepthTarget ≠ 0 → t._oldDepthTarget ≠ dsv →
        r.2 t._oldDepthTarget = refs t._oldDepthTarget - 1 ∧ r.2 dsv = refs dsv + 1) ∧
      (t._oldDepthTarget = 0 → r.2 dsv = refs dsv + 1) ∧
      (t._oldDepthTarget = dsv → r.2 dsv = refs dsv) ∧
      (∀ view, view ≠ dsv → view ≠ t._oldDepthTarget → r.2 view = refs view) ∧
      r.1._oldTargets = t._oldTargets ∧
      r.1._oldViewports = t._oldViewports ∧
      r.1._oldViewportCount = t._oldViewportCount ∧
      (ctx.run (r.1.ResetToOldTargets D)).depthTarget = dsv := by
  by_cases h0 : t._oldDepthTarget = 0
  · refine ⟨({ t with _oldDepthTarget := dsv },
      fun h => if h = dsv then refs h + 1 else refs h), ?_, rfl, ?_, ?_, ?_, ?_, rfl, rfl, rfl,
      rfl⟩
    · simp [SavedTargets.SetDepthStencilView, AddRef, isAlive, h0, hnew]
    · intro h; exact absurd h0 h
    · intro _; simp
    · intro h; rw [h0] at h; exact absurd h.symm hdsv
    · intro view h1 _; simp [h1]
  · have ho := hold h0
    by_cases hs : t._oldDepthTarget = dsv
    · have h1 := hsame hs
      refine ⟨({ t with _oldDepthTarget := dsv }, fun h =>
        if h = dsv then (if h = t._oldDepthTarget then refs h - 1 else refs h) + 1
        else (if h = t._oldDepthTarget then refs h - 1 else refs h)), ?_, rfl, ?_, ?_, ?_, ?_,
        rfl, rfl, rfl, rfl⟩
      · have h2 : 0 < refs dsv - 1 := by omega
        simp [SavedTargets.SetDepthStencilView, AddRef, Release, isAlive, h0, hs, hnew, h2,
          hdsv]
      · intro _ hne; exact absurd hs hne
      · intro h; exact absurd h h0
      · intro _; simp [hs]
      · intro view hv1 hv2; simp [hv1, hv2]
    · refine ⟨({ t with _oldDepthTarget := dsv }, fun h =>
        if h = dsv then (if h = t._oldDepthTarget then refs h - 1 else refs h) + 1
        else (if h = t._oldDepthTarget then refs h - 1 else refs h)), ?_, rfl, ?_, ?_, ?_, ?_,
        rfl, rfl, rfl, rfl⟩
      · simp [SavedTargets.SetDepthStencilView, AddRef, Release, isAlive, h0, ho, hnew, hs,
          Ne.symm hs]
      · intro _ _; simp [hs, Ne.symm hs]
      · intro h; exact absurd h h0
      · intro h; exact absurd h hs
      · intro view hv1 hv2; simp [hv1, hv2]

/-- C16, the code at the failing input. The object saved from `sampleA` holds
the view `12` as its depth target, and its reference is the last one on the
view (count `1`). `SetDepthStencilView(12)` starts with `Release`, which takes
the count to zero, so the view is destroyed; the `AddRef` that follows goes
through the pointer to the destroyed view and the call has no defined result,
where the claim has a net change of zero and `ResetToOldTargets` binding the
view. The same input is reached from a default-constructed object: the view
is set while its owner holds one reference (count `1`, then `2`), the owner
releases its reference (count `1`), and the view is set again. With one more
reference on the view (count `2`) the call leaves the count at `2`, and with
another view (`50`) the counts are balanced. -/
theorem SavedTargets.SetDepthStencilView_frees_last_reference :
    (SavedTargets.ofContext Decls.sample DeviceContext.sampleA)._oldDepthTarget = 12 ∧
    (Release (fun _ => 1) 12).map (fun refs => (refs 12, isAlive refs 12)) = some (0, false) ∧
    ((Release (fun _ => 1) 12).bind (fun refs => AddRef refs 12)).isNone = true ∧
    ((SavedTargets.ofContext Decls.sample DeviceContext.sampleA).SetDepthStencilView 12
      (fun _ => 1)).isNone = true ∧
    (((SavedTargets.default Decls.sample).SetDepthStencilView 12 (fun _ => 1)).bind
      (fun r => Release r.2 12)).map (fun refs => refs 12) = some 1 ∧
    (((SavedTargets.default Decls.sample).SetDepthStencilView 12 (fun _ => 1)).bind
      (fun r => (Release r.2 12).bind (fun refs => r.1.SetDepthStencilView 12 refs))).isNone
      = true ∧
    ((SavedTargets.ofContext Decls.sample DeviceContext.sampleA).SetDepthStencilView 12
      (fun _ => 2)).map (fun r => (r.1._oldDepthTarget, r.2 12)) = some (12, 2) ∧
    ((SavedTargets.ofContext Decls.sample DeviceContext.sampleA).SetDepthStencilView 50
      (fun _ => 1)).map (fun r => (r.1._oldDepthTarget, r.2 12, r.2 50)) = some (50, 0, 2) := by
  decide

theorem SavedTargets.wellFormed_iff (D : Decls) (t : SavedTargets) :
    t.wellFormed D = true ↔
      t._oldTargets.length = D.dimof_oldTargets ∧
      t._oldViewports.length = D.dimof_oldViewports ∧
      (∀ i, D.MaxSimultaneousRenderTargetCount ≤ i → t._oldTargets.getD i 0 = 0) ∧
      (∀ i, D.MaxSimultaneousRenderTargetCount ≤ i →
        t._oldViewports.getD i D.ViewportDesc_ctor = D.ViewportDesc_ctor) := by
  simp only [SavedTargets.wellFormed, Bool.and_eq_true, beq_iff_eq, List.all_eq_true,
    List.mem_range, Bool.or_eq_true, decide_eq_true_eq]
  constructor
  · rintro ⟨⟨⟨h1, h2⟩, h3⟩, h4⟩
    refine ⟨h1, h2, ?_, ?_⟩
    · intro i hi
      by_cases hl : i < D.dimof_oldTargets
      · rcases h3 i hl with h | h
        · omega
        · exact h
      · exact getD_of_length_le _ _ _ (by omega)
    · intro i hi
      by_cases hl : i < D.dimof_oldViewports
      · rcases h4 i hl with h | h
        · omega
        · exact h
      · exact getD_of_length_le _ _ _ (by omega)
  · rintro ⟨h1, h2, h3, h4⟩
    refine ⟨⟨⟨h1, h2⟩, ?_⟩, ?_⟩
    · intro i _
      by_cases hi : i < D.MaxSimultaneousRenderTargetCount
      · exact Or.inl hi
      · exact Or.inr (h3 i (by omega))
    · intro i _
      by_cases hi : i < D.MaxSimultaneousRenderTargetCount
      · exact Or.inl hi
      · exact Or.inr (h4 i (by omega))

theorem SavedTargets.default_wellFormed (D : Decls) : (SavedTargets.default D).wellFormed D = true := by
  rw [SavedTargets.wellFormed_iff]
  refine ⟨by simp [SavedTargets.default], by simp [SavedTargets.default], ?_, ?_⟩
  · intro i _
    simp only [SavedTargets.default, List.getD_eq_getElem?_getD, List.getElem?_replicate]
    split <;> rfl
  · intro i _
    simp only [SavedTargets.default, List.getD_eq_getElem?_getD, List.getElem?_replicate]
    split <;> rfl

theorem SavedTargets.ext_fields (a b : SavedTargets) (h1 : a._oldTargets = b._oldTargets)
    (h2 : a._oldDepthTarget = b._oldDepthTarget) (h3 : a._oldViewports = b._oldViewports)
    (h4 : a._oldViewportCount = b._oldViewportCount) : a = b := by
  cases a
  cases b
  simp_all

/-- Move assignment between two well-formed `SavedTargets` hands over every
saved value. -/
theorem SavedTargets.moveAssign_fst_eq (D : Decls) (a b : SavedTargets)
    (ha : a.wellFormed D = true) (hb : b.wellFormed D = true) :
    (SavedTargets.moveAssign D a b).1 = b := by
  obtain ⟨a1, a2, a3, a4⟩ := (SavedTargets.wellFormed_iff D a).mp ha
  obtain ⟨b1, b2, b3, b4⟩ := (SavedTargets.wellFormed_iff D b).mp hb
  obtain ⟨m1, m2, m3, m4, m5, m6⟩ := moveAssign_fst_spec D a b
  apply SavedTargets.ext_fields _ _ _ m2 _ m1
  · apply list_ext_getD 0 _ _ (by rw [m3, a1, b1])
    intro i
    rw [m5 i]
    by_cases hi : i < D.MaxSimultaneousRenderTargetCount
    · by_cases hl : i < a._oldTargets.length
      · rw [if_pos ⟨hi, hl⟩]
      · rw [if_neg (fun h => hl h.2), getD_of_length_le _ _ _ (by omega),
          getD_of_length_le _ _ _ (by omega)]
    · rw [if_neg (fun h => hi h.1), a3 i (by omega), b3 i (by omega)]
  · apply list_ext_getD D.ViewportDesc_ctor _ _ (by rw [m4, a2, b2])
    intro i
    rw [m6 i]
    by_cases hi : i < D.MaxSimultaneousRenderTargetCount
    · by_cases hl : i < a._oldViewports.length
      · rw [if_pos ⟨hi, hl⟩]
      · rw [if_neg (fun h => hl h.2), getD_of_length_le _ _ _ (by omega),
          getD_of_length_le _ _ _ (by omega)]
    · rw [if_neg (fun h => hi h.1), a4 i (by omega), b4 i (by omega)]

/-- What a move assignment leaves in the destination is well formed whatever
the source held. -/
theorem SavedTargets.moveAssign_fst_wellFormed (D : Decls) (a b : SavedTargets)
    (ha : a.wellFormed D = true) : ((SavedTargets.moveAssign D a b).1).wellFormed D = true := by
  obtain ⟨a1, a2, a3, a4⟩ := (SavedTargets.wellFormed_iff D a).mp ha
  obtain ⟨-, -, m3, m4, m5, m6⟩ := moveAssign_fst_spec D a b
  rw [SavedTargets.wellFormed_iff]
  refine ⟨m3.trans a1, m4.trans a2, ?_, ?_⟩
  · intro i hi
    rw [m5 i, if_neg (fun h => absurd h.1 (by omega)), a3 i hi]
  · intro i hi
    rw [m6 i, if_neg (fun h => absurd h.1 (by omega)), a4 i hi]

theorem ProtectState.moveVertexBufferSlot_fold_spec (fromStrides fromOffsets : List Nat)
    (vb : List Handle) (strides offsets : List Nat) (fromVb : List Handle) (n : Nat) :
    (((List.range n).foldl (ProtectState.moveVertexBufferSlot fromStrides fromOffsets)
        ((vb, strides, offsets), fromVb)).1.1.length = vb.length) ∧
    (((List.range n).foldl (ProtectState.moveVertexBufferSlot fromStrides fromOffsets)
        ((vb, strides, offsets), fromVb)).1.2.1.length = strides.length) ∧
    (((List.range n).foldl (ProtectState.moveVertexBufferSlot fromStrides fromOffsets)
        ((vb, strides, offsets), fromVb)).1.2.2.length = offsets.length) ∧
    (∀ i, ((List.range n).foldl (ProtectState.moveVertexBufferSlot fromStrides fromOffsets)
        ((vb, strides, offsets), fromVb)).1.1.getD i 0 =
      if i < n ∧ i < vb.length then fromVb.getD i 0 else vb.getD i 0) ∧
    (∀ i, ((List.range n).foldl (ProtectState.moveVertexBufferSlot fromStrides fromOffsets)
        ((vb, strides, offsets), fromVb)).1.2.1.getD i 0 =
      if i < n ∧ i < strides.length then fromStrides.getD i 0 else strides.getD i 0) ∧
    (∀ i, ((List.range n).foldl (ProtectState.moveVertexBufferSlot fromStrides fromOffsets)
        ((vb, strides, offsets), fromVb)).1.2.2.getD i 0 =
      if i < n ∧ i < offsets.length then fromOffsets.getD i 0 else offsets.getD i 0) ∧
    (∀ i, ((List.range n).foldl (ProtectState.moveVertexBufferSlot fromStrides fromOffsets)
        ((vb, strides, offsets), fromVb)).2.getD i 0 =
      if i < n then 0 else fromVb.getD i 0) := by
  induction n with
  | zero => simp
  | succ n ih =>
    simp only [List.range_succ, List.foldl_append, List.foldl_cons, List.foldl_nil]
    obtain ⟨h1, h2, h3, h4, h5, h6, h7⟩ := ih
    refine ⟨?_, ?_, ?_, ?_, ?_, ?_, ?_⟩
    · simpa [ProtectState.moveVertexBufferSlot] using h1
    · simpa [ProtectState.moveVertexBufferSlot] using h2
    · simpa [ProtectState.moveVertexBufferSlot] using h3
    · intro i
      simp only [ProtectState.moveVertexBufferSlot]
      rw [getD_set_eq, h1, h4 i, h7 n]
      by_cases hi : n = i
      · subst hi
        by_cases hl : n < vb.length
        · simp [hl]
        · simp [hl]
      · have e1 : (i < n + 1) ↔ (i < n) := by omega
        simp only [hi, false_and, if_false, e1]
    · intro i
      simp only [ProtectState.moveVertexBufferSlot]
      rw [getD_set_eq, h2, h5 i]
      by_cases hi : n = i
      · subst hi
        by_cases hl : n < strides.length
        · simp [hl]
        · simp [hl]
      · have e1 : (i < n + 1) ↔ (i < n) := by omega
        simp only [hi, false_and, if_false, e1]
    · intro i
      simp only [ProtectState.moveVertexBufferSlot]
      rw [getD_set_eq, h3, h6 i]
      by_cases hi : n = i
      · subst hi
        by_cases hl : n < offsets.length
        · simp [hl]
        · simp [hl]
      · have e1 : (i < n + 1) ↔ (i < n) := by omega
        simp only [hi, false_and, if_false, e1]
    · intro i
      simp only [ProtectState.moveVertexBufferSlot]
      rw [getD_set_eq, h7 i]
      by_cases hi : n = i
      · subst hi
        by_cases hl : n < ((List.range n).foldl
            (ProtectState.moveVertexBufferSlot fromStrides fromOffsets)
            ((vb, strides, offsets), fromVb)).2.length
        · simp [hl]
        · have := h7 n
          rw [getD_of_length_le _ _ _ (Nat.le_of_not_lt hl), if_neg (lt_irrefl n)] at this
          rw [if_neg (fun h => hl h.2), if_neg (lt_irrefl n), if_pos (Nat.lt_succ_self n)]
          exact this.symm
      · have e1 : (i < n + 1) ↔ (i < n) := by omega
        simp only [hi, false_and, if_false, e1]

/-- The loop over the vertex-buffer slots hands over the three arrays when
both objects hold arrays of `s_vbCount` entries. -/
theorem ProtectState.moveVertexBuffers_eq (D : Decls) (vb : List Handle)
    (strides offsets : List Nat) (moveFrom : ProtectState)
    (s1 : vb.length = D.s_vbCount) (s2 : strides.length = D.s_vbCount)
    (s3 : offsets.length = D.s_vbCount) (hf : moveFrom.arraysSized D = true) :
    (ProtectState.moveVertexBuffers D vb strides offsets moveFrom).1 =
      (moveFrom._vertexBuffers, moveFrom._vbStrides, moveFrom._vbOffsets) := by
  simp only [ProtectState.arraysSized, Bool.and_eq_true, beq_iff_eq] at hf
  obtain ⟨⟨f1, f2⟩, f3⟩ := hf
  obtain ⟨h1, h2, h3, h4, h5, h6, -⟩ := ProtectState.moveVertexBufferSlot_fold_spec
    moveFrom._vbStrides moveFrom._vbOffsets vb strides offsets
    moveFrom._vertexBuffers D.s_vbCount
  have key : ∀ {α : Type} (d : α) (res own src : List α), res.length = own.length →
      own.length = D.s_vbCount → src.length = D.s_vbCount →
      (∀ i, res.getD i d = if i < D.s_vbCount ∧ i < own.length then src.getD i d
        else own.getD i d) → res = src := by
    intro α d res own src hl ho hsrc hget
    apply list_ext_getD d _ _ (by omega)
    intro i
    rw [hget i]
    by_cases hi : i < D.s_vbCount
    · rw [if_pos ⟨hi, by omega⟩]
    · rw [if_neg (fun h => hi h.1), getD_of_length_le _ _ _ (by omega),
        getD_of_length_le _ _ _ (by omega)]
  unfold ProtectState.moveVertexBuffers
  refine Prod.ext ?_ (Prod.ext ?_ ?_)
  · exact key 0 _ _ _ h1 s1 f1 h4
  · exact key 0 _ _ _ h2 s2 f2 h5
  · exact key 0 _ _ _ h3 s3 f3 h6

/-- Every `ProtectState` the capturing constructor builds is well formed, when
its uninitialised vertex-buffer arrays have `s_vbCount` entries. -/
theorem ProtectState.ctor_wellFormed (D : Decls) (junk : ProtectState) (context : Nat)
    (w : World) (states : Nat) (hj : junk.arraysSized D = true) :
    (ProtectState.ctor D junk context w states).wellFormed D = true := by
  simp only [ProtectState.arraysSized, Bool.and_eq_true, beq_iff_eq] at hj
  obtain ⟨⟨-, j2⟩, j3⟩ := hj
  simp only [ProtectState.wellFormed, ProtectState.arraysSized, Bool.and_eq_true, beq_iff_eq,
    ProtectState.ctor_targets, ProtectState.ctor_vertexBuffers, ProtectState.ctor_vbStrides,
    ProtectState.ctor_vbOffsets]
  refine ⟨?_, ⟨?_, ?_⟩, ?_⟩
  · split
    · exact SavedTargets.moveAssign_fst_wellFormed D _ _ (SavedTargets.default_wellFormed D)
    · exact SavedTargets.default_wellFormed D
  · split <;> simp
  · split
    · simp [DeviceContext.IAGetVertexBuffers]
    · exact j2
  · split
    · simp [DeviceContext.IAGetVertexBuffers]
    · exact j3

/-- Move construction from a well-formed `ProtectState` builds an object with
the members the source had. -/
theorem ProtectState.moveCtor_fst_eq (D : Decls) (junk p : ProtectState)
    (hp : p.wellFormed D = true) (hj : junk.arraysSized D = true) :
    (ProtectState.moveCtor D junk p).1 = p := by
  simp only [ProtectState.wellFormed, Bool.and_eq_true] at hp
  obtain ⟨hpt, hpa⟩ := hp
  simp only [ProtectState.arraysSized, Bool.and_eq_true, beq_iff_eq] at hj
  obtain ⟨⟨-, j2⟩, j3⟩ := hj
  have ht : (SavedTargets.moveCtor D p._targets).1 = p._targets :=
    SavedTargets.moveAssign_fst_eq D _ _ (SavedTargets.default_wellFormed D) hpt
  have hv := ProtectState.moveVertexBuffers_eq D (List.replicate D.s_vbCount 0)
    junk._vbStrides junk._vbOffsets p (by simp) j2 j3 hpa
  simp only [ProtectState.moveCtor, ht, hv]

/-- Move assignment from a well-formed `ProtectState` into a well-formed one
leaves in the destination the members the source had. -/
theorem ProtectState.moveAssign_destination_eq (D : Decls) (dst p : ProtectState)
    (hp : p.wellFormed D = true) (hd : dst.wellFormed D = true) :
    (ProtectState.moveAssign D dst p).1 = p := by
  simp only [ProtectState.wellFormed, Bool.and_eq_true] at hp hd
  obtain ⟨hpt, hpa⟩ := hp
  obtain ⟨hdt, hda⟩ := hd
  have hda' := hda
  simp only [ProtectState.arraysSized, Bool.and_eq_true, beq_iff_eq] at hda'
  obtain ⟨⟨d1, d2⟩, d3⟩ := hda'
  have ht : (SavedTargets.moveAssign D dst._targets p._targets).1 = p._targets :=
    SavedTargets.moveAssign_fst_eq D _ _ hdt hpt
  have hv := ProtectState.moveVertexBuffers_eq D dst._vertexBuffers dst._vbStrides
    dst._vbOffsets p d1 d2 d3 hpa
  simp only [ProtectState.moveAssign, ht, hv]

theorem ProtectState.no_call_of_null_context (D : Decls) (p : ProtectState) (w : World)
    (h : p._context = none) :
    p.ResetStates_trace D = [] ∧ p.ResetStates D w = (p, w) ∧ p.dtor D w = w := by
  simp [ProtectState.ResetStates, ProtectState.ResetStates_trace, ProtectState.dtor, h]

/-- C12. Moving a `ProtectState` transfers the obligation to restore. After move
construction or move assignment from `p`, `p` has a null context and the
bitfield `0`, so its `ResetStates` and its destructor issue no call and leave
every context as it is; the `ResetStates` of the destination issues exactly the
calls, on the same context and with the same captured values, that the
`ResetStates` of `p` would have issued before the move. The hypotheses say
that the arrays of the objects are as the constructors and the move
operations of `ProtectState` leave them (`ProtectState.ctor_wellFormed`); the
two objects of a move assignment are distinct. -/
theorem ProtectState.move_transfers_restore (D : Decls) (junk dst p : ProtectState)
    (w : World) (hp : p.wellFormed D = true) (hj : junk.arraysSized D = true)
    (hd : dst.wellFormed D = true) :
    ((ProtectState.moveCtor D junk p).2._context = none ∧
      (ProtectState.moveCtor D junk p).2._states = 0 ∧
      (ProtectState.moveCtor D junk p).2.ResetStates_trace D = [] ∧
      (ProtectState.moveCtor D junk p).2.ResetStates D w = ((ProtectState.moveCtor D junk p).2, w) ∧
      (ProtectState.moveCtor D junk p).2.dtor D w = w ∧
      (ProtectState.moveCtor D junk p).1.ResetStates_trace D = p.ResetStates_trace D) ∧
    ((ProtectState.moveAssign D dst p).2._context = none ∧
      (ProtectState.moveAssign D dst p).2._states = 0 ∧
      (ProtectState.moveAssign D dst p).2.ResetStates_trace D = [] ∧
      (ProtectState.moveAssign D dst p).2.ResetStates D w =
        ((ProtectState.moveAssign D dst p).2, w) ∧
      (ProtectState.moveAssign D dst p).2.dtor D w = w ∧
      (ProtectState.moveAssign D dst p).1.ResetStates_trace D = p.ResetStates_trace D) := by
  have c1 : (ProtectState.moveCtor D junk p).2._context = none := rfl
  have a1 : (ProtectState.moveAssign D dst p).2._context = none := rfl
  obtain ⟨c3, c4, c5⟩ := ProtectState.no_call_of_null_context D _ w c1
  obtain ⟨a3, a4, a5⟩ := ProtectState.no_call_of_null_context D _ w a1
  refine ⟨⟨c1, rfl, c3, c4, c5, ?_⟩, ⟨a1, rfl, a3, a4, a5, ?_⟩⟩
  · rw [ProtectState.moveCtor_fst_eq D junk p hp hj]
  · rw [ProtectState.moveAssign_destination_eq D dst p hp hd]

/-- C12 at a concrete input: a `ProtectState` that captured every state of
`sampleA`, moved into a new object and into a default-constructed one. -/
theorem ProtectState.move_transfers_restore_witness :
    (ProtectState.moveCtor Decls.sample ProtectState.sampleJunk3
      (ProtectState.ctor Decls.sample ProtectState.sampleJunk3 0
        (fun _ => DeviceContext.sampleA) 511)).1.ResetStates_trace Decls.sample =
      (ProtectState.ctor Decls.sample ProtectState.sampleJunk3 0
        (fun _ => DeviceContext.sampleA) 511).ResetStates_trace Decls.sample ∧
    (ProtectState.moveAssign Decls.sample
      (ProtectState.default Decls.sample ProtectState.sampleJunk3)
      (ProtectState.ctor Decls.sample ProtectState.sampleJunk3 0
        (fun _ => DeviceContext.sampleA) 511)).2.ResetStates_trace Decls.sample = [] := by
  have h := ProtectState.move_transfers_restore Decls.sample ProtectState.sampleJunk3
    (ProtectState.default Decls.sample ProtectState.sampleJunk3)
    (ProtectState.ctor Decls.sample ProtectState.sampleJunk3 0
      (fun _ => DeviceContext.sampleA) 511)
    (fun _ => DeviceContext.sampleA) (by decide) (by decide) (by decide)
  exact ⟨h.1.2.2.2.2.2, h.2.2.2.1⟩

/-! ## Overlay text -/

theorem length_dropWhile_le_self {α : Type} (p : α → Bool) (l : List α) :
    (l.dropWhile p).length ≤ l.length := by
  have h := congrArg List.length (List.takeWhile_append_dropWhile p l)
  rw [List.length_append] at h
  omega

theorem take_length_sub_dropWhile {α : Type} (p : α → Bool) (l : List α) :
    l.take (l.length - (l.dropWhile p).length) = l.takeWhile p := by
  have h := congrArg List.length (List.takeWhile_append_dropWhile p l)
  rw [List.length_append] at h
  have hlen : l.length - (l.dropWhile p).length = (l.takeWhile p).length := by omega
  rw [hlen]
  have h2 := @List.take_left' _ (l.takeWhile p) (l.dropWhile p) _ rfl
  rw [List.takeWhile_append_dropWhile] at h2
  exact h2

theorem length_eq_dropWhile_iff {α : Type} (p : α → Bool) (l : List α) :
    l.length = (l.dropWhile p).length ↔ l.takeWhile p = [] := by
  have h := congrArg List.length (List.takeWhile_append_dropWhile p l)
  rw [List.length_append] at h
  constructor
  · intro h1
    apply List.eq_nil_of_length_eq_zero
    omega
  · intro h1
    rw [h1] at h
    simp at h
    omega

theorem maximalRuns_nil (isSep : Char → Bool) : maximalRuns isSep [] = [] := by
  simp [maximalRuns]

theorem maximalRuns_cons_sep (isSep : Char → Bool) (c : Char) (t : List Char)
    (hc : isSep c = true) : maximalRuns isSep (c :: t) = maximalRuns isSep t := by
  simp [maximalRuns, hc]

theorem maximalRuns_single (isSep : Char → Bool) (text : List Char) (hne : text ≠ [])
    (htext : ∀ c ∈ text, ¬ isSep c = true) : maximalRuns isSep text = [text] := by
  rw [maximalRuns, List.splitOnP_eq_single isSep text htext]
  cases text with
  | nil => exact absurd rfl hne
  | cons a t => simp

theorem maximalRuns_append_sep (isSep : Char → Bool) (text : List Char) (hne : text ≠ [])
    (htext : ∀ c ∈ text, ¬ isSep c = true) (c : Char) (t : List Char) (hc : isSep c = true) :
    maximalRuns isSep (text ++ c :: t) = text :: maximalRuns isSep (c :: t) := by
  rw [maximalRuns_cons_sep isSep c t hc, maximalRuns,
    List.splitOnP_first isSep text htext c hc t]
  cases text with
  | nil => exact absurd rfl hne
  | cons a u => simp [maximalRuns]

theorem maximalRuns_cstr_dropWhile (isSep skip : Char → Bool)
    (hskip : ∀ c, skip c = (c != NUL && isSep c)) (buffer : List Char) :
    maximalRuns isSep (cstr (buffer.dropWhile skip)) = maximalRuns isSep (cstr buffer) := by
  induction buffer with
  | nil => rfl
  | cons c t ih =>
    by_cases h : skip c = true
    · rw [List.dropWhile_cons_of_pos h, ih]
      have h2 := h
      rw [hskip] at h2
      simp only [Bool.and_eq_true] at h2
      have hc : cstr (c :: t) = c :: cstr t := by
        simp [cstr, List.takeWhile_cons, h2.1]
      rw [hc, maximalRuns_cons_sep isSep c _ h2.2]
    · rw [List.dropWhile_cons_of_neg h]

theorem cstr_dropWhile_eq_nil (isSep skip scan : Char → Bool)
    (hskip : ∀ c, skip c = (c != NUL && isSep c))
    (hscan : ∀ c, scan c = (c != NUL && !isSep c)) (buffer : List Char)
    (h : (buffer.dropWhile skip).takeWhile scan = []) :
    cstr (buffer.dropWhile skip) = [] := by
  induction buffer with
  | nil => rfl
  | cons c t ih =>
    by_cases hs : skip c = true
    · rw [List.dropWhile_cons_of_pos hs] at h ⊢
      exact ih h
    · rw [List.dropWhile_cons_of_neg hs] at h ⊢
      have h1 : ¬ scan c = true := by
        intro hc
        simp [List.takeWhile_cons, hc] at h
      rw [hskip] at hs
      rw [hscan] at h1
      have hnul : (c != NUL) = false := by
        cases hn : (c != NUL) <;> cases hi : isSep c <;> simp_all
      simp [cstr, List.takeWhile_cons, hnul]

theorem cstr_split_scan (isSep scan : Char → Bool)
    (hscan : ∀ c, scan c = (c != NUL && !isSep c)) (start : List Char) :
    cstr start = start.takeWhile scan ++ cstr (start.dropWhile scan)
      ∧ (∀ c ∈ start.takeWhile scan, ¬ isSep c = true)
      ∧ (cstr (start.dropWhile scan) = []
          ∨ ∃ c t, cstr (start.dropWhile scan) = c :: t ∧ isSep c = true) := by
  induction start with
  | nil => exact ⟨rfl, by simp, Or.inl rfl⟩
  | cons c t ih =>
    by_cases hs : scan c = true
    · have h2 := hs
      rw [hscan] at h2
      simp only [Bool.and_eq_true] at h2
      rw [List.takeWhile_cons_of_pos hs, List.dropWhile_cons_of_pos hs]
      refine ⟨?_, ?_, ih.2.2⟩
      · have hc : cstr (c :: t) = c :: cstr t := by
          simp [cstr, List.takeWhile_cons, h2.1]
        rw [hc, ih.1, List.cons_append]
      · intro d hd
        rcases List.mem_cons.1 hd with rfl | hd
        · simpa using h2.2
        · exact ih.2.1 d hd
    · rw [List.takeWhile_cons_of_neg hs, List.dropWhile_cons_of_neg hs]
      refine ⟨rfl, by simp, ?_⟩
      rw [hscan] at hs
      by_cases hn : (c != NUL) = true
      · right
        refine ⟨c, cstr t, ?_, ?_⟩
        · simp [cstr, List.takeWhile_cons, hn]
        · cases hi : isSep c <;> simp_all
      · left
        simp [cstr, List.takeWhile_cons, hn]

theorem linesBelow_zero {F U : Type} (O : OverlayDecls F U) (lineHeight : F)
    (textPosition : Float2 F) : linesBelow O lineHeight 0 textPosition = textPosition := rfl

theorem linesBelow_succ {F U : Type} (O : OverlayDecls F U) (lineHeight : F) (k : Nat)
    (textPosition : Float2 F) :
    linesBelow O lineHeight (k + 1) textPosition
      = linesBelow O lineHeight k (advanceLine O lineHeight textPosition) := by
  simp only [linesBelow, advanceLine, Function.iterate_succ_apply]

theorem entryDraws_nil {F U : Type} (O : OverlayDecls F U) (quadMin : Float2 F → Float2 F)
    (Count colour : Nat) (lineHeight : F) (textPosition : Float2 F) :
    entryDraws O quadMin Count colour lineHeight textPosition [] = [] := rfl

theorem entryDraws_cons {F U : Type} (O : OverlayDecls F U) (quadMin : Float2 F → Float2 F)
    (Count colour : Nat) (lineHeight : F) (textPosition : Float2 F) (entry : List Char)
    (entries : List (List Char)) :
    entryDraws O quadMin Count colour lineHeight textPosition (entry :: entries)
      = expectedDraw O Count (quadMin textPosition) entry colour
        :: entryDraws O quadMin Count colour lineHeight (advanceLine O lineHeight textPosition)
            entries := by
  simp only [entryDraws, List.mapIdx_cons, linesBelow_zero, linesBelow_succ]

theorem drawEntries_spec {F U : Type} (O : OverlayDecls F U) (isSep skip scan : Char → Bool)
    (hskip : ∀ c, skip c = (c != NUL && isSep c))
    (hscan : ∀ c, scan c = (c != NUL && !isSep c))
    (quadMin : Float2 F → Float2 F) (Count colour : Nat) (lineHeight : F) :
    ∀ (fuel : Nat) (buffer : List Char) (textPosition : Float2 F)
      (calls : List (OverlayCall F U)), buffer.length < fuel →
      drawEntries O skip scan quadMin Count colour lineHeight fuel buffer textPosition calls
        = some (linesBelow O lineHeight (maximalRuns isSep (cstr buffer)).length textPosition,
            calls ++ entryDraws O quadMin Count colour lineHeight textPosition
              (maximalRuns isSep (cstr buffer))) := by
  intro fuel
  induction fuel with
  | zero => intro buffer _ _ h; omega
  | succ fuel ih =>
    intro buffer textPosition calls hlen
    rw [← maximalRuns_cstr_dropWhile isSep skip hskip buffer]
    simp only [drawEntries]
    have hle1 := length_dropWhile_le_self skip buffer
    have hle2 := length_dropWhile_le_self scan (buffer.dropWhile skip)
    by_cases hbreak : (buffer.dropWhile skip).length
        = ((buffer.dropWhile skip).dropWhile scan).length
    · rw [if_pos hbreak]
      have hnil := (length_eq_dropWhile_iff scan _).1 hbreak
      rw [cstr_dropWhile_eq_nil isSep skip scan hskip hscan buffer hnil, maximalRuns_nil]
      simp [entryDraws_nil, linesBelow_zero]
    · rw [if_neg hbreak]
      have hne : (buffer.dropWhile skip).takeWhile scan ≠ [] :=
        fun h => hbreak ((length_eq_dropWhile_iff scan _).2 h)
      obtain ⟨hsplit, htext, hrest⟩ := cstr_split_scan isSep scan hscan (buffer.dropWhile skip)
      have hruns : maximalRuns isSep (cstr (buffer.dropWhile skip))
          = (buffer.dropWhile skip).takeWhile scan
            :: maximalRuns isSep (cstr ((buffer.dropWhile skip).dropWhile scan)) := by
        rw [hsplit]
        rcases hrest with h0 | ⟨c, t, hct, hc⟩
        · rw [h0, List.append_nil, maximalRuns_nil]
          exact maximalRuns_single isSep _ hne htext
        · rw [hct]
          exact maximalRuns_append_sep isSep _ hne htext c t hc
      rw [ih _ _ _ (by omega), hruns, take_length_sub_dropWhile, entryDraws_cons,
        List.length_cons, linesBelow_succ]
      simp [expectedDraw]

theorem headD_eq_NUL_iff (buffer : List Char) : buffer.headD NUL = NUL ↔ cstr buffer = [] := by
  cases buffer with
  | nil => simp [cstr]
  | cons c t =>
    by_cases h : c = NUL
    · simp [cstr, List.takeWhile_cons, h]
    · simp [cstr, List.takeWhile_cons, h]

theorem indented_eq {F U : Type} (O : OverlayDecls F U) :
    indented O = fun p => { x := O.add p.x (O.lit 32), y := O.add p.y (O.lit 0) } := rfl

theorem assetSection_spec {F U : Type} (O : OverlayDecls F U) (header : String)
    (headerColour : Nat) (lineHeight : F) (fuel : Nat) (buffer : List Char)
    (textPosition : Float2 F) (calls : List (OverlayCall F U)) (hfuel : buffer.length < fuel) :
    (if buffer.headD NUL ≠ NUL then
        drawEntries O (fun c => c != NUL && c == ',') (fun c => c != NUL && c != ',')
          (indented O) 256 0xff7f7f7f lineHeight fuel buffer
          (drawHeader O header headerColour lineHeight textPosition calls).1
          (drawHeader O header headerColour lineHeight textPosition calls).2
      else some (textPosition, calls))
      = some (assetSectionEnd O lineHeight textPosition (cstr buffer),
          calls ++ assetSection O header headerColour lineHeight textPosition (cstr buffer)) := by
  by_cases h : cstr buffer = []
  · have h1 : ¬ buffer.headD NUL ≠ NUL := not_not.2 ((headD_eq_NUL_iff buffer).2 h)
    rw [if_neg h1]
    simp [assetSection, assetSectionEnd, h]
  · have h1 : buffer.headD NUL ≠ NUL := fun e => h ((headD_eq_NUL_iff buffer).1 e)
    rw [if_pos h1, drawEntries_spec O isComma _ _ (fun c => by simp [isComma])
      (fun c => by simp [isComma, bne]) _ _ _ _ _ _ _ _ hfuel]
    have hpos : (drawHeader O header headerColour lineHeight textPosition calls).1
        = advanceLine O lineHeight textPosition := rfl
    have hone : linesBelow O lineHeight 1 textPosition = advanceLine O lineHeight textPosition :=
      rfl
    rw [hpos, ← linesBelow_succ, ← hone, indented_eq]
    simp [assetSection, assetSectionEnd, h, drawHeader, expectedDraw]

/-- C17. Overlay text is split into its non-empty entries. For all strings (each the characters
of its array before the first NUL) and every bound on the iterations that exceeds the lengths
of the arrays, `DrawPendingResources` and `DrawQuickMetrics` terminate and make exactly the
expected calls: nothing when all the strings of the function are empty; otherwise the blend state
is bound, and then for the pending assets (if not empty) the header "Pending assets:" is drawn at
`(16, 16)` and one draw call follows for each maximal non-empty run of non-comma characters, in
order of occurrence, entry number `k` for the text position whose second coordinate is that of
the header with the line height added `k + 1` times; the same for the invalid assets under
"Invalid assets:", starting where the section before ended; and one draw call for each maximal
non-empty run of characters other than line feed and carriage return of the error string,
entry number `k` with the line height added `k` times to where the sections before ended, and
likewise of the quick-metrics string from the position `(16, 150)`. -/
theorem DrawPendingResources_splits_entries {F U : Type} (O : OverlayDecls F U) (lineHeight : F)
    (fuel : Nat) (_pendingAssets _invalidAssets _errorString _quickMetrics : List Char)
    (hfuel : _pendingAssets.length < fuel ∧ _invalidAssets.length < fuel
      ∧ _errorString.length < fuel ∧ _quickMetrics.length < fuel) :
    DrawPendingResources O lineHeight fuel _pendingAssets _invalidAssets _errorString
        = some (pendingResourcesCalls O lineHeight (cstr _pendingAssets) (cstr _invalidAssets)
            (cstr _errorString))
      ∧ DrawQuickMetrics O lineHeight fuel _quickMetrics
        = some (quickMetricsCalls O lineHeight (cstr _quickMetrics)) := by
  obtain ⟨hp, hi, he, hq⟩ := hfuel
  have hline : ∀ (buffer : List Char) (colour : Nat) (textPosition : Float2 F)
      (calls : List (OverlayCall F U)), buffer.length < fuel →
      drawEntries O (fun c => c != NUL && (c == LF || c == CR))
          (fun c => c != NUL && c != LF && c != CR) id 512 colour lineHeight fuel buffer
          textPosition calls
        = some (linesBelow O lineHeight (maximalRuns isLineBreak (cstr buffer)).length
              textPosition,
            calls ++ entryDraws O (fun p => p) 512 colour lineHeight textPosition
              (maximalRuns isLineBreak (cstr buffer))) := by
    intro buffer colour textPosition calls hb
    exact drawEntries_spec O isLineBreak _ _ (fun c => by simp [isLineBreak])
      (fun c => by
        cases h1 : (c != NUL) <;> cases h2 : (c == LF) <;> cases h3 : (c == CR) <;>
          simp_all [isLineBreak, bne])
      _ _ _ _ _ _ _ _ hb
  constructor
  · unfold DrawPendingResources pendingResourcesCalls
    by_cases hall : cstr _pendingAssets = [] ∧ cstr _invalidAssets = [] ∧ cstr _errorString = []
    · have h1 : _pendingAssets.headD NUL = NUL ∧ _invalidAssets.headD NUL = NUL
          ∧ _errorString.headD NUL = NUL :=
        ⟨(headD_eq_NUL_iff _).2 hall.1, (headD_eq_NUL_iff _).2 hall.2.1,
          (headD_eq_NUL_iff _).2 hall.2.2⟩
      rw [if_pos h1, if_pos hall]
    · have h1 : ¬ (_pendingAssets.headD NUL = NUL ∧ _invalidAssets.headD NUL = NUL
          ∧ _errorString.headD NUL = NUL) := fun h =>
        hall ⟨(headD_eq_NUL_iff _).1 h.1, (headD_eq_NUL_iff _).1 h.2.1,
          (headD_eq_NUL_iff _).1 h.2.2⟩
      rw [if_neg h1, if_neg hall]
      dsimp only
      have s1 := assetSection_spec O "Pending assets:" 0xffff7f7f lineHeight fuel _pendingAssets
        { x := O.lit 16, y := O.lit 16 } [OverlayCall.Bind_blendStraightAlpha] hp
      rw [s1]
      simp only [Option.some_bind, Option.bind]
      have s2 := assetSection_spec O "Invalid assets:" 0xff7f7f7f lineHeight fuel _invalidAssets
        (assetSectionEnd O lineHeight { x := O.lit 16, y := O.lit 16 } (cstr _pendingAssets))
        ([OverlayCall.Bind_blendStraightAlpha] ++ assetSection O "Pending assets:" 0xffff7f7f
          lineHeight { x := O.lit 16, y := O.lit 16 } (cstr _pendingAssets)) hi
      rw [s2]
      simp only [Option.some_bind, Option.bind]
      by_cases h3 : cstr _errorString = []
      · have h3a : ¬ _errorString.headD NUL ≠ NUL := not_not.2 ((headD_eq_NUL_iff _).2 h3)
        rw [if_neg h3a, h3, maximalRuns_nil]
        simp [entryDraws_nil]
      · have h3a : _errorString.headD NUL ≠ NUL := fun e => h3 ((headD_eq_NUL_iff _).1 e)
        rw [if_pos h3a, hline _ _ _ _ he]
        simp
  · unfold DrawQuickMetrics quickMetricsCalls
    by_cases h : cstr _quickMetrics = []
    · have h1 : ¬ _quickMetrics.headD NUL ≠ NUL := not_not.2 ((headD_eq_NUL_iff _).2 h)
      rw [if_neg h1, if_pos h]
    · have h1 : _quickMetrics.headD NUL ≠ NUL := fun e => h ((headD_eq_NUL_iff _).1 e)
      rw [if_pos h1, if_neg h]
      dsimp only
      rw [hline _ _ _ _ hq]
      simp

/-- C17 at a concrete input, with natural numbers for the floats and a line height of `10`:
the pending assets `,a,,bc,` give the header at `(16, 16)` and the entries `a` at `(48, 26)` and
`bc` at `(48, 36)`; the invalid assets `xy` give the header at `(16, 46)` and `xy` at
`(48, 56)`; the error string of the lines `e` and `f`, with characters after its NUL, gives `e`
at `(16, 66)` and `f` at `(16, 76)`; the quick metrics give `q` at `(16, 150)`. -/
theorem DrawPendingResources_splits_entries_witness :
    (([',', 'a', ',', ',', 'b', 'c', ','] : List Char).length < 8
        ∧ (['x', 'y'] : List Char).length < 8
        ∧ (['e', LF, CR, 'f', NUL, 'g'] : List Char).length < 8
        ∧ ([LF, 'q', CR] : List Char).length < 8)
      ∧ DrawPendingResources OverlayDecls.sample 10 8 [',', 'a', ',', ',', 'b', 'c', ',']
            ['x', 'y'] ['e', LF, CR, 'f', NUL, 'g']
          = some [OverlayCall.Bind_blendStraightAlpha,
              OverlayCall.Draw 16 16 "Pending assets:".toList 0xffff7f7f,
              OverlayCall.Draw 48 26 ['a'] 0xff7f7f7f,
              OverlayCall.Draw 48 36 ['b', 'c'] 0xff7f7f7f,
              OverlayCall.Draw 16 46 "Invalid assets:".toList 0xff7f7f7f,
              OverlayCall.Draw 48 56 ['x', 'y'] 0xff7f7f7f,
              OverlayCall.Draw 16 66 ['e'] 0xff7f7f7f,
              OverlayCall.Draw 16 76 ['f'] 0xff7f7f7f]
      ∧ DrawQuickMetrics OverlayDecls.sample 10 8 [LF, 'q', CR]
          = some [OverlayCall.Bind_blendStraightAlpha,
              OverlayCall.Draw 16 150 ['q'] 0xffcfcfcf] := by
  have h := DrawPendingResources_splits_entries OverlayDecls.sample 10 8
    [',', 'a', ',', ',', 'b', 'c', ','] ['x', 'y'] ['e', LF, CR, 'f', NUL, 'g'] [LF, 'q', CR]
    (by decide)
  exact ⟨by decide, h.1.trans (by decide), h.2.trans (by decide)⟩

theorem maximalRuns_example :
    maximalRuns isComma (cstr [',', 'a', ',', ',', 'b', 'c', ',', NUL, 'z'])
      = [['a'], ['b', 'c']] := by
  decide


end SceneEngine
